import Mathlib

/-!
# VulkanExample: the frame loop and its startup, embedded in Lean

The C++ sources `Application.cpp`, `Graphics.cpp`, `Error.hpp` are embedded as
pure Lean functions.  Every call into SDL, Vulkan or Dear ImGui is recorded, in
program order, in a list of `Call`s; whatever such a call gives back to the
program (result codes, image indices, sizes, events) is read from an
environment record, so every theorem holds for every behaviour of the
libraries and the driver.

Conventions:
* `uint32_t` fields are `Nat` (with an explicit `% 2^32` where the program
  adds), `int` and `VkResult` are `Int`;
* `float` values are compared with `0.0f` only, see `F32`;
* a function that may end the process returns an `Exec`, whose result is
  `Except.error` once the process has ended;
* a call into a library returns to the program: the program ends only by its
  own `abort()`, `exit()`, failed assertion, call through a null pointer or
  remainder by zero;
* an array read outside its bounds is not given a meaning of its own: the
  calls record the index.
-/

namespace VulkanExample

/-! ## Constants of the third-party headers -/

/-- The result code type of the graphics API (`VkResult`, a C enum over `int`). -/
abbrev VkResult := Int

/-- Value of `VK_SUCCESS` in `vulkan_core.h`. -/
def VK_SUCCESS : VkResult := 0
/-- Value of `VK_INCOMPLETE` in `vulkan_core.h`. -/
def VK_INCOMPLETE : VkResult := 5
/-- Value of `VK_NOT_READY` in `vulkan_core.h`. -/
def VK_NOT_READY : VkResult := 1
/-- Value of `VK_TIMEOUT` in `vulkan_core.h`. -/
def VK_TIMEOUT : VkResult := 2
/-- Value of `VK_ERROR_DEVICE_LOST` in `vulkan_core.h`. -/
def VK_ERROR_DEVICE_LOST : VkResult := -4
/-- Value of `VK_SUBOPTIMAL_KHR` in `vulkan_core.h`. -/
def VK_SUBOPTIMAL_KHR : VkResult := 1000001003
/-- Value of `VK_ERROR_OUT_OF_DATE_KHR` in `vulkan_core.h`. -/
def VK_ERROR_OUT_OF_DATE_KHR : VkResult := -1000001004

/-- Value of `VK_TRUE` in `vulkan_core.h`. -/
def VK_TRUE : Nat := 1
/-- Value of `VK_PHYSICAL_DEVICE_TYPE_DISCRETE_GPU` in `vulkan_core.h`. -/
def VK_PHYSICAL_DEVICE_TYPE_DISCRETE_GPU : Nat := 2
/-- Value of `VK_PHYSICAL_DEVICE_TYPE_INTEGRATED_GPU` in `vulkan_core.h`. -/
def VK_PHYSICAL_DEVICE_TYPE_INTEGRATED_GPU : Nat := 1
/-- Value of `VK_QUEUE_GRAPHICS_BIT` in `vulkan_core.h`. -/
def VK_QUEUE_GRAPHICS_BIT : Nat := 1
/-- Value of `VK_QUEUE_COMPUTE_BIT` in `vulkan_core.h`. -/
def VK_QUEUE_COMPUTE_BIT : Nat := 2
/-- Value of `VK_QUEUE_TRANSFER_BIT` in `vulkan_core.h`. -/
def VK_QUEUE_TRANSFER_BIT : Nat := 4

/-- Value of `SDL_QUIT` in `SDL_events.h`. -/
def SDL_QUIT : Nat := 0x100
/-- Value of `SDL_WINDOWEVENT` in `SDL_events.h`. -/
def SDL_WINDOWEVENT : Nat := 0x200
/-- Value of `SDL_KEYDOWN` in `SDL_events.h`. -/
def SDL_KEYDOWN : Nat := 0x300
/-- Value of `SDL_WINDOWEVENT_RESIZED` in `SDL_video.h`. -/
def SDL_WINDOWEVENT_RESIZED : Nat := 5
/-- Value of `SDL_WINDOWEVENT_CLOSE` in `SDL_video.h`. -/
def SDL_WINDOWEVENT_CLOSE : Nat := 14
/-- Value of `SDLK_ESCAPE` in `SDL_keycode.h`. -/
def SDLK_ESCAPE : Int := 27

/-! ## Data model -/

/-- The fields of the `SDL_Event` union that `Application::Run` reads:
`event.type`, `event.window.event`, `event.window.windowID`,
`event.key.keysym.sym`. -/
structure SDL_Event where
  type : Nat
  window_event : Nat
  window_windowID : Nat
  key_keysym_sym : Int
  deriving DecidableEq, Repr

/-- A `float` as far as the program looks at it: the program only compares
floats against `0.0f`, which for a finite float is the comparison of the number
it stands for, is false for a NaN, and is settled by the sign for an
infinity. -/
inductive F32 where
  | finite (v : Rat)
  | posInf
  | negInf
  | nan
  deriving DecidableEq

/-- The C++ comparison `x <= 0.0f`. -/
def F32.leZero : F32 → Bool
  | .finite v => decide (v ≤ 0)
  | .posInf => false
  | .negInf => true
  | .nan => false

/-- The C++ comparison `x > 0.0f`. -/
def F32.gtZero : F32 → Bool
  | .finite v => decide (0 < v)
  | .posInf => true
  | .negInf => false
  | .nan => false

/-- A `glm::vec4` / the four floats of `VkClearValue::color.float32`. -/
structure Vec4 where
  r : F32
  g : F32
  b : F32
  a : F32
  deriving DecidableEq

/-- The fields of `ImGui_ImplVulkanH_Window` that the program reads or
writes in the frame loop. -/
structure ImGui_ImplVulkanH_Window where
  ImageCount : Nat
  FrameIndex : Nat
  SemaphoreIndex : Nat
  ClearValue : Vec4
  deriving DecidableEq

/-- The members of `Graphics` (Graphics.hpp) that the program computes with;
the other members are driver handles.  `m_PhysicalDevice` is the index of the
chosen device in the enumeration, `none` when no such device exists. -/
structure Graphics where
  m_MainWindowData : ImGui_ImplVulkanH_Window
  m_MinImageCount : Nat
  m_showDemoWidow : Bool
  clearColor : Vec4
  m_QueueFamily : Nat
  m_PhysicalDevice : Option Nat
  deriving DecidableEq

/-- The `struct Window` of Application.h; `handler` is `0` for `nullptr`. -/
structure Window where
  width : Nat
  height : Nat
  title : String
  handler : Nat
  deriving DecidableEq

/-- The members of `Application` (Application.h).  The `Graphics` object is
owned through `m_graphics`, and its back pointer `m_Application` points at
this very object, so the methods of `Graphics` that go through
`m_Application` are functions on `Application` here. -/
structure Application where
  m_window : Window
  m_graphics : Graphics
  m_shouldClose : Bool
  m_SwapChainRebuild : Bool
  deriving DecidableEq

/-- The fields of `VkInstanceCreateInfo` that `Graphics::Init` sets; a name
array is the list of the strings it points at. -/
structure VkInstanceCreateInfo where
  enabledLayerCount : Nat
  ppEnabledLayerNames : List String
  enabledExtensionCount : Nat
  ppEnabledExtensionNames : List String
  deriving DecidableEq

/-- The preprocessor symbols the code depends on. -/
structure BuildConfig where
  /-- Whether `IMGUI_VULKAN_DEBUG_REPORT` is defined (Graphics.cpp, lines 7-9). -/
  debugReport : Bool
  /-- Whether `IM_ASSERT(e)` is `assert(e)` and `NDEBUG` is not defined. -/
  assertsEnabled : Bool
  /-- Whether `SDL_HINT_IME_SHOW_UI` is defined. -/
  imeShowUI : Bool
  deriving DecidableEq

/-- What SDL, the driver and Dear ImGui give back to the program while the
`Application` is constructed. -/
structure StartupEnv where
  /-- The value of `SDL_Init(...)`. -/
  sdlInit : Int
  /-- The string of `SDL_GetError()`. -/
  sdlError : String
  /-- The pointer returned by `SDL_CreateWindow`, `0` for `nullptr`. -/
  windowHandle : Nat
  /-- The names written by `SDL_Vulkan_GetInstanceExtensions`. -/
  instanceExtensions : List String
  createInstance : VkResult
  /-- The pointer returned by `vkGetInstanceProcAddr`, `0` for `nullptr`. -/
  createDebugReportProc : Nat
  createDebugReportCallback : VkResult
  enumerateCount : VkResult
  enumerateDevices : VkResult
  /-- The `deviceType` of each enumerated physical device, in order. -/
  deviceTypes : List Nat
  /-- The `queueFlags` of each queue family of the chosen device, in order. -/
  queueFlags : List Nat
  createDevice : VkResult
  createDescriptorPool : VkResult
  /-- The `SDL_bool` returned by `SDL_Vulkan_CreateSurface`. -/
  createSurface : Nat
  /-- The size written by `SDL_GetWindowSize`. -/
  windowSize : Int × Int
  /-- The `VkBool32` written by `vkGetPhysicalDeviceSurfaceSupportKHR`. -/
  surfaceSupport : Nat
  /-- The window data as `ImGui_ImplVulkanH_CreateOrResizeWindow` leaves it. -/
  createdWindow : ImGui_ImplVulkanH_Window
  /-- The pointer returned by `AddFontFromFileTTF`, `0` for `nullptr`. -/
  font : Nat
  uploadResetCommandPool : VkResult
  uploadBeginCommandBuffer : VkResult
  uploadEndCommandBuffer : VkResult
  uploadQueueSubmit : VkResult
  uploadDeviceWaitIdle : VkResult

/-- The values of `enum Error : int` (Error.hpp). -/
inductive Error where
  | SDLInitFailed
  | SDLWindowInitFailed
  | SDLVKSurfaceCreatedFailed
  | VKCreateFrameBufferFailed
  deriving DecidableEq

/-- The integer value of each enumerator of `Error` (Error.hpp, lines 5-8). -/
def Error.toInt : Error → Int
  | .SDLInitFailed => -1
  | .SDLWindowInitFailed => -2
  | .SDLVKSurfaceCreatedFailed => -3
  | .VKCreateFrameBufferFailed => -4

/-! ## Calls into the libraries, and program runs -/

/-- An argument passed to the variadic `Log::Message` after the format. -/
inductive LogArg where
  | int (v : Int)
  | str (s : String)
  deriving DecidableEq

/-- One call into SDL, Vulkan, Dear ImGui, the log or the C runtime.  The
arguments kept are those that vary: the semaphore slot (`wd->SemaphoreIndex`),
the frame (`wd->FrameIndex`), sizes and result codes.  `Log_Message` is a call
of `Log::Message` or of the free function `Message` of main.cpp, which has the
same body. -/
inductive Call where
  | SDL_PollEvent
  | ImGui_ImplSDL2_ProcessEvent (event : SDL_Event)
  | SDL_GetWindowID
  | SDL_GetWindowSize
  | ImGui_ImplVulkan_SetMinImageCount (minImageCount : Nat)
  | ImGui_ImplVulkanH_CreateOrResizeWindow (width height : Int) (minImageCount : Nat)
  | ImGui_ImplVulkan_NewFrame
  | ImGui_ImplSDL2_NewFrame
  | ImGui_NewFrame
  | ImGui_ShowDemoWindow
  | ImGui_Render
  | ImGui_GetDrawData
  | vkAcquireNextImageKHR (semaphoreSlot : Nat)
  | vkWaitForFences (frame : Nat)
  | vkResetFences (frame : Nat)
  | vkResetCommandPool (frame : Nat)
  | vkBeginCommandBuffer (frame : Nat)
  | vkCmdBeginRenderPass (frame : Nat)
  | ImGui_ImplVulkan_RenderDrawData (frame : Nat)
  | vkCmdEndRenderPass (frame : Nat)
  | vkEndCommandBuffer (frame : Nat)
  | vkQueueSubmit (waitSlot signalSlot fenceFrame : Nat)
  | vkQueuePresentKHR (waitSlot imageIndex : Nat)
  | vkQueueSubmit_noFence
  | vkDeviceWaitIdle
  | SDL_Init
  | SDL_GetError
  | SDL_SetHint (name value : String)
  | SDL_CreateWindow (title : String) (width height : Nat)
  | SDL_SetWindowMinimumSize (width height : Nat)
  | SDL_Vulkan_GetInstanceExtensions
  | SDL_Vulkan_CreateSurface
  | vkCreateInstance (createInfo : VkInstanceCreateInfo)
  | vkGetInstanceProcAddr (name : String)
  | vkCreateDebugReportCallbackEXT
  | vkEnumeratePhysicalDevices
  | vkGetPhysicalDeviceProperties (gpu : Nat)
  | vkGetPhysicalDeviceQueueFamilyProperties
  | vkCreateDevice (queueFamilyIndex : Nat) (extensions : List String)
  | vkGetDeviceQueue (queueFamilyIndex : Nat)
  | vkCreateDescriptorPool (maxSets poolSizeCount : Nat)
  | vkGetPhysicalDeviceSurfaceSupportKHR (queueFamilyIndex : Nat)
  | ImGui_ImplVulkanH_SelectSurfaceFormat
  | ImGui_ImplVulkanH_SelectPresentMode
  | ImGui_CreateContext
  | ImGui_GetIO_call
  | ImGui_StyleColorsDark
  | ImGui_ImplSDL2_InitForVulkan
  | ImGui_ImplVulkan_Init (queueFamily minImageCount imageCount : Nat)
  | AddFontFromFileTTF (path : String)
  | ImGui_ImplVulkan_CreateFontsTexture
  | ImGui_ImplVulkan_DestroyFontUploadObjects
  | ImGui_ImplVulkan_Shutdown
  | ImGui_ImplSDL2_Shutdown
  | ImGui_DestroyContext
  | ImGui_ImplVulkanH_DestroyWindow
  | vkDestroyDescriptorPool
  | vkDestroyDebugReportCallbackEXT
  | vkDestroyDevice
  | vkDestroyInstance
  | SDL_DestroyWindow
  | SDL_Quit
  | Log_Message (fmt : String) (args : List LogArg)
  | abort
  | exit (code : Int)

/-- How a run stops before the function at hand returns: `abort()`, `exit(code)`,
a call through a null function pointer, an integer division by zero, or, for
the frame loop only, the end of the supplied frame environments while the loop
is still running. -/
inductive Termination where
  | aborted
  | exited (code : Int)
  | nullCall
  | divisionByZero
  | stillRunning
  deriving DecidableEq

/-- A run of a piece of the program: the calls it made, in order, and either
the value it returned or how the process stopped. -/
structure Exec (α : Type) where
  calls : List Call
  result : Except Termination α

/-- Return without any call. -/
def Exec.ret {α : Type} (a : α) : Exec α := ⟨[], .ok a⟩

/-- Sequencing: the second part runs only when the first one returned. -/
def Exec.andThen {α β : Type} (m : Exec α) (f : α → Exec β) : Exec β :=
  match m.result with
  | .error t => ⟨m.calls, .error t⟩
  | .ok a => ⟨m.calls ++ (f a).calls, (f a).result⟩

instance : Monad Exec where
  pure := Exec.ret
  bind := Exec.andThen

/-- A call that returns. -/
def call (c : Call) : Exec Unit := ⟨[c], .ok ()⟩

/-- The C function `abort()`. -/
def abort {α : Type} : Exec α := ⟨[Call.abort], .error .aborted⟩

/-- The C function `exit(code)`. -/
def exit {α : Type} (code : Int) : Exec α := ⟨[Call.exit code], .error (.exited code)⟩

/-- A call through a null function pointer: the run ends there. -/
def nullCall {α : Type} : Exec α := ⟨[], .error .nullCall⟩

/-- The remainder `a % b` of two `uint32_t` values.  A zero divisor is undefined
behaviour in C++ and a division fault on the machine: the run ends there. -/
def urem (a b : Nat) : Exec Nat :=
  if b = 0 then ⟨[], .error .divisionByZero⟩ else pure (a % b)

/-- The macro `IM_ASSERT(cond)`: a failed assertion aborts when assertions are compiled
in, and is no code at all otherwise. -/
def IM_ASSERT (cfg : BuildConfig) (cond : Bool) : Exec Unit :=
  if cfg.assertsEnabled && !cond then abort else pure ()

/-- Whether a run returned to its caller. -/
def Exec.returns {α : Type} (m : Exec α) : Bool :=
  match m.result with
  | .ok _ => true
  | .error _ => false

/-! ## Graphics.cpp -/

/-- What SDL, Dear ImGui and the driver give back to the program during one
iteration of the loop of `Application::Run`.  `fmul` is the `float` product of
the machine, which `Graphics::Draw` uses for the clear colour. -/
structure FrameEnv where
  /-- The events `SDL_PollEvent` hands out before it reports an empty queue. -/
  events : List SDL_Event
  /-- The value of `SDL_GetWindowID(m_window.handler)`. -/
  windowID : Nat
  /-- The size written by `SDL_GetWindowSize`. -/
  windowSize : Int × Int
  /-- The window data as `ImGui_ImplVulkanH_CreateOrResizeWindow` leaves it. -/
  resized : ImGui_ImplVulkanH_Window
  /-- The value of `drawData->DisplaySize` after `ImGui::Render`. -/
  displaySize : F32 × F32
  /-- The result code of `vkAcquireNextImageKHR`. -/
  acquire : VkResult
  /-- The value of `wd->FrameIndex` once `vkAcquireNextImageKHR` has returned. -/
  acquiredImage : Nat
  waitForFences : VkResult
  resetFences : VkResult
  resetCommandPool : VkResult
  beginCommandBuffer : VkResult
  endCommandBuffer : VkResult
  queueSubmit : VkResult
  queuePresent : VkResult
  fmul : F32 → F32 → F32

/-- Embedding of `Graphics::CheckVkResult` (Graphics.cpp, lines 335-344). -/
def Graphics.CheckVkResult (err : VkResult) : Exec Unit :=
  if err = 0 then
    pure ()
  else do
    call (.Log_Message "[Vulkan] Error: VkResult = %d" [.int err])
    if err < 0 then
      abort
    else
      pure ()

/-- The members of a `Graphics` object before the body of its constructor runs:
the default member initialisers of Graphics.hpp, lines 41-55, the float
literals `0.45f, 0.55f, 0.60f, 1.0f` as the numbers they denote. -/
def Graphics.initial : Graphics :=
  { m_MainWindowData :=
      { ImageCount := 0, FrameIndex := 0, SemaphoreIndex := 0,
        ClearValue := ⟨.finite 0, .finite 0, .finite 0, .finite 0⟩ }
    m_MinImageCount := 2
    m_showDemoWidow := true
    clearColor :=
      ⟨.finite (7549747 / 16777216), .finite (9227469 / 16777216),
       .finite (5033165 / 8388608), .finite 1⟩
    m_QueueFamily := 2 ^ 32 - 1
    m_PhysicalDevice := none }

/-- The loop over the enumerated devices in `Graphics::Init` (Graphics.cpp,
lines 210-218; the same text in main.cpp, lines 134-142), from index `i` on; the list holds the device types of
`GPUs[i], GPUs[i+1], ...` and the value is the final `useGPU`. -/
def Graphics.selectGPU (useGPU : Nat) (i : Nat) : List Nat → Exec Nat
  | [] => pure useGPU
  | deviceType :: rest => do
    call (.vkGetPhysicalDeviceProperties i)
    if deviceType = VK_PHYSICAL_DEVICE_TYPE_DISCRETE_GPU then
      pure i
    else
      Graphics.selectGPU useGPU (i + 1) rest

/-- The loop over the queue families in `Graphics::Init` (Graphics.cpp, lines
230-235; the same text in main.cpp, lines 154-159), from index `i` on; the list holds the flags of `queues[i],
queues[i+1], ...` and the value is the final `m_QueueFamily`. -/
def Graphics.selectQueueFamily (m_QueueFamily : Nat) (i : Nat) : List Nat → Nat
  | [] => m_QueueFamily
  | queueFlags :: rest =>
    if queueFlags &&& VK_QUEUE_GRAPHICS_BIT ≠ 0 then
      i
    else
      Graphics.selectQueueFamily m_QueueFamily (i + 1) rest

/-- Embedding of `Graphics::Init` (Graphics.cpp, lines 145-286).  `GPUs[useGPU]` is the
device at that index of the enumeration, and `none` when there is none.  The
device loop counts in `int` up to `static_cast<int>(gpuCount)`, which is
negative from `2^31` on: the loop body does not run then. -/
def Graphics.Init (cfg : BuildConfig) (env : StartupEnv) (g : Graphics)
    (extensions : List String) (extensionCount : Nat) : Exec Graphics := do
  call (.Log_Message "Vulkan Extension Count: %d extensions supports." [.int extensionCount])
  -- Create Vulkan Instance
  let createInfo : VkInstanceCreateInfo :=
    { enabledLayerCount := 0, ppEnabledLayerNames := [],
      enabledExtensionCount := extensionCount, ppEnabledExtensionNames := extensions }
  if cfg.debugReport then do
    call (.Log_Message "IMGUI_VULKAN_DEBUG_REPORT is on." [])
    let layers := ["VK_LAYER_KHRONOS_validation"]
    let createInfo := { createInfo with enabledLayerCount := 1, ppEnabledLayerNames := layers }
    let extensionsEXT := extensions.take extensionCount ++ ["VK_EXT_debug_report"]
    let createInfo := { createInfo with enabledExtensionCount := (extensionCount + 1) % 2 ^ 32 }
    let createInfo := { createInfo with ppEnabledLayerNames := extensionsEXT }
    call (.vkCreateInstance createInfo)
    Graphics.CheckVkResult env.createInstance
    call (.vkGetInstanceProcAddr "vkCreateDebugReportCallbackEXT")
    IM_ASSERT cfg (decide (env.createDebugReportProc ≠ 0))
    if env.createDebugReportProc = 0 then nullCall else pure ()
    call .vkCreateDebugReportCallbackEXT
    Graphics.CheckVkResult env.createDebugReportCallback
  else do
    call (.vkCreateInstance createInfo)
    Graphics.CheckVkResult env.createInstance
  -- Setup GPU
  call .vkEnumeratePhysicalDevices
  Graphics.CheckVkResult env.enumerateCount
  let gpuCount := env.deviceTypes.length
  IM_ASSERT cfg (decide (gpuCount > 0))
  call .vkEnumeratePhysicalDevices
  Graphics.CheckVkResult env.enumerateDevices
  let useGPU ← Graphics.selectGPU 0 0 (if gpuCount < 2 ^ 31 then env.deviceTypes else [])
  let g := { g with m_PhysicalDevice := if useGPU < gpuCount then some useGPU else none }
  -- Select graphics queue family
  call .vkGetPhysicalDeviceQueueFamilyProperties
  call .vkGetPhysicalDeviceQueueFamilyProperties
  let g := { g with
    m_QueueFamily := Graphics.selectQueueFamily g.m_QueueFamily 0 env.queueFlags }
  IM_ASSERT cfg (decide (g.m_QueueFamily ≠ 2 ^ 32 - 1))
  -- Create Logical Device (with 1 queue)
  call (.vkCreateDevice g.m_QueueFamily ["VK_KHR_swapchain"])
  Graphics.CheckVkResult env.createDevice
  call (.vkGetDeviceQueue g.m_QueueFamily)
  -- Create Descriptor Pool
  call (.vkCreateDescriptorPool (1000 * 11) 11)
  Graphics.CheckVkResult env.createDescriptorPool
  pure g

/-- The constructor `Graphics::Graphics` (Graphics.cpp, lines 26-28). -/
def Graphics.new (cfg : BuildConfig) (env : StartupEnv) (extensions : List String)
    (extensionCount : Nat) : Exec Graphics :=
  Graphics.Init cfg env Graphics.initial extensions extensionCount

/-- Embedding of `Graphics::SetupVulkanWindow` (Graphics.cpp, lines 290-317). -/
def Graphics.SetupVulkanWindow (cfg : BuildConfig) (env : StartupEnv) (g : Graphics)
    (width height : Int) : Exec Graphics := do
  -- Check for WSI support
  call (.vkGetPhysicalDeviceSurfaceSupportKHR g.m_QueueFamily)
  if env.surfaceSupport ≠ VK_TRUE then do
    call (.Log_Message "Error no WSI support on physical device 0" [])
    exit Error.VKCreateFrameBufferFailed.toInt
  else do
    call .ImGui_ImplVulkanH_SelectSurfaceFormat
    call .ImGui_ImplVulkanH_SelectPresentMode
    -- Create SwapChain, RenderPass, Framebuffer, etc.
    IM_ASSERT cfg (decide (g.m_MinImageCount ≥ 2))
    call (.ImGui_ImplVulkanH_CreateOrResizeWindow width height g.m_MinImageCount)
    pure { g with m_MainWindowData := env.createdWindow }

/-- Embedding of `Graphics::CreateFrameBuffer` (Graphics.cpp, lines 35-38). -/
def Graphics.CreateFrameBuffer (cfg : BuildConfig) (env : StartupEnv) (g : Graphics)
    (width height : Int) : Exec Graphics :=
  Graphics.SetupVulkanWindow cfg env g width height

/-- Embedding of `Graphics::InitImGui` (Graphics.cpp, lines 40-102). -/
def Graphics.InitImGui (cfg : BuildConfig) (env : StartupEnv) (g : Graphics) : Exec Unit := do
  let wd := g.m_MainWindowData
  -- Setup Dear ImGui
  call .ImGui_CreateContext
  call .ImGui_GetIO_call
  call .ImGui_StyleColorsDark
  -- Setup Platform / Renderer backends.
  call .ImGui_ImplSDL2_InitForVulkan
  call (.ImGui_ImplVulkan_Init g.m_QueueFamily g.m_MinImageCount wd.ImageCount)
  -- Load font
  call (.AddFontFromFileTTF "assets\\fonts\\Fantasque Sans Mono Nerd Font.ttf")
  IM_ASSERT cfg (decide (env.font ≠ 0))
  -- Upload font
  call (.vkResetCommandPool wd.FrameIndex)
  Graphics.CheckVkResult env.uploadResetCommandPool
  call (.vkBeginCommandBuffer wd.FrameIndex)
  Graphics.CheckVkResult env.uploadBeginCommandBuffer
  call .ImGui_ImplVulkan_CreateFontsTexture
  call (.vkEndCommandBuffer wd.FrameIndex)
  Graphics.CheckVkResult env.uploadEndCommandBuffer
  call .vkQueueSubmit_noFence
  Graphics.CheckVkResult env.uploadQueueSubmit
  call .vkDeviceWaitIdle
  Graphics.CheckVkResult env.uploadDeviceWaitIdle
  call .ImGui_ImplVulkan_DestroyFontUploadObjects

/-- Embedding of `Graphics::RebuildSwapChain` (Graphics.cpp, lines 114-118). -/
def Graphics.RebuildSwapChain (g : Graphics) (env : FrameEnv) (width height : Int) :
    Exec Graphics := do
  call (.ImGui_ImplVulkan_SetMinImageCount g.m_MinImageCount)
  call (.ImGui_ImplVulkanH_CreateOrResizeWindow width height g.m_MinImageCount)
  let wd := env.resized
  pure { g with m_MainWindowData := { wd with FrameIndex := 0 } }

/-- Embedding of `Graphics::FrameRender` (Graphics.cpp, lines 346-410). -/
def Graphics.FrameRender (app : Application) (env : FrameEnv) : Exec Application := do
  let slot := app.m_graphics.m_MainWindowData.SemaphoreIndex
  call (.vkAcquireNextImageKHR slot)
  let err := env.acquire
  let wd := { app.m_graphics.m_MainWindowData with FrameIndex := env.acquiredImage }
  let app := { app with m_graphics := { app.m_graphics with m_MainWindowData := wd } }
  if err = VK_ERROR_OUT_OF_DATE_KHR ∨ err = VK_SUBOPTIMAL_KHR then
    pure { app with m_SwapChainRebuild := true }
  else do
    Graphics.CheckVkResult err
    let fd := wd.FrameIndex
    call (.vkWaitForFences fd)
    Graphics.CheckVkResult env.waitForFences
    call (.vkResetFences fd)
    Graphics.CheckVkResult env.resetFences
    call (.vkResetCommandPool fd)
    Graphics.CheckVkResult env.resetCommandPool
    call (.vkBeginCommandBuffer fd)
    Graphics.CheckVkResult env.beginCommandBuffer
    call (.vkCmdBeginRenderPass fd)
    call (.ImGui_ImplVulkan_RenderDrawData fd)
    call (.vkCmdEndRenderPass fd)
    call (.vkEndCommandBuffer fd)
    Graphics.CheckVkResult env.endCommandBuffer
    call (.vkQueueSubmit slot slot fd)
    Graphics.CheckVkResult env.queueSubmit
    pure app

/-- Embedding of `Graphics::FramePresent` (Graphics.cpp, lines 411-434).  The sum
`wd->SemaphoreIndex + 1` is a `uint32_t` sum; with `wd->ImageCount == 0` the
remainder on line 433 is a division by zero, which ends the run. -/
def Graphics.FramePresent (app : Application) (env : FrameEnv) : Exec Application :=
  if app.m_SwapChainRebuild then
    pure app
  else do
    let wd := app.m_graphics.m_MainWindowData
    call (.vkQueuePresentKHR wd.SemaphoreIndex wd.FrameIndex)
    let err := env.queuePresent
    if err = VK_ERROR_OUT_OF_DATE_KHR ∨ err = VK_SUBOPTIMAL_KHR then
      pure { app with m_SwapChainRebuild := true }
    else do
      Graphics.CheckVkResult err
      let next ← urem ((wd.SemaphoreIndex + 1) % 2 ^ 32) wd.ImageCount
      let wd := { wd with SemaphoreIndex := next }
      pure { app with m_graphics := { app.m_graphics with m_MainWindowData := wd } }

/-- Embedding of `Graphics::Draw` (Graphics.cpp, lines 120-143). -/
def Graphics.Draw (app : Application) (env : FrameEnv) : Exec Application := do
  call .ImGui_ImplVulkan_NewFrame
  call .ImGui_ImplSDL2_NewFrame
  call .ImGui_NewFrame
  if app.m_graphics.m_showDemoWidow then
    call .ImGui_ShowDemoWindow
  else
    pure ()
  call .ImGui_Render
  call .ImGui_GetDrawData
  let isMinimized := env.displaySize.1.leZero || env.displaySize.2.leZero
  if !isMinimized then
    let c := app.m_graphics.clearColor
    let clear : Vec4 := ⟨env.fmul c.r c.a, env.fmul c.g c.a, env.fmul c.b c.a, c.a⟩
    let wd := { app.m_graphics.m_MainWindowData with ClearValue := clear }
    let app := { app with m_graphics := { app.m_graphics with m_MainWindowData := wd } }
    let app ← Graphics.FrameRender app env
    Graphics.FramePresent app env
  else
    pure app

/-- Embedding of `Graphics::Cleanup` (Graphics.cpp, lines 104-112); `waitIdle` is the result
code of `vkDeviceWaitIdle`. -/
def Graphics.Cleanup (waitIdle : VkResult) : Exec Unit := do
  call .vkDeviceWaitIdle
  Graphics.CheckVkResult waitIdle
  call .ImGui_ImplVulkan_Shutdown
  call .ImGui_ImplSDL2_Shutdown
  call .ImGui_DestroyContext

/-- Embedding of `Graphics::CleanupVulkan` (Graphics.cpp, lines 319-329);
`destroyProc` is the pointer `vkGetInstanceProcAddr` returns for
`vkDestroyDebugReportCallbackEXT`, `0` for `nullptr`. -/
def Graphics.CleanupVulkan (cfg : BuildConfig) (destroyProc : Nat) : Exec Unit := do
  call .vkDestroyDescriptorPool
  if cfg.debugReport then do
    call (.vkGetInstanceProcAddr "vkDestroyDebugReportCallbackEXT")
    if destroyProc = 0 then nullCall else pure ()
    call .vkDestroyDebugReportCallbackEXT
  else
    pure ()
  call .vkDestroyDevice
  call .vkDestroyInstance

/-- Embedding of `Graphics::CleanupVulkanWindow` (Graphics.cpp, lines 331-333). -/
def Graphics.CleanupVulkanWindow : Exec Unit :=
  call .ImGui_ImplVulkanH_DestroyWindow

/-- The destructor `Graphics::~Graphics` (Graphics.cpp, lines 30-33). -/
def Graphics.destroy (cfg : BuildConfig) (destroyProc : Nat) : Exec Unit := do
  Graphics.CleanupVulkanWindow
  Graphics.CleanupVulkan cfg destroyProc

/-! ## Log.cpp -/

/-- The constant `Log::m_MessageBufferSize` (Log.hpp, line 14). -/
def Log.m_MessageBufferSize : Nat := 4096

/-- The content, as a C string, of a buffer of `size` chars after
`std::vsnprintf(buffer, size, fmt, args)`, where `expansion` is the text the
format and arguments expand to: at most `size - 1` chars of it, the last char
of the buffer being the terminator.  A conversion error (a negative return
value) is not modelled. -/
def vsnprintf (size : Nat) (expansion : List Char) : List Char :=
  expansion.take (size - 1)

/-- Embedding of `Log::Message` (Log.cpp, lines 6-14): the chars written to
`std::cout`.  `expand` is the expansion of a format and its arguments by the C
library, as a C string; `std::endl` writes a newline. -/
def Log.Message (expand : String → List LogArg → List Char) (fmt : String)
    (args : List LogArg) : List Char :=
  let buffer := vsnprintf Log.m_MessageBufferSize (expand fmt args)
  "[Message] ".toList ++ buffer ++ ['\n']

/-! ## Application.cpp -/

/-- The default member initialisers of `struct Window` (Application.h, lines
12-15). -/
def Window.default : Window :=
  { width := 1280, height := 720, title := "Hello World", handler := 0 }

/-- Embedding of `Application::InitSDLWindow` (Application.cpp, lines 24-50), on the member
`m_window`. -/
def Application.InitSDLWindow (cfg : BuildConfig) (env : StartupEnv) (m_window : Window) :
    Exec Window := do
  -- Initialize SDL
  call .SDL_Init
  if env.sdlInit ≠ 0 then do
    call .SDL_GetError
    call (.Log_Message "Oops! Failed to initialize SDL2, Error: %s" [.str env.sdlError])
    exit Error.SDLInitFailed.toInt
  else do
    call (.Log_Message "Initialize SDL2 successfully." [])
    if cfg.imeShowUI then
      call (.SDL_SetHint "SDL_HINT_IME_SHOW_UI" "1")
    else
      pure ()
    -- Create Window
    call (.SDL_CreateWindow m_window.title m_window.width m_window.height)
    let m_window := { m_window with handler := env.windowHandle }
    if m_window.handler = 0 then do
      call (.Log_Message "Failed to create SDL2 window." [])
      exit Error.SDLWindowInitFailed.toInt
    else do
      call (.Log_Message "Create a SDL2 window successfully." [])
      call (.SDL_SetWindowMinimumSize 400 300)
      pure m_window

/-- Embedding of `Application::InitVulkan` (Application.cpp, lines 52-77); the value is the
`Graphics` object `m_graphics` points at. -/
def Application.InitVulkan (cfg : BuildConfig) (env : StartupEnv) : Exec Graphics := do
  -- Create window with Vulkan graphics context
  call .SDL_Vulkan_GetInstanceExtensions
  let extensionCount := env.instanceExtensions.length
  call .SDL_Vulkan_GetInstanceExtensions
  let g ← Graphics.new cfg env env.instanceExtensions extensionCount
  -- Create Window Surface
  call .SDL_Vulkan_CreateSurface
  if env.createSurface = 0 then do
    call (.Log_Message "Failed to create Vulkan surface." [])
    exit Error.SDLVKSurfaceCreatedFailed.toInt
  else do
    call (.Log_Message "Create a Vulkan surface successfully." [])
    -- Create Frame buffers
    call .SDL_GetWindowSize
    let g ← Graphics.CreateFrameBuffer cfg env g env.windowSize.1 env.windowSize.2
    -- Init ImGui
    Graphics.InitImGui cfg env g
    pure g

/-- The constructors of `Application` (Application.cpp, lines 8-17):
`m_window` is `Window.default` for the first and `{ width, height, title,
nullptr }` for the second; both flags start clear (Application.h, lines 37-38). -/
def Application.new (cfg : BuildConfig) (env : StartupEnv) (m_window : Window) :
    Exec Application := do
  let m_window ← Application.InitSDLWindow cfg env m_window
  let m_graphics ← Application.InitVulkan cfg env
  pure { m_window := m_window, m_graphics := m_graphics, m_shouldClose := false,
         m_SwapChainRebuild := false }

/-- The body of the event loop of `Application::Run` (Application.cpp, lines
85-100) for one polled event. -/
def Application.handleEvent (app : Application) (windowID : Nat) (event : SDL_Event) :
    Exec Application := do
  call (.ImGui_ImplSDL2_ProcessEvent event)
  if event.type = SDL_QUIT then
    pure { app with m_shouldClose := true }
  else if event.type = SDL_WINDOWEVENT then
    if event.window_event = SDL_WINDOWEVENT_CLOSE then do
      call .SDL_GetWindowID
      if event.window_windowID = windowID then
        pure { app with m_shouldClose := true }
      else
        pure app
    else
      pure app
  else if event.type = SDL_KEYDOWN then
    if event.key_keysym_sym = SDLK_ESCAPE then
      pure { app with m_shouldClose := true }
    else
      pure app
  else
    pure app

/-- The event loop `while (SDL_PollEvent(&event))` of `Application::Run`
(Application.cpp, lines 83-101), over the events the queue holds. -/
def Application.pollEvents (app : Application) (windowID : Nat) :
    List SDL_Event → Exec Application
  | [] => do
    call .SDL_PollEvent
    pure app
  | event :: rest => do
    call .SDL_PollEvent
    let app ← Application.handleEvent app windowID event
    Application.pollEvents app windowID rest

/-- The block `// Resize Swap Chain` of `Application::Run` (Application.cpp,
lines 103-111). -/
def Application.resizeSwapChain (app : Application) (env : FrameEnv) : Exec Application :=
  if app.m_SwapChainRebuild then do
    call .SDL_GetWindowSize
    let width := env.windowSize.1
    let height := env.windowSize.2
    if width > 0 ∧ height > 0 then do
      let g ← Graphics.RebuildSwapChain app.m_graphics env width height
      pure { app with m_graphics := g, m_SwapChainRebuild := false }
    else
      pure app
  else
    pure app

/-- One pass through the body of `while (!m_shouldClose)` in `Application::Run`
(Application.cpp, lines 80-114). -/
def Application.iteration (app : Application) (env : FrameEnv) : Exec Application := do
  let app ← Application.pollEvents app env.windowID env.events
  let app ← Application.resizeSwapChain app env
  Graphics.Draw app env

/-- The loop `while (!m_shouldClose)` of `Application::Run`, one `FrameEnv` per
iteration.  When the environments run out while the flag is still clear the
run is cut off as `Termination.stillRunning`. -/
def Application.loop (app : Application) : List FrameEnv → Exec Application
  | [] => if app.m_shouldClose then pure app else ⟨[], .error .stillRunning⟩
  | env :: rest =>
    if app.m_shouldClose then
      pure app
    else do
      let app ← Application.iteration app env
      Application.loop app rest

/-- Embedding of `Application::Run` (Application.cpp, lines 79-118). -/
def Application.Run (app : Application) (frames : List FrameEnv) (waitIdle : VkResult) :
    Exec Application := do
  let app ← Application.loop app frames
  Graphics.Cleanup waitIdle
  pure app

/-- The destructor `Application::~Application` (Application.cpp, lines 19-22):
its body, and then the destruction of the members, of which `m_graphics`
holds the only reference to the `Graphics` object. -/
def Application.destroy (cfg : BuildConfig) (destroyProc : Nat) : Exec Unit := do
  call .SDL_DestroyWindow
  call .SDL_Quit
  Graphics.destroy cfg destroyProc

/-- Modelled from the spec: the code that owns the `Application` object is not
among the sources.  A clean shutdown is `Run` (which ends in
`Graphics::Cleanup`) followed by the end of the object's lifetime, that is by
its destructor. -/
def Application.runAndDestroy (cfg : BuildConfig) (app : Application)
    (frames : List FrameEnv) (waitIdle : VkResult) (destroyProc : Nat) : Exec Unit := do
  let _ ← Application.Run app frames waitIdle
  Application.destroy cfg destroyProc

/-! ## main.cpp -/

/-- The file-scope variables of main.cpp that the program computes with (lines
18-30) and the locals of `main` that live across the frame loop (lines 362
and 454-456). -/
structure MainState where
  g_PhysicalDevice : Option Nat
  g_QueueFamily : Nat
  g_MainWindowData : ImGui_ImplVulkanH_Window
  g_MinImageCount : Nat
  g_SwapChainRebuild : Bool
  window : Nat
  shouldClose : Bool
  showDemoWidow : Bool
  clearColor : Vec4
  deriving DecidableEq

/-- Embedding of the free function `CheckVkResult` (main.cpp, lines 43-52). -/
def Main.CheckVkResult (err : VkResult) : Exec Unit :=
  if err = 0 then
    pure ()
  else do
    call (.Log_Message "[Vulkan] Error: VkResult = %d" [.int err])
    if err < 0 then
      abort
    else
      pure ()

/-- Embedding of the free function `SetupVulkan` (main.cpp, lines 69-210); the
value is the pair of `g_PhysicalDevice` and `g_QueueFamily` it leaves. -/
def Main.SetupVulkan (cfg : BuildConfig) (env : StartupEnv) (g_QueueFamily : Nat)
    (extensions : List String) (extensionCount : Nat) : Exec (Option Nat × Nat) := do
  call (.Log_Message "Vulkan Extension Count: %d extensions supports." [.int extensionCount])
  -- Create Vulkan Instance
  let createInfo : VkInstanceCreateInfo :=
    { enabledLayerCount := 0, ppEnabledLayerNames := [],
      enabledExtensionCount := extensionCount, ppEnabledExtensionNames := extensions }
  if cfg.debugReport then do
    let layers := ["VK_LAYER_KHRONOS_validation"]
    let createInfo := { createInfo with enabledLayerCount := 1, ppEnabledLayerNames := layers }
    let extensionsEXT := extensions.take extensionCount ++ ["VK_EXT_debug_report"]
    let createInfo := { createInfo with enabledExtensionCount := (extensionCount + 1) % 2 ^ 32 }
    let createInfo := { createInfo with ppEnabledLayerNames := extensionsEXT }
    call (.vkCreateInstance createInfo)
    Main.CheckVkResult env.createInstance
    call (.vkGetInstanceProcAddr "vkCreateDebugReportCallbackEXT")
    IM_ASSERT cfg (decide (env.createDebugReportProc ≠ 0))
    if env.createDebugReportProc = 0 then nullCall else pure ()
    call .vkCreateDebugReportCallbackEXT
    Main.CheckVkResult env.createDebugReportCallback
  else do
    call (.vkCreateInstance createInfo)
    Main.CheckVkResult env.createInstance
  -- Setup GPU
  call .vkEnumeratePhysicalDevices
  Main.CheckVkResult env.enumerateCount
  let gpuCount := env.deviceTypes.length
  IM_ASSERT cfg (decide (gpuCount > 0))
  call .vkEnumeratePhysicalDevices
  Main.CheckVkResult env.enumerateDevices
  let useGPU ← Graphics.selectGPU 0 0 (if gpuCount < 2 ^ 31 then env.deviceTypes else [])
  let g_PhysicalDevice := if useGPU < gpuCount then some useGPU else none
  -- Select graphics queue family
  call .vkGetPhysicalDeviceQueueFamilyProperties
  call .vkGetPhysicalDeviceQueueFamilyProperties
  let g_QueueFamily := Graphics.selectQueueFamily g_QueueFamily 0 env.queueFlags
  IM_ASSERT cfg (decide (g_QueueFamily ≠ 2 ^ 32 - 1))
  -- Create Logical Device (with 1 queue)
  call (.vkCreateDevice g_QueueFamily ["VK_KHR_swapchain"])
  Main.CheckVkResult env.createDevice
  call (.vkGetDeviceQueue g_QueueFamily)
  -- Create Descriptor Pool
  call (.vkCreateDescriptorPool (1000 * 11) 11)
  Main.CheckVkResult env.createDescriptorPool
  pure (g_PhysicalDevice, g_QueueFamily)

/-- Embedding of the free function `SetupVulkanWindow` (main.cpp, lines
214-241); the value is the window data `*wd` it leaves. -/
def Main.SetupVulkanWindow (cfg : BuildConfig) (env : StartupEnv) (g_QueueFamily : Nat)
    (g_MinImageCount : Nat) (width height : Int) : Exec ImGui_ImplVulkanH_Window := do
  -- Check for WSI support
  call (.vkGetPhysicalDeviceSurfaceSupportKHR g_QueueFamily)
  if env.surfaceSupport ≠ VK_TRUE then do
    call (.Log_Message "Error no WSI support on physical device 0" [])
    exit (-1)
  else do
    call .ImGui_ImplVulkanH_SelectSurfaceFormat
    call .ImGui_ImplVulkanH_SelectPresentMode
    -- Create SwapChain, RenderPass, Framebuffer, etc.
    IM_ASSERT cfg (decide (g_MinImageCount ≥ 2))
    call (.ImGui_ImplVulkanH_CreateOrResizeWindow width height g_MinImageCount)
    pure env.createdWindow

/-- Embedding of the free function `FrameRender` (main.cpp, lines 243-305);
`wd` is always `&g_MainWindowData`. -/
def Main.FrameRender (s : MainState) (env : FrameEnv) : Exec MainState := do
  let slot := s.g_MainWindowData.SemaphoreIndex
  call (.vkAcquireNextImageKHR slot)
  let err := env.acquire
  let wd := { s.g_MainWindowData with FrameIndex := env.acquiredImage }
  let s := { s with g_MainWindowData := wd }
  if err = VK_ERROR_OUT_OF_DATE_KHR ∨ err = VK_SUBOPTIMAL_KHR then
    pure { s with g_SwapChainRebuild := true }
  else do
    Main.CheckVkResult err
    let fd := wd.FrameIndex
    call (.vkWaitForFences fd)
    Main.CheckVkResult env.waitForFences
    call (.vkResetFences fd)
    Main.CheckVkResult env.resetFences
    call (.vkResetCommandPool fd)
    Main.CheckVkResult env.resetCommandPool
    call (.vkBeginCommandBuffer fd)
    Main.CheckVkResult env.beginCommandBuffer
    call (.vkCmdBeginRenderPass fd)
    call (.ImGui_ImplVulkan_RenderDrawData fd)
    call (.vkCmdEndRenderPass fd)
    call (.vkEndCommandBuffer fd)
    Main.CheckVkResult env.endCommandBuffer
    call (.vkQueueSubmit slot slot fd)
    Main.CheckVkResult env.queueSubmit
    pure s

/-- Embedding of the free function `FramePresent` (main.cpp, lines 307-329);
`wd` is always `&g_MainWindowData`.  As in `Graphics.FramePresent`, the
remainder by `wd->ImageCount == 0` on line 328 ends the run. -/
def Main.FramePresent (s : MainState) (env : FrameEnv) : Exec MainState :=
  if s.g_SwapChainRebuild then
    pure s
  else do
    let wd := s.g_MainWindowData
    call (.vkQueuePresentKHR wd.SemaphoreIndex wd.FrameIndex)
    let err := env.queuePresent
    if err = VK_ERROR_OUT_OF_DATE_KHR ∨ err = VK_SUBOPTIMAL_KHR then
      pure { s with g_SwapChainRebuild := true }
    else do
      Main.CheckVkResult err
      let next ← urem ((wd.SemaphoreIndex + 1) % 2 ^ 32) wd.ImageCount
      let wd := { wd with SemaphoreIndex := next }
      pure { s with g_MainWindowData := wd }

/-- Embedding of the free function `CleanupVulkanWindow` (main.cpp, lines
331-333). -/
def Main.CleanupVulkanWindow : Exec Unit :=
  call .ImGui_ImplVulkanH_DestroyWindow

/-- Embedding of the free function `CleanupVulkan` (main.cpp, lines 335-345). -/
def Main.CleanupVulkan (cfg : BuildConfig) (destroyProc : Nat) : Exec Unit := do
  call .vkDestroyDescriptorPool
  if cfg.debugReport then do
    call (.vkGetInstanceProcAddr "vkDestroyDebugReportCallbackEXT")
    if destroyProc = 0 then nullCall else pure ()
    call .vkDestroyDebugReportCallbackEXT
  else
    pure ()
  call .vkDestroyDevice
  call .vkDestroyInstance

/-- The body of the event loop of `main` (main.cpp, lines 463-478) for one
polled event. -/
def Main.handleEvent (s : MainState) (windowID : Nat) (event : SDL_Event) :
    Exec MainState := do
  call (.ImGui_ImplSDL2_ProcessEvent event)
  if event.type = SDL_QUIT then
    pure { s with shouldClose := true }
  else if event.type = SDL_WINDOWEVENT then
    if event.window_event = SDL_WINDOWEVENT_CLOSE then do
      call .SDL_GetWindowID
      if event.window_windowID = windowID then
        pure { s with shouldClose := true }
      else
        pure s
    else
      pure s
  else if event.type = SDL_KEYDOWN then
    if event.key_keysym_sym = SDLK_ESCAPE then
      pure { s with shouldClose := true }
    else
      pure s
  else
    pure s

/-- The event loop `while (SDL_PollEvent(&event))` of `main` (main.cpp, lines
461-479), over the events the queue holds. -/
def Main.pollEvents (s : MainState) (windowID : Nat) : List SDL_Event → Exec MainState
  | [] => do
    call .SDL_PollEvent
    pure s
  | event :: rest => do
    call .SDL_PollEvent
    let s ← Main.handleEvent s windowID event
    Main.pollEvents s windowID rest

/-- The block `// Resize Swap Chain` of `main` (main.cpp, lines 482-492). -/
def Main.resizeSwapChain (s : MainState) (env : FrameEnv) : Exec MainState :=
  if s.g_SwapChainRebuild then do
    call .SDL_GetWindowSize
    let width := env.windowSize.1
    let height := env.windowSize.2
    if width > 0 ∧ height > 0 then do
      call (.ImGui_ImplVulkan_SetMinImageCount s.g_MinImageCount)
      call (.ImGui_ImplVulkanH_CreateOrResizeWindow width height s.g_MinImageCount)
      let wd := env.resized
      pure { s with g_MainWindowData := { wd with FrameIndex := 0 }, g_SwapChainRebuild := false }
    else
      pure s
  else
    pure s

/-- The statements of the loop of `main` from `// Start the Dear ImGui frame`
on (main.cpp, lines 494-513). -/
def Main.draw (s : MainState) (env : FrameEnv) : Exec MainState := do
  call .ImGui_ImplVulkan_NewFrame
  call .ImGui_ImplSDL2_NewFrame
  call .ImGui_NewFrame
  if s.showDemoWidow then
    call .ImGui_ShowDemoWindow
  else
    pure ()
  call .ImGui_Render
  call .ImGui_GetDrawData
  let isMinmized := env.displaySize.1.leZero || env.displaySize.2.leZero
  if !isMinmized then
    let c := s.clearColor
    let clear : Vec4 := ⟨env.fmul c.r c.a, env.fmul c.g c.a, env.fmul c.b c.a, c.a⟩
    let wd := { s.g_MainWindowData with ClearValue := clear }
    let s := { s with g_MainWindowData := wd }
    let s ← Main.FrameRender s env
    Main.FramePresent s env
  else
    pure s

/-- One pass through the body of `while (!shouldClose)` in `main` (main.cpp,
lines 458-514). -/
def Main.iteration (s : MainState) (env : FrameEnv) : Exec MainState := do
  let s ← Main.pollEvents s env.windowID env.events
  let s ← Main.resizeSwapChain s env
  Main.draw s env

/-- The loop `while (!shouldClose)` of `main`, one `FrameEnv` per iteration.
When the environments run out while the flag is still clear the run is cut
off as `Termination.stillRunning`. -/
def Main.loop (s : MainState) : List FrameEnv → Exec MainState
  | [] => if s.shouldClose then pure s else ⟨[], .error .stillRunning⟩
  | env :: rest =>
    if s.shouldClose then
      pure s
    else do
      let s ← Main.iteration s env
      Main.loop s rest

/-- The statements of `main` from `// Setup Dear ImGui` to `// Upload font`
(main.cpp, lines 394-451). -/
def Main.setupImGui (cfg : BuildConfig) (env : StartupEnv) (g_QueueFamily : Nat)
    (g_MinImageCount : Nat) (wd : ImGui_ImplVulkanH_Window) : Exec Unit := do
  -- Setup Dear ImGui
  call .ImGui_CreateContext
  call .ImGui_GetIO_call
  call .ImGui_StyleColorsDark
  -- Setup Platform / Renderer backends.
  call .ImGui_ImplSDL2_InitForVulkan
  call (.ImGui_ImplVulkan_Init g_QueueFamily g_MinImageCount wd.ImageCount)
  -- Load font
  call (.AddFontFromFileTTF "assets\\fonts\\Fantasque Sans Mono Nerd Font.ttf")
  IM_ASSERT cfg (decide (env.font ≠ 0))
  -- Upload font
  call (.vkResetCommandPool wd.FrameIndex)
  Main.CheckVkResult env.uploadResetCommandPool
  call (.vkBeginCommandBuffer wd.FrameIndex)
  Main.CheckVkResult env.uploadBeginCommandBuffer
  call .ImGui_ImplVulkan_CreateFontsTexture
  call (.vkEndCommandBuffer wd.FrameIndex)
  Main.CheckVkResult env.uploadEndCommandBuffer
  call .vkQueueSubmit_noFence
  Main.CheckVkResult env.uploadQueueSubmit
  call .vkDeviceWaitIdle
  Main.CheckVkResult env.uploadDeviceWaitIdle
  call .ImGui_ImplVulkan_DestroyFontUploadObjects

/-- The statements of `main` after the frame loop (main.cpp, lines 516-528);
the value is the value `main` returns. -/
def Main.cleanup (cfg : BuildConfig) (waitIdle : VkResult) (destroyProc : Nat) : Exec Int := do
  -- Cleanup
  call .vkDeviceWaitIdle
  Main.CheckVkResult waitIdle
  call .ImGui_ImplVulkan_Shutdown
  call .ImGui_ImplSDL2_Shutdown
  call .ImGui_DestroyContext
  Main.CleanupVulkanWindow
  Main.CleanupVulkan cfg destroyProc
  call .SDL_DestroyWindow
  call .SDL_Quit
  pure 0

/-- The statements of `main` once the window exists (main.cpp, lines
370-528); `g_QueueFamily` and `g_MinImageCount` start at their initial values
`(uint32_t)-1` and `2` (main.cpp, lines 22 and 29). -/
def Main.withWindow (cfg : BuildConfig) (env : StartupEnv) (window : Nat)
    (frames : List FrameEnv) (waitIdle : VkResult) (destroyProc : Nat) : Exec Int := do
  -- Create window with Vulkan graphics context
  call .SDL_Vulkan_GetInstanceExtensions
  let extensionCount := env.instanceExtensions.length
  call .SDL_Vulkan_GetInstanceExtensions
  let devices ← Main.SetupVulkan cfg env (2 ^ 32 - 1) env.instanceExtensions extensionCount
  -- Create Window Surface
  call .SDL_Vulkan_CreateSurface
  if env.createSurface = 0 then do
    call (.Log_Message "Failed to create Vulkan surface." [])
    pure 1
  else do
    call (.Log_Message "Create a Vulkan surface successfully." [])
    -- Create Framebuffers
    call .SDL_GetWindowSize
    let wd ← Main.SetupVulkanWindow cfg env devices.2 2 env.windowSize.1 env.windowSize.2
    Main.setupImGui cfg env devices.2 2 wd
    -- Our state
    let s : MainState :=
      { g_PhysicalDevice := devices.1, g_QueueFamily := devices.2, g_MainWindowData := wd,
        g_MinImageCount := 2, g_SwapChainRebuild := false, window := window,
        shouldClose := false, showDemoWidow := true,
        clearColor :=
          ⟨.finite (7549747 / 16777216), .finite (9227469 / 16777216),
           .finite (5033165 / 8388608), .finite 1⟩ }
    let _ ← Main.loop s frames
    Main.cleanup cfg waitIdle destroyProc

/-- Embedding of `main` (main.cpp, lines 347-529); the value is the value
`main` returns, which is the exit code of the process. -/
def Main.main (cfg : BuildConfig) (env : StartupEnv) (frames : List FrameEnv)
    (waitIdle : VkResult) (destroyProc : Nat) : Exec Int := do
  -- Initialize SDL
  call .SDL_Init
  if env.sdlInit ≠ 0 then do
    call .SDL_GetError
    call (.Log_Message "Oops! Failed to initialize SDL2, Error: %s" [.str env.sdlError])
    pure (-1)
  else do
    call (.Log_Message "Initialize SDL2 successfully." [])
    if cfg.imeShowUI then
      call (.SDL_SetHint "SDL_HINT_IME_SHOW_UI" "1")
    else
      pure ()
    -- Create Window
    call (.SDL_CreateWindow "Hello Vulkan" 1280 720)
    let window := env.windowHandle
    if window = 0 then do
      call (.Log_Message "Failed to create SDL2 window." [])
      pure (-1)
    else do
      call (.Log_Message "Create a SDL2 window successfully." [])
      call (.SDL_SetWindowMinimumSize 400 300)
      Main.withWindow cfg env window frames waitIdle destroyProc

/-! ## Vocabulary of the properties -/

/-- A call that acquires a swapchain image. -/
def Call.isAcquire : Call → Bool
  | .vkAcquireNextImageKHR _ => true
  | _ => false

/-- A call that waits on a fence. -/
def Call.isFenceWait : Call → Bool
  | .vkWaitForFences _ => true
  | _ => false

/-- A call that records into, or resets, a command buffer. -/
def Call.isRecording : Call → Bool
  | .vkResetCommandPool _ => true
  | .vkBeginCommandBuffer _ => true
  | .vkCmdBeginRenderPass _ => true
  | .ImGui_ImplVulkan_RenderDrawData _ => true
  | .vkCmdEndRenderPass _ => true
  | .vkEndCommandBuffer _ => true
  | _ => false

/-- The call that draws the GUI into the command buffer. -/
def Call.isDraw : Call → Bool
  | .ImGui_ImplVulkan_RenderDrawData _ => true
  | _ => false

/-- A queue submission. -/
def Call.isSubmit : Call → Bool
  | .vkQueueSubmit _ _ _ => true
  | .vkQueueSubmit_noFence => true
  | _ => false

/-- A present call. -/
def Call.isPresent : Call → Bool
  | .vkQueuePresentKHR _ _ => true
  | _ => false

/-- The library call that rebuilds the frame resources. -/
def Call.isRebuild : Call → Bool
  | .ImGui_ImplVulkanH_CreateOrResizeWindow _ _ _ => true
  | _ => false

/-- The calls of the event loop of `Application::Run`. -/
def Call.isEventCall : Call → Bool
  | .SDL_PollEvent => true
  | .ImGui_ImplSDL2_ProcessEvent _ => true
  | .SDL_GetWindowID => true
  | _ => false

/-- A run that never ends in `exit`. -/
def Exec.noExit {α : Type} (m : Exec α) : Prop :=
  ∀ code, m.result ≠ .error (.exited code)

/-- A run that, when it returns, returns a value with the property `P`. -/
def Exec.ensures {α : Type} (m : Exec α) (P : α → Prop) : Prop :=
  ∀ a, m.result = .ok a → P a

/-- A run all of whose calls have the property `q`. -/
def Exec.callsAll {α : Type} (m : Exec α) (q : Call → Prop) : Prop :=
  ∀ c ∈ m.calls, q c

/-- The same run with its value seen through `f`. -/
def Exec.mapValue {α β : Type} (f : α → β) (m : Exec α) : Exec β :=
  ⟨m.calls, m.result.map f⟩

/-- The state of the class encoding that stands for a state of main.cpp: each
file-scope variable and local of `main` is the member of the same name, and
the window is the one `main` creates (main.cpp, line 362). -/
def MainState.toApplication (s : MainState) : Application :=
  { m_window := { width := 1280, height := 720, title := "Hello Vulkan", handler := s.window }
    m_graphics :=
      { m_MainWindowData := s.g_MainWindowData, m_MinImageCount := s.g_MinImageCount,
        m_showDemoWidow := s.showDemoWidow, clearColor := s.clearColor,
        m_QueueFamily := s.g_QueueFamily, m_PhysicalDevice := s.g_PhysicalDevice }
    m_shouldClose := s.shouldClose
    m_SwapChainRebuild := s.g_SwapChainRebuild }

/-- The two result codes for which acquire and present ask for a rebuild. -/
def needsRebuild (err : VkResult) : Bool :=
  decide (err = VK_ERROR_OUT_OF_DATE_KHR ∨ err = VK_SUBOPTIMAL_KHR)

/-- The three events named by the spec as close requests: a quit event, a
close event of the window with id `windowID`, a key-down of Escape. -/
def closeRequested (windowID : Nat) (e : SDL_Event) : Bool :=
  decide (e.type = SDL_QUIT) ||
  decide (e.type = SDL_WINDOWEVENT ∧ e.window_event = SDL_WINDOWEVENT_CLOSE ∧
    e.window_windowID = windowID) ||
  decide (e.type = SDL_KEYDOWN ∧ e.key_keysym_sym = SDLK_ESCAPE)

/-- The log line `CheckVkResult` writes for a non-zero code. -/
def logCalls (err : VkResult) : List Call :=
  if err = 0 then [] else [.Log_Message "[Vulkan] Error: VkResult = %d" [.int err]]

/-- The calls `Graphics::Draw` makes before it looks at the display size
(Graphics.cpp, lines 124-133). -/
def guiFrameCalls (showDemo : Bool) : List Call :=
  [.ImGui_ImplVulkan_NewFrame, .ImGui_ImplSDL2_NewFrame, .ImGui_NewFrame] ++
    (if showDemo then [.ImGui_ShowDemoWindow] else []) ++
    [.ImGui_Render, .ImGui_GetDrawData]

/-- The state in which `Graphics::Draw` calls `FrameRender`: the clear value
has been written (Graphics.cpp, lines 136-139). -/
def withClearValue (app : Application) (env : FrameEnv) : Application :=
  { app with m_graphics := { app.m_graphics with
      m_MainWindowData := { app.m_graphics.m_MainWindowData with
        ClearValue :=
          ⟨env.fmul app.m_graphics.clearColor.r app.m_graphics.clearColor.a,
           env.fmul app.m_graphics.clearColor.g app.m_graphics.clearColor.a,
           env.fmul app.m_graphics.clearColor.b app.m_graphics.clearColor.a,
           app.m_graphics.clearColor.a⟩ } } }

/-- The state of the application once the event loop of an iteration has
drained the queue: the should-close flag is set when it was set or one of the
events asked to close. -/
def afterEvents (app : Application) (env : FrameEnv) : Application :=
  { app with
    m_shouldClose := app.m_shouldClose || env.events.any (closeRequested env.windowID) }

/-- The statements `FrameRender(drawData); FramePresent();` of `Graphics::Draw`
(Graphics.cpp, lines 140-141), from the state in which the clear value has
been written. -/
def renderThenPresent (app : Application) (env : FrameEnv) : Exec Application := do
  let app ← Graphics.FrameRender (withClearValue app env) env
  Graphics.FramePresent app env

/-- The loop body run once for each environment of the list, in order,
whatever the should-close flag says: consecutive iterations of the loop. -/
def Application.iterations (app : Application) : List FrameEnv → Exec Application
  | [] => pure app
  | env :: rest => do
    let app ← Application.iteration app env
    Application.iterations app rest

/-- An iteration in which the window is shown and every driver call succeeds. -/
def FrameEnv.allSucceed (env : FrameEnv) : Prop :=
  env.displaySize.1.leZero = false ∧ env.displaySize.2.leZero = false ∧
  env.acquire = VK_SUCCESS ∧ env.waitForFences = VK_SUCCESS ∧ env.resetFences = VK_SUCCESS ∧
  env.resetCommandPool = VK_SUCCESS ∧ env.beginCommandBuffer = VK_SUCCESS ∧
  env.endCommandBuffer = VK_SUCCESS ∧ env.queueSubmit = VK_SUCCESS ∧
  env.queuePresent = VK_SUCCESS

/-- The members `Graphics::Init` leaves behind when it returns: the device at
the index `k` the device loop ended with, and the queue family of the family
loop. -/
def initialised (env : StartupEnv) (g : Graphics) (k : Nat) : Graphics :=
  { g with
    m_PhysicalDevice := if k < env.deviceTypes.length then some k else none
    m_QueueFamily := Graphics.selectQueueFamily g.m_QueueFamily 0 env.queueFlags }

/-- Whether a call is `vkCreateDevice`. -/
def Call.isCreateDevice : Call → Bool
  | .vkCreateDevice _ _ => true
  | _ => false

/-- Every run of `m` that returns has made the call `c`. -/
def Exec.returnsAfter {α : Type} (m : Exec α) (c : Call) : Prop :=
  ∀ a, m.result = .ok a → c ∈ m.calls

/-- Whether a call is one of the teardown steps: waiting for the device to be
idle, the shutdown of the Vulkan backend of Dear ImGui, or the destruction of
the descriptor pool, the debug report callback, the device or the instance. -/
def Call.isTeardown : Call → Bool
  | .vkDeviceWaitIdle => true
  | .ImGui_ImplVulkan_Shutdown => true
  | .vkDestroyDescriptorPool => true
  | .vkDestroyDebugReportCallbackEXT => true
  | .vkDestroyDevice => true
  | .vkDestroyInstance => true
  | _ => false

/-- Whether a call is one the loop of `Application::Run` makes, the calls that
rebuild the swap chain with `minImageCount` as their minimum image count. -/
def Call.isFrameCall (minImageCount : Nat) : Call → Bool
  | .SDL_PollEvent => true
  | .ImGui_ImplSDL2_ProcessEvent _ => true
  | .SDL_GetWindowID => true
  | .SDL_GetWindowSize => true
  | .ImGui_ImplVulkan_SetMinImageCount k => decide (k = minImageCount)
  | .ImGui_ImplVulkanH_CreateOrResizeWindow _ _ k => decide (k = minImageCount)
  | .ImGui_ImplVulkan_NewFrame => true
  | .ImGui_ImplSDL2_NewFrame => true
  | .ImGui_NewFrame => true
  | .ImGui_ShowDemoWindow => true
  | .ImGui_Render => true
  | .ImGui_GetDrawData => true
  | .vkAcquireNextImageKHR _ => true
  | .vkWaitForFences _ => true
  | .vkResetFences _ => true
  | .vkResetCommandPool _ => true
  | .vkBeginCommandBuffer _ => true
  | .vkCmdBeginRenderPass _ => true
  | .ImGui_ImplVulkan_RenderDrawData _ => true
  | .vkCmdEndRenderPass _ => true
  | .vkEndCommandBuffer _ => true
  | .vkQueueSubmit _ _ _ => true
  | .vkQueuePresentKHR _ _ => true
  | .Log_Message _ _ => true
  | .abort => true
  | _ => false

/-- A piece of the frame loop that makes frame calls only and returns with
`m_MinImageCount` equal to `minImageCount`. -/
def Exec.keepsMinImageCount (minImageCount : Nat) (m : Exec Application) : Prop :=
  m.callsAll (fun c => c.isFrameCall minImageCount = true) ∧
  m.ensures (fun a => a.m_graphics.m_MinImageCount = minImageCount)

/-- The resources the program creates at startup and owns until shutdown. -/
inductive Resource where
  | window
  | vulkanInstance
  | debugCallback
  | device
  | descriptorPool
  | windowData
  deriving DecidableEq, Repr

/-- The resource a call creates, if any: `SDL_CreateWindow` the window,
`vkCreateInstance` the instance, and so on; the swap chain, render pass and
frame buffers of `ImGui_ImplVulkanH_CreateOrResizeWindow` are the window data. -/
def Call.creates : Call → Option Resource
  | .SDL_CreateWindow _ _ _ => some .window
  | .vkCreateInstance _ => some .vulkanInstance
  | .vkCreateDebugReportCallbackEXT => some .debugCallback
  | .vkCreateDevice _ _ => some .device
  | .vkCreateDescriptorPool _ _ => some .descriptorPool
  | .ImGui_ImplVulkanH_CreateOrResizeWindow _ _ _ => some .windowData
  | _ => none

/-- The resource a call destroys, if any. -/
def Call.destroys : Call → Option Resource
  | .SDL_DestroyWindow => some .window
  | .vkDestroyInstance => some .vulkanInstance
  | .vkDestroyDebugReportCallbackEXT => some .debugCallback
  | .vkDestroyDevice => some .device
  | .vkDestroyDescriptorPool => some .descriptorPool
  | .ImGui_ImplVulkanH_DestroyWindow => some .windowData
  | _ => none

/-- Every run of `m` that returns has made calls whose image under `φ` is `l`. -/
def Exec.tracesTo {α β : Type} (φ : Call → Option β) (m : Exec α) (l : List β) : Prop :=
  ∀ a, m.result = .ok a → m.calls.filterMap φ = l

/-- The parameters of a `vkCreateInstance` call, if the call is one. -/
def Call.createInfo : Call → Option VkInstanceCreateInfo
  | .vkCreateInstance createInfo => some createInfo
  | _ => none

/-- Whether a call writes a log line. -/
def Call.isLog : Call → Bool
  | .Log_Message _ _ => true
  | _ => false

/-- Consecutive calls of `Graphics::FramePresent`, one for each environment of
the list, in order. -/
def presents (app : Application) : List FrameEnv → Exec Application
  | [] => pure app
  | env :: rest => do
    let app ← Graphics.FramePresent app env
    presents app rest

/-! ## Concrete inputs -/

/-- Window data with two images, both indices at zero. -/
def sampleWindow : ImGui_ImplVulkanH_Window :=
  { ImageCount := 2, FrameIndex := 0, SemaphoreIndex := 0,
    ClearValue := ⟨.finite 0, .finite 0, .finite 0, .finite 0⟩ }

/-- The `Graphics` members after construction and `CreateFrameBuffer`: device 0,
queue family 0, two images. -/
def sampleGraphics : Graphics :=
  { Graphics.initial with
    m_MainWindowData := sampleWindow, m_QueueFamily := 0, m_PhysicalDevice := some 0 }

/-- The `Application` members on entry to `Run`: both flags clear. -/
def sampleApp : Application :=
  { m_window := { Window.default with handler := 1 }, m_graphics := sampleGraphics,
    m_shouldClose := false, m_SwapChainRebuild := false }

/-- A debug build: diagnostics and assertions compiled in. -/
def debugBuild : BuildConfig :=
  { debugReport := true, assertsEnabled := true, imeShowUI := true }

/-- A startup in which every call succeeds: one discrete GPU whose first queue
family supports graphics, a 1280x720 window, WSI support. -/
def sampleStartup : StartupEnv where
  sdlInit := 0
  sdlError := ""
  windowHandle := 1
  instanceExtensions := ["VK_KHR_surface", "VK_KHR_win32_surface"]
  createInstance := VK_SUCCESS
  createDebugReportProc := 1
  createDebugReportCallback := VK_SUCCESS
  enumerateCount := VK_SUCCESS
  enumerateDevices := VK_SUCCESS
  deviceTypes := [VK_PHYSICAL_DEVICE_TYPE_DISCRETE_GPU]
  queueFlags := [VK_QUEUE_GRAPHICS_BIT]
  createDevice := VK_SUCCESS
  createDescriptorPool := VK_SUCCESS
  createSurface := 1
  windowSize := (1280, 720)
  surfaceSupport := VK_TRUE
  createdWindow := sampleWindow
  font := 1
  uploadResetCommandPool := VK_SUCCESS
  uploadBeginCommandBuffer := VK_SUCCESS
  uploadEndCommandBuffer := VK_SUCCESS
  uploadQueueSubmit := VK_SUCCESS
  uploadDeviceWaitIdle := VK_SUCCESS

/-- A release build: no diagnostics, no assertions. -/
def releaseBuild : BuildConfig :=
  { debugReport := false, assertsEnabled := false, imeShowUI := true }

/-- An enumeration of `2^31` devices: an integrated GPU, then a discrete GPU,
then integrated GPUs only. -/
def crowdedDevices : List Nat :=
  VK_PHYSICAL_DEVICE_TYPE_INTEGRATED_GPU :: VK_PHYSICAL_DEVICE_TYPE_DISCRETE_GPU ::
    List.replicate (2 ^ 31 - 2) VK_PHYSICAL_DEVICE_TYPE_INTEGRATED_GPU

/-- The startup of `sampleStartup` on a machine that reports `crowdedDevices`. -/
def crowdedStartup : StartupEnv :=
  { sampleStartup with deviceTypes := crowdedDevices }

/-- The startup of `sampleStartup` on a device with a compute family and a
transfer family, none of which supports graphics. -/
def noGraphicsStartup : StartupEnv :=
  { sampleStartup with queueFlags := [VK_QUEUE_COMPUTE_BIT, VK_QUEUE_TRANSFER_BIT] }

/-- The event SDL sends when window 1 has been resized. -/
def resizeEvent : SDL_Event :=
  { type := SDL_WINDOWEVENT, window_event := SDL_WINDOWEVENT_RESIZED, window_windowID := 1,
    key_keysym_sym := 0 }

/-- A state of main.cpp on entry to its loop that corresponds to `sampleApp`
but for the title of the window. -/
def sampleMain : MainState :=
  { g_PhysicalDevice := some 0, g_QueueFamily := 0, g_MainWindowData := sampleWindow,
    g_MinImageCount := 2, g_SwapChainRebuild := false, window := 1, shouldClose := false,
    showDemoWidow := true, clearColor := Graphics.initial.clearColor }

/-- A quit event. -/
def quitEvent : SDL_Event :=
  { type := SDL_QUIT, window_event := 0, window_windowID := 0, key_keysym_sym := 0 }

/-- An iteration with the given events and present result for a 1280x720
window with id 1, in which every other driver call succeeds and the driver
hands out image 0. -/
def sampleFrame (events : List SDL_Event) (present : VkResult) : FrameEnv where
  events := events
  windowID := 1
  windowSize := (1280, 720)
  resized := sampleWindow
  displaySize := (.finite 1280, .finite 720)
  acquire := VK_SUCCESS
  acquiredImage := 0
  waitForFences := VK_SUCCESS
  resetFences := VK_SUCCESS
  resetCommandPool := VK_SUCCESS
  beginCommandBuffer := VK_SUCCESS
  endCommandBuffer := VK_SUCCESS
  queueSubmit := VK_SUCCESS
  queuePresent := present
  fmul := fun x _ => x

/-! ## Runs: how calls and results compose -/

theorem calls_pure {α : Type} (a : α) : (pure a : Exec α).calls = [] := rfl

theorem result_pure {α : Type} (a : α) : (pure a : Exec α).result = .ok a := rfl

theorem calls_call_bind {β : Type} (c : Call) (f : Unit → Exec β) :
    (call c >>= f).calls = c :: (f ()).calls := rfl

theorem result_call_bind {β : Type} (c : Call) (f : Unit → Exec β) :
    (call c >>= f).result = (f ()).result := rfl

theorem calls_bind_ok {α β : Type} (m : Exec α) (f : α → Exec β) (a : α)
    (h : m.result = .ok a) : (m >>= f).calls = m.calls ++ (f a).calls := by
  show (Exec.andThen m f).calls = _
  unfold Exec.andThen
  rw [h]

theorem result_bind_ok {α β : Type} (m : Exec α) (f : α → Exec β) (a : α)
    (h : m.result = .ok a) : (m >>= f).result = (f a).result := by
  show (Exec.andThen m f).result = _
  unfold Exec.andThen
  rw [h]

theorem calls_bind_error {α β : Type} (m : Exec α) (f : α → Exec β) (t : Termination)
    (h : m.result = .error t) : (m >>= f).calls = m.calls := by
  show (Exec.andThen m f).calls = _
  unfold Exec.andThen
  rw [h]

theorem result_bind_error {α β : Type} (m : Exec α) (f : α → Exec β) (t : Termination)
    (h : m.result = .error t) : (m >>= f).result = .error t := by
  show (Exec.andThen m f).result = _
  unfold Exec.andThen
  rw [h]

theorem exec_ext {α : Type} (m n : Exec α) (hc : m.calls = n.calls)
    (hr : m.result = n.result) : m = n := by
  cases m; cases n; simp_all

theorem calls_CheckVkResult (err : VkResult) :
    (Graphics.CheckVkResult err).calls = logCalls err ++ (if err < 0 then [.abort] else []) := by
  unfold Graphics.CheckVkResult logCalls
  by_cases h0 : err = 0
  · subst h0; rfl
  · by_cases hn : err < 0
    · simp only [h0, hn, if_true, if_false]; rfl
    · simp only [h0, hn, if_false]; rfl

theorem result_CheckVkResult (err : VkResult) :
    (Graphics.CheckVkResult err).result = if err < 0 then .error .aborted else .ok () := by
  unfold Graphics.CheckVkResult
  by_cases h0 : err = 0
  · subst h0; rfl
  · by_cases hn : err < 0
    · simp only [h0, hn, if_true, if_false]; rfl
    · simp only [h0, hn, if_false]; rfl

theorem calls_check_bind {β : Type} (err : VkResult) (f : Unit → Exec β) :
    (Graphics.CheckVkResult err >>= f).calls =
      if err < 0 then logCalls err ++ [.abort] else logCalls err ++ (f ()).calls := by
  show (Exec.andThen _ f).calls = _
  unfold Exec.andThen
  rw [result_CheckVkResult, calls_CheckVkResult]
  by_cases hn : err < 0 <;> simp [hn]

theorem result_check_bind {β : Type} (err : VkResult) (f : Unit → Exec β) :
    (Graphics.CheckVkResult err >>= f).result =
      if err < 0 then .error .aborted else (f ()).result := by
  show (Exec.andThen _ f).result = _
  unfold Exec.andThen
  rw [result_CheckVkResult]
  by_cases hn : err < 0 <;> simp [hn]

theorem calls_urem (a b : Nat) : (urem a b).calls = [] := by
  unfold urem
  split_ifs <;> rfl

theorem result_urem (a b : Nat) :
    (urem a b).result = if b = 0 then .error .divisionByZero else .ok (a % b) := by
  unfold urem
  split_ifs <;> rfl

theorem calls_urem_bind {β : Type} (a b : Nat) (f : Nat → Exec β) :
    (urem a b >>= f).calls = if b = 0 then [] else (f (a % b)).calls := by
  by_cases hb : b = 0
  · rw [if_pos hb, calls_bind_error _ _ .divisionByZero (by rw [result_urem, if_pos hb]),
      calls_urem]
  · rw [if_neg hb, calls_bind_ok _ _ (a % b) (by rw [result_urem, if_neg hb]), calls_urem,
      List.nil_append]

theorem result_urem_bind {β : Type} (a b : Nat) (f : Nat → Exec β) :
    (urem a b >>= f).result =
      if b = 0 then .error .divisionByZero else (f (a % b)).result := by
  by_cases hb : b = 0
  · rw [if_pos hb, result_bind_error _ _ .divisionByZero (by rw [result_urem, if_pos hb])]
  · rw [if_neg hb, result_bind_ok _ _ (a % b) (by rw [result_urem, if_neg hb])]

theorem logCalls_countP (p : Call → Bool) (err : VkResult)
    (hp : ∀ fmt args, p (.Log_Message fmt args) = false) :
    (logCalls err).countP p = 0 := by
  unfold logCalls
  split_ifs <;> simp [hp]

/-! ## The event loop -/

theorem handleEvent_result (app : Application) (windowID : Nat) (event : SDL_Event) :
    (Application.handleEvent app windowID event).result =
      .ok { app with m_shouldClose := app.m_shouldClose || closeRequested windowID event } := by
  unfold Application.handleEvent closeRequested
  simp only [result_call_bind, apply_ite Exec.result, result_pure]
  rcases app with ⟨w, g, sc, rb⟩
  by_cases hq : event.type = SDL_QUIT
  · simp [hq]
  · by_cases hw : event.type = SDL_WINDOWEVENT
    · by_cases hc : event.window_event = SDL_WINDOWEVENT_CLOSE
      · by_cases hi : event.window_windowID = windowID
        · simp [hw, hc, hi, SDL_QUIT, SDL_WINDOWEVENT, SDL_KEYDOWN]
        · simp [hw, hc, hi, SDL_QUIT, SDL_WINDOWEVENT, SDL_KEYDOWN]
      · simp [hw, hc, SDL_QUIT, SDL_WINDOWEVENT, SDL_KEYDOWN]
    · by_cases hk : event.type = SDL_KEYDOWN
      · by_cases he : event.key_keysym_sym = SDLK_ESCAPE
        · simp [hk, he, SDL_QUIT, SDL_WINDOWEVENT, SDL_KEYDOWN]
        · simp [hk, he, SDL_QUIT, SDL_WINDOWEVENT, SDL_KEYDOWN]
      · simp [hq, hw, hk]

theorem handleEvent_calls_event (app : Application) (windowID : Nat) (event : SDL_Event) :
    ∀ c ∈ (Application.handleEvent app windowID event).calls, c.isEventCall = true := by
  unfold Application.handleEvent
  simp only [calls_call_bind, apply_ite Exec.calls, calls_pure]
  split_ifs <;> simp [Call.isEventCall]

theorem pollEvents_result (windowID : Nat) (events : List SDL_Event) (app : Application) :
    (Application.pollEvents app windowID events).result =
      .ok { app with
        m_shouldClose := app.m_shouldClose || events.any (closeRequested windowID) } := by
  induction events generalizing app with
  | nil =>
    unfold Application.pollEvents
    simp [result_call_bind, result_pure]
  | cons e rest ih =>
    unfold Application.pollEvents
    rw [result_call_bind, result_bind_ok _ _ _ (handleEvent_result app windowID e), ih]
    simp [Bool.or_assoc]

theorem pollEvents_calls_event (windowID : Nat) (events : List SDL_Event) (app : Application) :
    ∀ c ∈ (Application.pollEvents app windowID events).calls, c.isEventCall = true := by
  induction events generalizing app with
  | nil =>
    unfold Application.pollEvents
    simp [calls_call_bind, calls_pure, Call.isEventCall]
  | cons e rest ih =>
    unfold Application.pollEvents
    rw [calls_call_bind, calls_bind_ok _ _ _ (handleEvent_result app windowID e)]
    intro c hc
    simp only [List.mem_cons, List.mem_append] at hc
    rcases hc with rfl | hc | hc
    · rfl
    · exact handleEvent_calls_event app windowID e c hc
    · exact ih _ c hc

/-! ## Rebuilding the frame resources -/

theorem resizeSwapChain_clear (app : Application) (env : FrameEnv)
    (h : app.m_SwapChainRebuild = false) :
    Application.resizeSwapChain app env = ⟨[], .ok app⟩ := by
  unfold Application.resizeSwapChain
  simp [h]
  rfl

theorem resizeSwapChain_degenerate (app : Application) (env : FrameEnv)
    (h : app.m_SwapChainRebuild = true) (hs : env.windowSize.1 ≤ 0 ∨ env.windowSize.2 ≤ 0) :
    Application.resizeSwapChain app env = ⟨[.SDL_GetWindowSize], .ok app⟩ := by
  unfold Application.resizeSwapChain
  have hn : ¬ (env.windowSize.1 > 0 ∧ env.windowSize.2 > 0) := by omega
  simp only [h, if_true, hn, if_false]
  rfl

theorem resizeSwapChain_rebuild (app : Application) (env : FrameEnv)
    (h : app.m_SwapChainRebuild = true) (hw : 0 < env.windowSize.1) (hh : 0 < env.windowSize.2) :
    Application.resizeSwapChain app env =
      ⟨[.SDL_GetWindowSize,
        .ImGui_ImplVulkan_SetMinImageCount app.m_graphics.m_MinImageCount,
        .ImGui_ImplVulkanH_CreateOrResizeWindow env.windowSize.1 env.windowSize.2
          app.m_graphics.m_MinImageCount],
       .ok { app with
          m_graphics := { app.m_graphics with
            m_MainWindowData := { env.resized with FrameIndex := 0 } }
          m_SwapChainRebuild := false }⟩ := by
  unfold Application.resizeSwapChain
  have hp : env.windowSize.1 > 0 ∧ env.windowSize.2 > 0 := ⟨hw, hh⟩
  simp only [h, if_true, hp]
  rfl

theorem resizeSwapChain_shouldClose (app : Application) (env : FrameEnv) :
    ∃ app', (Application.resizeSwapChain app env).result = .ok app' ∧
      app'.m_shouldClose = app.m_shouldClose ∧
      (Application.resizeSwapChain app env).calls.countP Call.isAcquire = 0 ∧
      (Application.resizeSwapChain app env).calls.countP Call.isPresent = 0 := by
  by_cases h : app.m_SwapChainRebuild = true
  · by_cases hs : 0 < env.windowSize.1 ∧ 0 < env.windowSize.2
    · rw [resizeSwapChain_rebuild app env h hs.1 hs.2]
      exact ⟨_, rfl, rfl, rfl, rfl⟩
    · rw [resizeSwapChain_degenerate app env h (by omega)]
      exact ⟨_, rfl, rfl, rfl, rfl⟩
  · rw [resizeSwapChain_clear app env (by simpa using h)]
    exact ⟨_, rfl, rfl, rfl, rfl⟩

/-! ## Rendering and presenting one frame -/

theorem FrameRender_result_ok (app app' : Application) (env : FrameEnv)
    (h : (Graphics.FrameRender app env).result = .ok app') :
    app' = { app with
      m_graphics := { app.m_graphics with
        m_MainWindowData :=
          { app.m_graphics.m_MainWindowData with FrameIndex := env.acquiredImage } }
      m_SwapChainRebuild := app.m_SwapChainRebuild || needsRebuild env.acquire } := by
  revert h
  unfold Graphics.FrameRender needsRebuild
  simp only [result_call_bind, result_check_bind, apply_ite Exec.result, result_pure]
  rcases app with ⟨w, g, sc, rb⟩
  split_ifs with h1 <;> simp_all

theorem FrameRender_needsRebuild (app : Application) (env : FrameEnv)
    (h : needsRebuild env.acquire = true) :
    Graphics.FrameRender app env =
      ⟨[.vkAcquireNextImageKHR app.m_graphics.m_MainWindowData.SemaphoreIndex],
       .ok { app with
          m_graphics := { app.m_graphics with
            m_MainWindowData :=
              { app.m_graphics.m_MainWindowData with FrameIndex := env.acquiredImage } }
          m_SwapChainRebuild := true }⟩ := by
  have h' : env.acquire = VK_ERROR_OUT_OF_DATE_KHR ∨ env.acquire = VK_SUBOPTIMAL_KHR := by
    simpa [needsRebuild] using h
  apply exec_ext
  · unfold Graphics.FrameRender
    simp only [calls_call_bind, calls_check_bind, apply_ite Exec.calls, calls_pure]
    rw [if_pos h']
  · unfold Graphics.FrameRender
    simp only [result_call_bind, result_check_bind, apply_ite Exec.result, result_pure]
    rw [if_pos h']

theorem FrameRender_calls_eq (app : Application) (env : FrameEnv) :
    (Graphics.FrameRender app env).calls =
      .vkAcquireNextImageKHR app.m_graphics.m_MainWindowData.SemaphoreIndex ::
      if env.acquire = VK_ERROR_OUT_OF_DATE_KHR ∨ env.acquire = VK_SUBOPTIMAL_KHR then []
      else if env.acquire < 0 then logCalls env.acquire ++ [.abort]
      else logCalls env.acquire ++ .vkWaitForFences env.acquiredImage ::
      if env.waitForFences < 0 then logCalls env.waitForFences ++ [.abort]
      else logCalls env.waitForFences ++ .vkResetFences env.acquiredImage ::
      if env.resetFences < 0 then logCalls env.resetFences ++ [.abort]
      else logCalls env.resetFences ++ .vkResetCommandPool env.acquiredImage ::
      if env.resetCommandPool < 0 then logCalls env.resetCommandPool ++ [.abort]
      else logCalls env.resetCommandPool ++ .vkBeginCommandBuffer env.acquiredImage ::
      if env.beginCommandBuffer < 0 then logCalls env.beginCommandBuffer ++ [.abort]
      else logCalls env.beginCommandBuffer ++ .vkCmdBeginRenderPass env.acquiredImage ::
        .ImGui_ImplVulkan_RenderDrawData env.acquiredImage ::
        .vkCmdEndRenderPass env.acquiredImage :: .vkEndCommandBuffer env.acquiredImage ::
      if env.endCommandBuffer < 0 then logCalls env.endCommandBuffer ++ [.abort]
      else logCalls env.endCommandBuffer ++
        .vkQueueSubmit app.m_graphics.m_MainWindowData.SemaphoreIndex
          app.m_graphics.m_MainWindowData.SemaphoreIndex env.acquiredImage ::
      if env.queueSubmit < 0 then logCalls env.queueSubmit ++ [.abort]
      else logCalls env.queueSubmit := by
  unfold Graphics.FrameRender
  simp only [calls_call_bind, calls_check_bind, apply_ite Exec.calls, calls_pure,
    List.append_nil]

theorem FrameRender_result_eq (app : Application) (env : FrameEnv) :
    (Graphics.FrameRender app env).result =
      if env.acquire = VK_ERROR_OUT_OF_DATE_KHR ∨ env.acquire = VK_SUBOPTIMAL_KHR then
        .ok { app with
          m_graphics := { app.m_graphics with
            m_MainWindowData :=
              { app.m_graphics.m_MainWindowData with FrameIndex := env.acquiredImage } }
          m_SwapChainRebuild := true }
      else if env.acquire < 0 then .error .aborted
      else if env.waitForFences < 0 then .error .aborted
      else if env.resetFences < 0 then .error .aborted
      else if env.resetCommandPool < 0 then .error .aborted
      else if env.beginCommandBuffer < 0 then .error .aborted
      else if env.endCommandBuffer < 0 then .error .aborted
      else if env.queueSubmit < 0 then .error .aborted
      else
        .ok { app with
          m_graphics := { app.m_graphics with
            m_MainWindowData :=
              { app.m_graphics.m_MainWindowData with FrameIndex := env.acquiredImage } } } := by
  unfold Graphics.FrameRender
  simp only [result_call_bind, result_check_bind, apply_ite Exec.result, result_pure]

theorem FrameRender_count_acquire (app : Application) (env : FrameEnv) :
    (Graphics.FrameRender app env).calls.countP Call.isAcquire = 1 := by
  rw [FrameRender_calls_eq]
  simp only [List.countP_cons, List.countP_append, List.countP_nil, apply_ite (List.countP _),
      logCalls_countP Call.isAcquire _ (fun _ _ => rfl), Call.isAcquire]
  simp

theorem FrameRender_count_present (app : Application) (env : FrameEnv) :
    (Graphics.FrameRender app env).calls.countP Call.isPresent = 0 := by
  rw [FrameRender_calls_eq]
  simp only [List.countP_cons, List.countP_append, List.countP_nil, apply_ite (List.countP _),
      logCalls_countP Call.isPresent _ (fun _ _ => rfl), Call.isPresent]
  simp

theorem FrameRender_count_rebuild (app : Application) (env : FrameEnv) :
    (Graphics.FrameRender app env).calls.countP Call.isRebuild = 0 := by
  rw [FrameRender_calls_eq]
  simp only [List.countP_cons, List.countP_append, List.countP_nil, apply_ite (List.countP _),
      logCalls_countP Call.isRebuild _ (fun _ _ => rfl), Call.isRebuild]
  simp

/-- When `FrameRender` returns without having raised the flag, no driver call
of it has reported a negative code. -/
theorem FrameRender_ok_nonneg (app app' : Application) (env : FrameEnv)
    (h : (Graphics.FrameRender app env).result = .ok app')
    (hn : needsRebuild env.acquire = false) :
    ¬ env.acquire < 0 ∧ ¬ env.waitForFences < 0 ∧ ¬ env.resetFences < 0 ∧
    ¬ env.resetCommandPool < 0 ∧ ¬ env.beginCommandBuffer < 0 ∧
    ¬ env.endCommandBuffer < 0 ∧ ¬ env.queueSubmit < 0 := by
  have hn' : ¬ (env.acquire = VK_ERROR_OUT_OF_DATE_KHR ∨ env.acquire = VK_SUBOPTIMAL_KHR) := by
    simpa [needsRebuild] using hn
  rw [FrameRender_result_eq, if_neg hn'] at h
  split_ifs at h with h1 h2 h3 h4 h5 h6 h7
  exact ⟨h1, h2, h3, h4, h5, h6, h7⟩

/-- The calls of a `FrameRender` that runs to its end: the eleven driver
calls in program order, each checked call followed by its log line if any. -/
theorem FrameRender_calls_of_nonneg (app : Application) (env : FrameEnv)
    (hn : needsRebuild env.acquire = false)
    (h1 : ¬ env.acquire < 0) (h2 : ¬ env.waitForFences < 0) (h3 : ¬ env.resetFences < 0)
    (h4 : ¬ env.resetCommandPool < 0) (h5 : ¬ env.beginCommandBuffer < 0)
    (h6 : ¬ env.endCommandBuffer < 0) (h7 : ¬ env.queueSubmit < 0) :
    (Graphics.FrameRender app env).calls =
      .vkAcquireNextImageKHR app.m_graphics.m_MainWindowData.SemaphoreIndex ::
      (logCalls env.acquire ++ .vkWaitForFences env.acquiredImage ::
      (logCalls env.waitForFences ++ .vkResetFences env.acquiredImage ::
      (logCalls env.resetFences ++ .vkResetCommandPool env.acquiredImage ::
      (logCalls env.resetCommandPool ++ .vkBeginCommandBuffer env.acquiredImage ::
      (logCalls env.beginCommandBuffer ++ .vkCmdBeginRenderPass env.acquiredImage ::
        .ImGui_ImplVulkan_RenderDrawData env.acquiredImage ::
        .vkCmdEndRenderPass env.acquiredImage :: .vkEndCommandBuffer env.acquiredImage ::
      (logCalls env.endCommandBuffer ++
        .vkQueueSubmit app.m_graphics.m_MainWindowData.SemaphoreIndex
          app.m_graphics.m_MainWindowData.SemaphoreIndex env.acquiredImage ::
      logCalls env.queueSubmit)))))) := by
  have hn' : ¬ (env.acquire = VK_ERROR_OUT_OF_DATE_KHR ∨ env.acquire = VK_SUBOPTIMAL_KHR) := by
    simpa [needsRebuild] using hn
  rw [FrameRender_calls_eq, if_neg hn', if_neg h1, if_neg h2, if_neg h3, if_neg h4, if_neg h5,
    if_neg h6, if_neg h7]

theorem FrameRender_ok_counts (app app' : Application) (env : FrameEnv)
    (h : (Graphics.FrameRender app env).result = .ok app')
    (hn : needsRebuild env.acquire = false) :
    (Graphics.FrameRender app env).calls.countP Call.isDraw = 1 ∧
    (Graphics.FrameRender app env).calls.countP Call.isSubmit = 1 := by
  obtain ⟨h1, h2, h3, h4, h5, h6, h7⟩ := FrameRender_ok_nonneg app app' env h hn
  rw [FrameRender_calls_of_nonneg app env hn h1 h2 h3 h4 h5 h6 h7]
  constructor
  · simp only [List.countP_cons, List.countP_append, List.countP_nil,
      logCalls_countP Call.isDraw _ (fun _ _ => rfl), Call.isDraw]
    simp
  · simp only [List.countP_cons, List.countP_append, List.countP_nil,
      logCalls_countP Call.isSubmit _ (fun _ _ => rfl), Call.isSubmit]
    simp

theorem FramePresent_flag_set (app : Application) (env : FrameEnv)
    (h : app.m_SwapChainRebuild = true) : Graphics.FramePresent app env = ⟨[], .ok app⟩ := by
  unfold Graphics.FramePresent
  rw [if_pos h]
  rfl

theorem FramePresent_needsRebuild (app : Application) (env : FrameEnv)
    (h : app.m_SwapChainRebuild = false) (hp : needsRebuild env.queuePresent = true) :
    Graphics.FramePresent app env =
      ⟨[.vkQueuePresentKHR app.m_graphics.m_MainWindowData.SemaphoreIndex
          app.m_graphics.m_MainWindowData.FrameIndex],
       .ok { app with m_SwapChainRebuild := true }⟩ := by
  have hp' : env.queuePresent = VK_ERROR_OUT_OF_DATE_KHR ∨
      env.queuePresent = VK_SUBOPTIMAL_KHR := by
    simpa [needsRebuild] using hp
  have hf : ¬ (app.m_SwapChainRebuild = true) := by simp [h]
  unfold Graphics.FramePresent
  rw [if_neg hf]
  apply exec_ext
  · simp only [calls_call_bind, apply_ite Exec.calls, calls_pure]
    rw [if_pos hp']
  · simp only [result_call_bind, apply_ite Exec.result, result_pure]
    rw [if_pos hp']

theorem FramePresent_other (app : Application) (env : FrameEnv)
    (h : app.m_SwapChainRebuild = false) (hp : needsRebuild env.queuePresent = false) :
    Graphics.FramePresent app env =
      ⟨.vkQueuePresentKHR app.m_graphics.m_MainWindowData.SemaphoreIndex
          app.m_graphics.m_MainWindowData.FrameIndex ::
        (if env.queuePresent < 0 then logCalls env.queuePresent ++ [.abort]
         else logCalls env.queuePresent),
       if env.queuePresent < 0 then .error .aborted
       else if app.m_graphics.m_MainWindowData.ImageCount = 0 then .error .divisionByZero
       else .ok { app with
          m_graphics := { app.m_graphics with
            m_MainWindowData := { app.m_graphics.m_MainWindowData with
              SemaphoreIndex :=
                ((app.m_graphics.m_MainWindowData.SemaphoreIndex + 1) % 2 ^ 32) %
                  app.m_graphics.m_MainWindowData.ImageCount } } }⟩ := by
  have hp' : ¬ (env.queuePresent = VK_ERROR_OUT_OF_DATE_KHR ∨
      env.queuePresent = VK_SUBOPTIMAL_KHR) := by
    simpa [needsRebuild] using hp
  have hf : ¬ (app.m_SwapChainRebuild = true) := by simp [h]
  unfold Graphics.FramePresent
  rw [if_neg hf]
  apply exec_ext
  · simp only [calls_call_bind, calls_check_bind, calls_urem_bind, apply_ite Exec.calls,
      calls_pure, List.append_nil, ite_self]
    rw [if_neg hp']
  · simp only [result_call_bind, result_check_bind, result_urem_bind, apply_ite Exec.result,
      result_pure]
    rw [if_neg hp']

theorem FramePresent_facts (app : Application) (env : FrameEnv) :
    (Graphics.FramePresent app env).calls.countP Call.isPresent ≤ 1 ∧
    (Graphics.FramePresent app env).calls.countP Call.isAcquire = 0 ∧
    (Graphics.FramePresent app env).calls.countP Call.isRebuild = 0 ∧
    (Graphics.FramePresent app env).calls.countP Call.isDraw = 0 ∧
    (Graphics.FramePresent app env).calls.countP Call.isSubmit = 0 ∧
    (∀ app', (Graphics.FramePresent app env).result = .ok app' →
      app'.m_shouldClose = app.m_shouldClose) := by
  by_cases hf : app.m_SwapChainRebuild = true
  · rw [FramePresent_flag_set app env hf]
    refine ⟨by simp, rfl, rfl, rfl, rfl, ?_⟩
    intro app' h
    cases h
    rfl
  · have hf' : app.m_SwapChainRebuild = false := by simpa using hf
    by_cases hp : needsRebuild env.queuePresent = true
    · rw [FramePresent_needsRebuild app env hf' hp]
      refine ⟨by simp [Call.isPresent], rfl, rfl, rfl, rfl, ?_⟩
      intro app' h
      cases h
      rfl
    · have hp' : needsRebuild env.queuePresent = false := by simpa using hp
      rw [FramePresent_other app env hf' hp']
      refine ⟨?_, ?_, ?_, ?_, ?_, ?_⟩
      · simp only [List.countP_cons, List.countP_append, List.countP_nil,
          apply_ite (List.countP _), logCalls_countP Call.isPresent _ (fun _ _ => rfl),
          Call.isPresent]
        simp
      · simp only [List.countP_cons, List.countP_append, List.countP_nil,
          apply_ite (List.countP _), logCalls_countP Call.isAcquire _ (fun _ _ => rfl),
          Call.isAcquire]
        simp
      · simp only [List.countP_cons, List.countP_append, List.countP_nil,
          apply_ite (List.countP _), logCalls_countP Call.isRebuild _ (fun _ _ => rfl),
          Call.isRebuild]
        simp
      · simp only [List.countP_cons, List.countP_append, List.countP_nil,
          apply_ite (List.countP _), logCalls_countP Call.isDraw _ (fun _ _ => rfl),
          Call.isDraw]
        simp
      · simp only [List.countP_cons, List.countP_append, List.countP_nil,
          apply_ite (List.countP _), logCalls_countP Call.isSubmit _ (fun _ _ => rfl),
          Call.isSubmit]
        simp
      · intro app' h
        split_ifs at h
        cases h
        rfl

/-! ## One call of `Graphics::Draw` -/

theorem Draw_minimized (app : Application) (env : FrameEnv)
    (h : (env.displaySize.1.leZero || env.displaySize.2.leZero) = true) :
    Graphics.Draw app env = ⟨guiFrameCalls app.m_graphics.m_showDemoWidow, .ok app⟩ := by
  unfold Graphics.Draw guiFrameCalls
  cases hd : app.m_graphics.m_showDemoWidow <;> simp [h] <;> rfl

theorem Draw_shown (app : Application) (env : FrameEnv)
    (h : (env.displaySize.1.leZero || env.displaySize.2.leZero) = false) :
    Graphics.Draw app env =
      ⟨guiFrameCalls app.m_graphics.m_showDemoWidow ++ (renderThenPresent app env).calls,
       (renderThenPresent app env).result⟩ := by
  unfold Graphics.Draw guiFrameCalls
  cases hd : app.m_graphics.m_showDemoWidow <;> simp [h] <;> rfl

theorem guiFrameCalls_countP (p : Call → Bool) (showDemo : Bool)
    (h : ∀ c ∈ guiFrameCalls true, p c = false) :
    (guiFrameCalls showDemo).countP p = 0 := by
  rw [List.countP_eq_zero]
  intro c hc
  have : c ∈ guiFrameCalls true := by
    cases showDemo
    · simp [guiFrameCalls] at hc ⊢
      tauto
    · exact hc
  simp [h c this]

theorem renderThenPresent_facts (app : Application) (env : FrameEnv) :
    (renderThenPresent app env).calls.countP Call.isAcquire = 1 ∧
    (renderThenPresent app env).calls.countP Call.isPresent ≤ 1 ∧
    (renderThenPresent app env).calls.countP Call.isRebuild = 0 ∧
    (∀ app', (renderThenPresent app env).result = .ok app' →
      app'.m_shouldClose = app.m_shouldClose ∧
      (app.m_SwapChainRebuild = true → app'.m_SwapChainRebuild = true)) := by
  unfold renderThenPresent
  cases hr : (Graphics.FrameRender (withClearValue app env) env).result with
  | error t =>
    rw [calls_bind_error _ _ _ hr, result_bind_error _ _ _ hr]
    refine ⟨FrameRender_count_acquire _ _, ?_, FrameRender_count_rebuild _ _, ?_⟩
    · rw [FrameRender_count_present]; omega
    · intro app' h; cases h
  | ok a =>
    rw [calls_bind_ok _ _ _ hr, result_bind_ok _ _ _ hr]
    obtain ⟨p1, p2, p3, _, _, p6⟩ := FramePresent_facts a env
    have ha := FrameRender_result_ok _ _ _ hr
    refine ⟨?_, ?_, ?_, ?_⟩
    · rw [List.countP_append, FrameRender_count_acquire, p2]
    · rw [List.countP_append, FrameRender_count_present]; omega
    · rw [List.countP_append, FrameRender_count_rebuild, p3]
    · intro app' h
      refine ⟨?_, ?_⟩
      · rw [p6 app' h, ha]; rfl
      · intro hflag
        have hset : a.m_SwapChainRebuild = true := by
          rw [ha]
          show (app.m_SwapChainRebuild || needsRebuild env.acquire) = true
          rw [hflag]; rfl
        rw [FramePresent_flag_set a env hset] at h
        cases h
        exact hset

theorem Draw_facts (app : Application) (env : FrameEnv) :
    (Graphics.Draw app env).calls.countP Call.isAcquire ≤ 1 ∧
    (Graphics.Draw app env).calls.countP Call.isPresent ≤ 1 ∧
    (Graphics.Draw app env).calls.countP Call.isRebuild = 0 ∧
    (∀ app', (Graphics.Draw app env).result = .ok app' →
      app'.m_shouldClose = app.m_shouldClose ∧
      (app.m_SwapChainRebuild = true → app'.m_SwapChainRebuild = true)) := by
  have g1 := guiFrameCalls_countP Call.isAcquire app.m_graphics.m_showDemoWidow (by decide)
  have g2 := guiFrameCalls_countP Call.isPresent app.m_graphics.m_showDemoWidow (by decide)
  have g3 := guiFrameCalls_countP Call.isRebuild app.m_graphics.m_showDemoWidow (by decide)
  cases hm : (env.displaySize.1.leZero || env.displaySize.2.leZero) with
  | true =>
    rw [Draw_minimized app env hm]
    refine ⟨by rw [g1]; omega, by rw [g2]; omega, g3, ?_⟩
    intro app' h
    cases h
    exact ⟨rfl, fun h => h⟩
  | false =>
    rw [Draw_shown app env hm]
    obtain ⟨r1, r2, r3, r4⟩ := renderThenPresent_facts app env
    refine ⟨?_, ?_, ?_, r4⟩
    · show List.countP _ (_ ++ _) ≤ 1
      rw [List.countP_append, g1, r1]
    · show List.countP _ (_ ++ _) ≤ 1
      rw [List.countP_append, g2]; omega
    · show List.countP _ (_ ++ _) = 0
      rw [List.countP_append, g3, r3]

/-! ## One iteration of the loop -/

theorem pollEvents_countP (p : Call → Bool) (windowID : Nat) (events : List SDL_Event)
    (app : Application) (h : ∀ c, c.isEventCall = true → p c = false) :
    (Application.pollEvents app windowID events).calls.countP p = 0 := by
  rw [List.countP_eq_zero]
  intro c hc
  simp [h c (pollEvents_calls_event windowID events app c hc)]

theorem iteration_eq (app app2 : Application) (env : FrameEnv)
    (h2 : (Application.resizeSwapChain (afterEvents app env) env).result = .ok app2) :
    Application.iteration app env =
      ⟨(Application.pollEvents app env.windowID env.events).calls ++
        ((Application.resizeSwapChain (afterEvents app env) env).calls ++
          (Graphics.Draw app2 env).calls),
       (Graphics.Draw app2 env).result⟩ := by
  have h1 : (Application.pollEvents app env.windowID env.events).result =
      .ok (afterEvents app env) := pollEvents_result env.windowID env.events app
  apply exec_ext
  · unfold Application.iteration
    rw [calls_bind_ok _ _ _ h1, calls_bind_ok _ _ _ h2]
  · unfold Application.iteration
    rw [result_bind_ok _ _ _ h1, result_bind_ok _ _ _ h2]

theorem iteration_facts (app : Application) (env : FrameEnv) :
    (Application.iteration app env).calls.countP Call.isAcquire ≤ 1 ∧
    (Application.iteration app env).calls.countP Call.isPresent ≤ 1 ∧
    (∀ app', (Application.iteration app env).result = .ok app' →
      app'.m_shouldClose =
        (app.m_shouldClose || env.events.any (closeRequested env.windowID))) := by
  obtain ⟨app2, h2, hsc, c1, c2⟩ := resizeSwapChain_shouldClose (afterEvents app env) env
  rw [iteration_eq app app2 env h2]
  obtain ⟨d1, d2, _, d4⟩ := Draw_facts app2 env
  have e1 := pollEvents_countP Call.isAcquire env.windowID env.events app
    (by intro c; cases c <;> simp [Call.isEventCall, Call.isAcquire])
  have e2 := pollEvents_countP Call.isPresent env.windowID env.events app
    (by intro c; cases c <;> simp [Call.isEventCall, Call.isPresent])
  refine ⟨?_, ?_, ?_⟩
  · show List.countP _ (_ ++ (_ ++ _)) ≤ 1
    rw [List.countP_append, List.countP_append, e1, c1]; omega
  · show List.countP _ (_ ++ (_ ++ _)) ≤ 1
    rw [List.countP_append, List.countP_append, e2, c2]; omega
  · intro app' h
    rw [(d4 app' h).1, hsc]
    rfl

theorem FrameRender_success (app : Application) (env : FrameEnv)
    (ha : env.acquire = VK_SUCCESS) (h2 : env.waitForFences = VK_SUCCESS)
    (h3 : env.resetFences = VK_SUCCESS) (h4 : env.resetCommandPool = VK_SUCCESS)
    (h5 : env.beginCommandBuffer = VK_SUCCESS) (h6 : env.endCommandBuffer = VK_SUCCESS)
    (h7 : env.queueSubmit = VK_SUCCESS) :
    (Graphics.FrameRender app env).result =
      .ok { app with
        m_graphics := { app.m_graphics with
          m_MainWindowData :=
            { app.m_graphics.m_MainWindowData with FrameIndex := env.acquiredImage } } } := by
  have hna : ¬ (env.acquire = VK_ERROR_OUT_OF_DATE_KHR ∨ env.acquire = VK_SUBOPTIMAL_KHR) := by
    rw [ha]; decide
  have hz : ¬ (VK_SUCCESS < 0) := by decide
  rw [FrameRender_result_eq, if_neg hna, ha, h2, h3, h4, h5, h6, h7]
  simp only [hz, if_false]

theorem FramePresent_success (app : Application) (env : FrameEnv)
    (hf : app.m_SwapChainRebuild = false) (hp : env.queuePresent = VK_SUCCESS)
    (hc : app.m_graphics.m_MainWindowData.ImageCount ≠ 0) :
    (Graphics.FramePresent app env).result =
      .ok { app with
        m_graphics := { app.m_graphics with
          m_MainWindowData := { app.m_graphics.m_MainWindowData with
            SemaphoreIndex :=
              ((app.m_graphics.m_MainWindowData.SemaphoreIndex + 1) % 2 ^ 32) %
                app.m_graphics.m_MainWindowData.ImageCount } } } := by
  have hnp : needsRebuild env.queuePresent = false := by
    rw [hp]; decide
  have hz : ¬ (VK_SUCCESS < 0) := by decide
  rw [FramePresent_other app env hf hnp, hp]
  simp only [hz, hc, if_false]

/-- An iteration entered with the rebuild flag clear and an image count other
than 0, in which the window is shown and every driver call succeeds: it
returns, with the frame index the driver handed out and the semaphore index
advanced by one slot. -/
theorem iteration_allSucceed (app : Application) (env : FrameEnv)
    (hflag : app.m_SwapChainRebuild = false) (hall : env.allSucceed)
    (hc : app.m_graphics.m_MainWindowData.ImageCount ≠ 0) :
    ∃ app', (Application.iteration app env).result = .ok app' ∧
      app'.m_SwapChainRebuild = false ∧
      app'.m_graphics.m_MainWindowData.ImageCount =
        app.m_graphics.m_MainWindowData.ImageCount ∧
      app'.m_graphics.m_MainWindowData.FrameIndex = env.acquiredImage ∧
      app'.m_graphics.m_MainWindowData.SemaphoreIndex =
        ((app.m_graphics.m_MainWindowData.SemaphoreIndex + 1) % 2 ^ 32) %
          app.m_graphics.m_MainWindowData.ImageCount := by
  obtain ⟨hx, hy, ha, h2, h3, h4, h5, h6, h7, hp⟩ := hall
  have hshown : (env.displaySize.1.leZero || env.displaySize.2.leZero) = false := by
    rw [hx, hy]; rfl
  have hrs := resizeSwapChain_clear (afterEvents app env) env hflag
  have hit := iteration_eq app _ env (congrArg Exec.result hrs)
  have hd := Draw_shown (afterEvents app env) env hshown
  have hfr := FrameRender_success (withClearValue (afterEvents app env) env) env
    ha h2 h3 h4 h5 h6 h7
  have hres : (Application.iteration app env).result =
      (renderThenPresent (afterEvents app env) env).result := by
    rw [hit, hd]
  unfold renderThenPresent at hres
  rw [result_bind_ok _ _ _ hfr] at hres
  rw [hres]
  exact ⟨_, FramePresent_success _ env hflag hp hc, hflag, rfl, rfl, rfl⟩

/-! ## Startup -/

theorem noExit_pure {α : Type} (a : α) : (pure a : Exec α).noExit := by
  intro code h
  cases h

theorem noExit_bind {α β : Type} (m : Exec α) (f : α → Exec β) (hm : m.noExit)
    (hf : ∀ a, (f a).noExit) : (m >>= f).noExit := by
  intro code
  cases hr : m.result with
  | error t =>
    rw [result_bind_error _ _ _ hr]
    intro h
    cases h
    exact hm code hr
  | ok a =>
    rw [result_bind_ok _ _ _ hr]
    exact hf a code

theorem noExit_call (c : Call) : (call c).noExit := by
  intro code h
  cases h

theorem noExit_CheckVkResult (err : VkResult) : (Graphics.CheckVkResult err).noExit := by
  intro code
  rw [result_CheckVkResult]
  split_ifs <;> intro h <;> cases h

theorem noExit_IM_ASSERT (cfg : BuildConfig) (cond : Bool) : (IM_ASSERT cfg cond).noExit := by
  intro code
  unfold IM_ASSERT
  split_ifs <;> intro h <;> cases h

theorem noExit_nullCall {α : Type} : (nullCall : Exec α).noExit := by
  intro code h
  cases h

theorem noExit_ite {α : Type} (c : Prop) [Decidable c] (x y : Exec α) (hx : x.noExit)
    (hy : y.noExit) : (if c then x else y).noExit := by
  split_ifs
  · exact hx
  · exact hy

theorem noExit_selectGPU (types : List Nat) (useGPU i : Nat) :
    (Graphics.selectGPU useGPU i types).noExit := by
  induction types generalizing i with
  | nil => exact noExit_pure _
  | cons t rest ih =>
    unfold Graphics.selectGPU
    apply noExit_bind _ _ (noExit_call _)
    intro _
    split_ifs
    · exact noExit_pure _
    · exact ih _

theorem noExit_Init (cfg : BuildConfig) (env : StartupEnv) (g : Graphics)
    (extensions : List String) (extensionCount : Nat) :
    (Graphics.Init cfg env g extensions extensionCount).noExit := by
  unfold Graphics.Init
  dsimp only
  repeat' first
    | exact noExit_call _
    | exact noExit_pure _
    | exact noExit_nullCall
    | exact noExit_CheckVkResult _
    | exact noExit_IM_ASSERT _ _
    | exact noExit_selectGPU _ _ _
    | apply noExit_ite
    | (apply noExit_bind; rotate_left; intro _)

theorem noExit_InitImGui (cfg : BuildConfig) (env : StartupEnv) (g : Graphics) :
    (Graphics.InitImGui cfg env g).noExit := by
  unfold Graphics.InitImGui
  dsimp only
  repeat' first
    | exact noExit_call _
    | exact noExit_pure _
    | exact noExit_CheckVkResult _
    | exact noExit_IM_ASSERT _ _
    | (apply noExit_bind; rotate_left; intro _)

theorem result_pure_bind {α β : Type} (a : α) (f : α → Exec β) :
    (pure a >>= f).result = (f a).result := rfl

theorem result_exit {α : Type} (code : Int) :
    (exit code : Exec α).result = .error (.exited code) := rfl

theorem InitSDLWindow_result (cfg : BuildConfig) (env : StartupEnv) (w : Window) :
    (Application.InitSDLWindow cfg env w).result =
      if env.sdlInit ≠ 0 then .error (.exited Error.SDLInitFailed.toInt)
      else if env.windowHandle = 0 then .error (.exited Error.SDLWindowInitFailed.toInt)
      else .ok { w with handler := env.windowHandle } := by
  unfold Application.InitSDLWindow
  dsimp only
  cases cfg.imeShowUI <;>
    simp only [result_call_bind, result_pure_bind, apply_ite Exec.result, result_pure,
      result_exit, if_true, Bool.false_eq_true, if_false]

theorem SetupVulkanWindow_result (cfg : BuildConfig) (env : StartupEnv) (g : Graphics)
    (width height : Int) :
    (Graphics.SetupVulkanWindow cfg env g width height).result =
      if env.surfaceSupport ≠ VK_TRUE then .error (.exited Error.VKCreateFrameBufferFailed.toInt)
      else if (cfg.assertsEnabled && !decide (g.m_MinImageCount ≥ 2)) = true then
        .error .aborted
      else .ok { g with m_MainWindowData := env.createdWindow } := by
  unfold Graphics.SetupVulkanWindow
  by_cases hs : env.surfaceSupport ≠ VK_TRUE
  · simp only [result_call_bind, apply_ite Exec.result, result_exit]
    rw [if_pos hs, if_pos hs]
  · simp only [result_call_bind, apply_ite Exec.result, result_exit]
    rw [if_neg hs, if_neg hs]
    by_cases ha : (cfg.assertsEnabled && !decide (g.m_MinImageCount ≥ 2)) = true
    · rw [if_pos ha]
      apply result_bind_error
      unfold IM_ASSERT
      rw [if_pos ha]
      rfl
    · rw [if_neg ha]
      have hr : (IM_ASSERT cfg (decide (g.m_MinImageCount ≥ 2))).result = .ok () := by
        unfold IM_ASSERT
        rw [if_neg ha]
        rfl
      rw [result_bind_ok _ _ _ hr]
      rfl

/-- The result of `InitVulkan` once the `Graphics` constructor has returned. -/
theorem InitVulkan_result (cfg : BuildConfig) (env : StartupEnv) (g : Graphics)
    (hg : (Graphics.new cfg env env.instanceExtensions env.instanceExtensions.length).result =
      .ok g) :
    (Application.InitVulkan cfg env).result =
      if env.createSurface = 0 then .error (.exited Error.SDLVKSurfaceCreatedFailed.toInt)
      else
        (Graphics.CreateFrameBuffer cfg env g env.windowSize.1 env.windowSize.2 >>= fun g' =>
          Graphics.InitImGui cfg env g' >>= fun _ => pure g').result := by
  unfold Application.InitVulkan
  dsimp only
  rw [result_call_bind, result_call_bind, result_bind_ok _ _ _ hg, result_call_bind]
  by_cases hs : env.createSurface = 0
  · rw [if_pos hs, if_pos hs]
    rfl
  · rw [if_neg hs, if_neg hs]
    rfl

theorem InitVulkan_exit_codes (cfg : BuildConfig) (env : StartupEnv) (code : Int)
    (h : (Application.InitVulkan cfg env).result = .error (.exited code)) :
    code = Error.SDLVKSurfaceCreatedFailed.toInt ∨
    code = Error.VKCreateFrameBufferFailed.toInt := by
  cases hg : (Graphics.new cfg env env.instanceExtensions env.instanceExtensions.length).result
    with
  | error t =>
    have : (Application.InitVulkan cfg env).result = .error t := by
      unfold Application.InitVulkan
      dsimp only
      rw [result_call_bind, result_call_bind, result_bind_error _ _ _ hg]
    rw [this] at h
    cases h
    exact absurd hg (noExit_Init _ _ _ _ _ code)
  | ok g =>
    rw [InitVulkan_result cfg env g hg] at h
    split_ifs at h with hs
    · cases h
      exact Or.inl rfl
    · cases hf : (Graphics.CreateFrameBuffer cfg env g env.windowSize.1
          env.windowSize.2).result with
      | error t =>
        rw [result_bind_error _ _ _ hf] at h
        cases h
        unfold Graphics.CreateFrameBuffer at hf
        rw [SetupVulkanWindow_result] at hf
        split_ifs at hf
        all_goals first
          | (cases hf; exact Or.inr rfl)
          | cases hf
      | ok g' =>
        rw [result_bind_ok _ _ _ hf] at h
        have hne : (Graphics.InitImGui cfg env g' >>= fun _ => (pure g' : Exec Graphics)).noExit :=
          noExit_bind _ _ (noExit_InitImGui cfg env g') (fun _ => noExit_pure _)
        exact absurd h (hne code)

/-! ## What a run ensures -/

theorem ensures_pure {α : Type} (P : α → Prop) (a : α) (h : P a) :
    (pure a : Exec α).ensures P := by
  intro b hb
  cases hb
  exact h

theorem ensures_bind {α β : Type} (m : Exec α) (f : α → Exec β) (P : β → Prop)
    (hf : ∀ a, m.result = .ok a → (f a).ensures P) : (m >>= f).ensures P := by
  intro b hb
  cases hr : m.result with
  | error t =>
    rw [result_bind_error _ _ _ hr] at hb
    cases hb
  | ok a =>
    rw [result_bind_ok _ _ _ hr] at hb
    exact hf a hr b hb

theorem ensures_ite {α : Type} (c : Prop) [Decidable c] (x y : Exec α) (P : α → Prop)
    (hx : x.ensures P) (hy : y.ensures P) : (if c then x else y).ensures P := by
  split_ifs
  · exact hx
  · exact hy

theorem ensures_of_error {α : Type} (m : Exec α) (P : α → Prop) (t : Termination)
    (h : m.result = .error t) : m.ensures P := by
  intro a ha
  rw [h] at ha
  cases ha

theorem Main_CheckVkResult_eq (err : VkResult) :
    Main.CheckVkResult err = Graphics.CheckVkResult err := rfl

/-! ## The exit codes of `main` -/

theorem Main_main_result (cfg : BuildConfig) (env : StartupEnv) (frames : List FrameEnv)
    (waitIdle : VkResult) (destroyProc : Nat) :
    (Main.main cfg env frames waitIdle destroyProc).result =
      if env.sdlInit ≠ 0 then .ok (-1)
      else if env.windowHandle = 0 then .ok (-1)
      else (Main.withWindow cfg env env.windowHandle frames waitIdle destroyProc).result := by
  unfold Main.main
  dsimp only
  cases cfg.imeShowUI <;>
    simp only [result_call_bind, result_pure_bind, apply_ite Exec.result, result_pure,
      if_true, Bool.false_eq_true, if_false]

theorem Main_SetupVulkanWindow_unsupported (cfg : BuildConfig) (env : StartupEnv)
    (g_QueueFamily g_MinImageCount : Nat) (width height : Int)
    (h : env.surfaceSupport ≠ VK_TRUE) :
    (Main.SetupVulkanWindow cfg env g_QueueFamily g_MinImageCount width height).result =
      .error (.exited (-1)) := by
  unfold Main.SetupVulkanWindow
  simp only [result_call_bind, apply_ite Exec.result, result_exit]
  rw [if_pos h]

/-- The result of the part of `main` that follows the creation of the window,
once `SetupVulkan` has returned. -/
theorem Main_withWindow_result (cfg : BuildConfig) (env : StartupEnv) (window : Nat)
    (frames : List FrameEnv) (waitIdle : VkResult) (destroyProc : Nat) (d : Option Nat × Nat)
    (hd : (Main.SetupVulkan cfg env (2 ^ 32 - 1) env.instanceExtensions
      env.instanceExtensions.length).result = .ok d) :
    (env.createSurface = 0 →
      (Main.withWindow cfg env window frames waitIdle destroyProc).result = .ok 1) ∧
    (env.createSurface ≠ 0 → env.surfaceSupport ≠ VK_TRUE →
      (Main.withWindow cfg env window frames waitIdle destroyProc).result =
        .error (.exited (-1))) := by
  constructor
  · intro hs
    unfold Main.withWindow
    dsimp only
    rw [result_call_bind, result_call_bind, result_bind_ok _ _ _ hd, result_call_bind,
      if_pos hs]
    rfl
  · intro hs hw
    unfold Main.withWindow
    dsimp only
    rw [result_call_bind, result_call_bind, result_bind_ok _ _ _ hd, result_call_bind,
      if_neg hs, result_call_bind, result_call_bind]
    exact result_bind_error _ _ _ (Main_SetupVulkanWindow_unsupported cfg env _ _ _ _ hw)

theorem Main_cleanup_ensures (cfg : BuildConfig) (waitIdle : VkResult) (destroyProc : Nat) :
    (Main.cleanup cfg waitIdle destroyProc).ensures (fun c => c = 0) := by
  unfold Main.cleanup
  repeat' first
    | exact ensures_pure _ _ rfl
    | (apply ensures_bind; intro _ _)

/-- When the surface has been created, `main` returns only through its last
statement, `return 0`. -/
theorem Main_withWindow_ensures (cfg : BuildConfig) (env : StartupEnv) (window : Nat)
    (frames : List FrameEnv) (waitIdle : VkResult) (destroyProc : Nat)
    (hs : env.createSurface ≠ 0) :
    (Main.withWindow cfg env window frames waitIdle destroyProc).ensures (fun c => c = 0) := by
  unfold Main.withWindow
  dsimp only
  apply ensures_bind; intro _ _
  apply ensures_bind; intro _ _
  apply ensures_bind; intro _ _
  apply ensures_bind; intro _ _
  rw [if_neg hs]
  repeat' first
    | exact Main_cleanup_ensures _ _ _
    | (apply ensures_bind; intro _ _)

/-! ## The two encodings of the frame loop -/

theorem calls_mapValue {α β : Type} (f : α → β) (m : Exec α) :
    (m.mapValue f).calls = m.calls := rfl

theorem result_mapValue {α β : Type} (f : α → β) (m : Exec α) :
    (m.mapValue f).result = m.result.map f := rfl

theorem mapValue_bind {α β α' β' : Type} (f : α → α') (g : β → β') (m : Exec α) (n : Exec α')
    (k : α → Exec β) (k' : α' → Exec β') (hm : m.mapValue f = n)
    (hk : ∀ a, (k a).mapValue g = k' (f a)) :
    (m >>= k).mapValue g = n >>= k' := by
  subst hm
  cases hr : m.result with
  | error t =>
    have hr' : (m.mapValue f).result = .error t := by
      show m.result.map f = _
      rw [hr]; rfl
    apply exec_ext
    · show (m >>= k).calls = _
      rw [calls_bind_error _ _ _ hr, calls_bind_error _ _ _ hr']
      rfl
    · show (m >>= k).result.map g = _
      rw [result_bind_error _ _ _ hr, result_bind_error _ _ _ hr']
      rfl
  | ok a =>
    have hr' : (m.mapValue f).result = .ok (f a) := by
      show m.result.map f = _
      rw [hr]; rfl
    apply exec_ext
    · show (m >>= k).calls = _
      rw [calls_bind_ok _ _ _ hr, calls_bind_ok _ _ _ hr', ← hk a]
      rfl
    · show (m >>= k).result.map g = _
      rw [result_bind_ok _ _ _ hr, result_bind_ok _ _ _ hr', ← hk a]
      rfl

theorem handleEvent_sim (s : MainState) (windowID : Nat) (event : SDL_Event) :
    (Main.handleEvent s windowID event).mapValue MainState.toApplication =
      Application.handleEvent s.toApplication windowID event := by
  apply exec_ext
  · show (Main.handleEvent s windowID event).calls = _
    unfold Main.handleEvent Application.handleEvent
    simp only [calls_call_bind, apply_ite Exec.calls, calls_pure]
  · show (Main.handleEvent s windowID event).result.map MainState.toApplication = _
    unfold Main.handleEvent Application.handleEvent
    simp only [result_call_bind, apply_ite Exec.result, result_pure]
    split_ifs <;> rfl

theorem pollEvents_sim (windowID : Nat) (events : List SDL_Event) (s : MainState) :
    (Main.pollEvents s windowID events).mapValue MainState.toApplication =
      Application.pollEvents s.toApplication windowID events := by
  induction events generalizing s with
  | nil => rfl
  | cons e rest ih =>
    unfold Main.pollEvents Application.pollEvents
    exact mapValue_bind id _ _ _ _ _ rfl
      (fun _ => mapValue_bind _ _ _ _ _ _ (handleEvent_sim s windowID e) (fun a => ih a))

theorem resizeSwapChain_sim (s : MainState) (env : FrameEnv) :
    (Main.resizeSwapChain s env).mapValue MainState.toApplication =
      Application.resizeSwapChain s.toApplication env := by
  unfold Main.resizeSwapChain Application.resizeSwapChain
  show (if s.g_SwapChainRebuild = true then _ else _ : Exec MainState).mapValue _ =
    if s.g_SwapChainRebuild = true then _ else _
  split_ifs with h
  · apply exec_ext
    · rw [calls_mapValue]
      simp only [calls_call_bind, apply_ite Exec.calls, calls_pure]
      split_ifs <;> rfl
    · rw [result_mapValue]
      simp only [result_call_bind, apply_ite Exec.result, result_pure]
      split_ifs <;> rfl
  · rfl

theorem FrameRender_sim (s : MainState) (env : FrameEnv) :
    (Main.FrameRender s env).mapValue MainState.toApplication =
      Graphics.FrameRender s.toApplication env := by
  apply exec_ext
  · show (Main.FrameRender s env).calls = _
    unfold Main.FrameRender Graphics.FrameRender
    simp only [Main_CheckVkResult_eq, calls_call_bind, calls_check_bind, apply_ite Exec.calls,
      calls_pure]
    rfl
  · show (Main.FrameRender s env).result.map MainState.toApplication = _
    unfold Main.FrameRender Graphics.FrameRender
    simp only [Main_CheckVkResult_eq, result_call_bind, result_check_bind,
      apply_ite Exec.result, result_pure]
    split_ifs <;> rfl

theorem FramePresent_sim (s : MainState) (env : FrameEnv) :
    (Main.FramePresent s env).mapValue MainState.toApplication =
      Graphics.FramePresent s.toApplication env := by
  unfold Main.FramePresent Graphics.FramePresent
  show (if s.g_SwapChainRebuild = true then _ else _ : Exec MainState).mapValue _ =
    if s.g_SwapChainRebuild = true then _ else _
  split_ifs with h
  · rfl
  · apply exec_ext
    · rw [calls_mapValue]
      simp only [Main_CheckVkResult_eq, calls_call_bind, calls_check_bind, calls_urem_bind,
        apply_ite Exec.calls, calls_pure, ite_self]
      rfl
    · rw [result_mapValue]
      simp only [Main_CheckVkResult_eq, result_call_bind, result_check_bind,
        result_urem_bind, apply_ite Exec.result, result_pure]
      dsimp only [MainState.toApplication]
      split_ifs <;> rfl

theorem draw_sim (s : MainState) (env : FrameEnv) :
    (Main.draw s env).mapValue MainState.toApplication =
      Graphics.Draw s.toApplication env := by
  rcases s with ⟨pd, qf, wd, mic, rb, w, sc, sd, cc⟩
  cases sd
  all_goals
    unfold Main.draw Graphics.Draw
    dsimp only [MainState.toApplication]
    simp only [Bool.false_eq_true, if_false, if_true]
    refine mapValue_bind id _ _ _ _ _ rfl (fun _ => ?_)
    refine mapValue_bind id _ _ _ _ _ rfl (fun _ => ?_)
    refine mapValue_bind id _ _ _ _ _ rfl (fun _ => ?_)
    refine mapValue_bind id _ _ _ _ _ rfl (fun _ => ?_)
    refine mapValue_bind id _ _ _ _ _ rfl (fun _ => ?_)
    refine mapValue_bind id _ _ _ _ _ rfl (fun _ => ?_)
    split_ifs
    · exact mapValue_bind _ _ _ _ _ _ (FrameRender_sim _ env) (fun a => FramePresent_sim a env)
    · rfl

theorem iteration_sim (s : MainState) (env : FrameEnv) :
    (Main.iteration s env).mapValue MainState.toApplication =
      Application.iteration s.toApplication env := by
  unfold Main.iteration Application.iteration
  exact mapValue_bind _ _ _ _ _ _ (pollEvents_sim env.windowID env.events s)
    (fun a => mapValue_bind _ _ _ _ _ _ (resizeSwapChain_sim a env) (fun b => draw_sim b env))

theorem loop_sim (frames : List FrameEnv) (s : MainState) :
    (Main.loop s frames).mapValue MainState.toApplication =
      Application.loop s.toApplication frames := by
  induction frames generalizing s with
  | nil =>
    unfold Main.loop Application.loop
    show (if s.shouldClose = true then _ else _ : Exec MainState).mapValue _ =
      if s.shouldClose = true then _ else _
    split_ifs <;> rfl
  | cons env rest ih =>
    unfold Main.loop Application.loop
    show (if s.shouldClose = true then _ else _ : Exec MainState).mapValue _ =
      if s.shouldClose = true then _ else _
    split_ifs
    · rfl
    · exact mapValue_bind _ _ _ _ _ _ (iteration_sim s env) (fun a => ih a)

/-! ## What the calls of a run have in common -/

theorem callsAll_pure {α : Type} (q : Call → Prop) (a : α) : (pure a : Exec α).callsAll q := by
  intro c hc
  cases hc

theorem callsAll_call (q : Call → Prop) (c : Call) (h : q c) : (call c).callsAll q := by
  intro c' hc'
  have : c' = c := by simpa [call] using hc'
  rw [this]
  exact h

theorem callsAll_bind {α β : Type} (q : Call → Prop) (m : Exec α) (f : α → Exec β)
    (hm : m.callsAll q) (hf : ∀ a, m.result = .ok a → (f a).callsAll q) :
    (m >>= f).callsAll q := by
  intro c hc
  cases hr : m.result with
  | error t =>
    rw [calls_bind_error _ _ _ hr] at hc
    exact hm c hc
  | ok a =>
    rw [calls_bind_ok _ _ _ hr, List.mem_append] at hc
    rcases hc with hc | hc
    · exact hm c hc
    · exact hf a hr c hc

theorem callsAll_ite {α : Type} (q : Call → Prop) (c : Prop) [Decidable c] (x y : Exec α)
    (hx : x.callsAll q) (hy : y.callsAll q) : (if c then x else y).callsAll q := by
  split_ifs
  · exact hx
  · exact hy

theorem callsAll_abort {α : Type} (q : Call → Prop) (h : q .abort) :
    (abort : Exec α).callsAll q := by
  intro c hc
  have : c = .abort := by simpa [abort] using hc
  rw [this]
  exact h

theorem callsAll_exit {α : Type} (q : Call → Prop) (code : Int) (h : q (.exit code)) :
    (exit code : Exec α).callsAll q := by
  intro c hc
  have : c = .exit code := by simpa [exit] using hc
  rw [this]
  exact h

theorem callsAll_nullCall {α : Type} (q : Call → Prop) : (nullCall : Exec α).callsAll q := by
  intro c hc
  cases hc

theorem callsAll_urem (q : Call → Prop) (a b : Nat) : (urem a b).callsAll q := by
  intro c hc
  rw [calls_urem] at hc
  cases hc

theorem callsAll_CheckVkResult (q : Call → Prop) (err : VkResult)
    (hlog : ∀ fmt args, q (.Log_Message fmt args)) (habort : q .abort) :
    (Graphics.CheckVkResult err).callsAll q := by
  unfold Graphics.CheckVkResult
  apply callsAll_ite
  · exact callsAll_pure _ _
  · apply callsAll_bind _ _ _ (callsAll_call _ _ (hlog _ _))
    intro _ _
    apply callsAll_ite
    · exact callsAll_abort _ habort
    · exact callsAll_pure _ _

theorem callsAll_IM_ASSERT (q : Call → Prop) (cfg : BuildConfig) (cond : Bool)
    (habort : q .abort) : (IM_ASSERT cfg cond).callsAll q := by
  unfold IM_ASSERT
  split_ifs
  · exact callsAll_abort _ habort
  · exact callsAll_pure _ _

theorem callsAll_selectGPU (q : Call → Prop) (types : List Nat) (useGPU i : Nat)
    (h : ∀ k, q (.vkGetPhysicalDeviceProperties k)) :
    (Graphics.selectGPU useGPU i types).callsAll q := by
  induction types generalizing i with
  | nil => exact callsAll_pure _ _
  | cons t rest ih =>
    unfold Graphics.selectGPU
    apply callsAll_bind _ _ _ (callsAll_call _ _ (h _))
    intro _ _
    apply callsAll_ite
    · exact callsAll_pure _ _
    · exact ih _

theorem callsAll_countP {α : Type} (m : Exec α) (p : Call → Bool)
    (h : m.callsAll (fun c => p c = false)) : m.calls.countP p = 0 := by
  rw [List.countP_eq_zero]
  intro c hc
  simp [h c hc]

theorem IM_ASSERT_ok_inv (cfg : BuildConfig) (cond : Bool) (a : Unit)
    (hcfg : cfg.assertsEnabled = true) (h : (IM_ASSERT cfg cond).result = .ok a) :
    cond = true := by
  unfold IM_ASSERT at h
  cases cond
  · rw [hcfg] at h
    cases h
  · rfl

/-! ## Device and queue family selection -/

theorem result_IM_ASSERT (cfg : BuildConfig) (cond : Bool) :
    (IM_ASSERT cfg cond).result =
      if (cfg.assertsEnabled && !cond) = true then .error .aborted else .ok () := by
  unfold IM_ASSERT
  split_ifs <;> rfl

theorem result_assert_bind {β : Type} (cfg : BuildConfig) (cond : Bool) (f : Unit → Exec β) :
    (IM_ASSERT cfg cond >>= f).result =
      if (cfg.assertsEnabled && !cond) = true then .error .aborted else (f ()).result := by
  by_cases h : (cfg.assertsEnabled && !cond) = true
  · rw [if_pos h]
    apply result_bind_error
    rw [result_IM_ASSERT, if_pos h]
  · rw [if_neg h]
    apply result_bind_ok
    rw [result_IM_ASSERT, if_neg h]

theorem result_nullCall_bind {α β : Type} (f : α → Exec β) :
    ((nullCall : Exec α) >>= f).result = .error .nullCall := rfl

/-- The device loop always returns, and its value is the index of the first
discrete device from `i` on, or `useGPU` when there is none. -/
theorem selectGPU_result (types : List Nat) (useGPU i : Nat) :
    ∃ k, (Graphics.selectGPU useGPU i types).result = .ok k ∧
      ((∃ j : Nat, k = i + j ∧ types[j]? = some VK_PHYSICAL_DEVICE_TYPE_DISCRETE_GPU ∧
          ∀ j' : Nat, j' < j → types[j']? ≠ some VK_PHYSICAL_DEVICE_TYPE_DISCRETE_GPU) ∨
        (k = useGPU ∧ ∀ j : Nat, types[j]? ≠ some VK_PHYSICAL_DEVICE_TYPE_DISCRETE_GPU)) := by
  induction types generalizing i with
  | nil =>
    exact ⟨useGPU, rfl, Or.inr ⟨rfl, fun j => by simp⟩⟩
  | cons t rest ih =>
    unfold Graphics.selectGPU
    rw [result_call_bind]
    by_cases ht : t = VK_PHYSICAL_DEVICE_TYPE_DISCRETE_GPU
    · rw [if_pos ht]
      refine ⟨i, rfl, Or.inl ⟨0, rfl, ?_, ?_⟩⟩
      · rw [ht]; exact List.getElem?_cons_zero
      · intro j' hj'
        cases hj'
    · rw [if_neg ht]
      obtain ⟨k, hk, hspec⟩ := ih (i + 1)
      refine ⟨k, hk, ?_⟩
      rcases hspec with ⟨j, hkj, hj, hmin⟩ | ⟨hku, hnone⟩
      · refine Or.inl ⟨j + 1, by omega, ?_, ?_⟩
        · simpa using hj
        · intro j' hj'
          cases j' with
          | zero =>
            intro h
            simp only [List.getElem?_cons_zero, Option.some.injEq] at h
            exact ht h
          | succ j'' =>
            simpa using hmin j'' (by omega)
      · refine Or.inr ⟨hku, ?_⟩
        intro j
        cases j with
        | zero =>
          intro h
          simp only [List.getElem?_cons_zero, Option.some.injEq] at h
          exact ht h
        | succ j'' =>
          simpa using hnone j''

/-- The queue family loop yields the first index from `i` on whose flags hold
the graphics bit, and leaves `m_QueueFamily` as it was when there is none. -/
theorem selectQueueFamily_spec (flags : List Nat) (m_QueueFamily i : Nat) :
    (∃ j : Nat, Graphics.selectQueueFamily m_QueueFamily i flags = i + j ∧
        (∃ f, flags[j]? = some f ∧ f &&& VK_QUEUE_GRAPHICS_BIT ≠ 0) ∧
        ∀ (j' : Nat) f, j' < j → flags[j']? = some f → f &&& VK_QUEUE_GRAPHICS_BIT = 0) ∨
    (Graphics.selectQueueFamily m_QueueFamily i flags = m_QueueFamily ∧
      ∀ f, f ∈ flags → f &&& VK_QUEUE_GRAPHICS_BIT = 0) := by
  induction flags generalizing i with
  | nil =>
    exact Or.inr ⟨rfl, fun f hf => by cases hf⟩
  | cons q rest ih =>
    unfold Graphics.selectQueueFamily
    by_cases hq : q &&& VK_QUEUE_GRAPHICS_BIT ≠ 0
    · rw [if_pos hq]
      refine Or.inl ⟨0, rfl, ⟨q, by simp, hq⟩, ?_⟩
      intro j' f hj'
      cases hj'
    · rw [if_neg hq]
      have hq0 : q &&& VK_QUEUE_GRAPHICS_BIT = 0 := not_not.mp hq
      rcases ih (i + 1) with ⟨j, hj, ⟨f, hf, hbit⟩, hmin⟩ | ⟨hs, hnone⟩
      · refine Or.inl ⟨j + 1, by omega, ⟨f, by simpa using hf, hbit⟩, ?_⟩
        intro j' f' hj' hf'
        cases j' with
        | zero =>
          simp only [List.getElem?_cons_zero, Option.some.injEq] at hf'
          rw [← hf']
          exact hq0
        | succ j'' =>
          exact hmin j'' f' (by omega) (by simpa using hf')
      · refine Or.inr ⟨hs, ?_⟩
        intro f hf
        rcases List.mem_cons.mp hf with h | h
        · rw [h]; exact hq0
        · exact hnone f h

/-- How `Graphics::Init` ends, case by case, in the order of its statements. -/
theorem Init_result (cfg : BuildConfig) (env : StartupEnv) (g : Graphics)
    (extensions : List String) (extensionCount : Nat) (k : Nat)
    (hk : (Graphics.selectGPU 0 0
      (if env.deviceTypes.length < 2 ^ 31 then env.deviceTypes else [])).result = .ok k) :
    (Graphics.Init cfg env g extensions extensionCount).result =
      if env.createInstance < 0 then .error .aborted
      else if cfg.debugReport = true ∧ cfg.assertsEnabled = true ∧
          env.createDebugReportProc = 0 then .error .aborted
      else if cfg.debugReport = true ∧ env.createDebugReportProc = 0 then .error .nullCall
      else if cfg.debugReport = true ∧ env.createDebugReportCallback < 0 then .error .aborted
      else if env.enumerateCount < 0 then .error .aborted
      else if cfg.assertsEnabled = true ∧ env.deviceTypes = [] then .error .aborted
      else if env.enumerateDevices < 0 then .error .aborted
      else if cfg.assertsEnabled = true ∧
          Graphics.selectQueueFamily g.m_QueueFamily 0 env.queueFlags = 2 ^ 32 - 1 then
        .error .aborted
      else if env.createDevice < 0 then .error .aborted
      else if env.createDescriptorPool < 0 then .error .aborted
      else .ok (initialised env g k) := by
  unfold Graphics.Init
  dsimp only
  simp only [result_call_bind, result_check_bind, result_assert_bind, apply_ite Exec.result,
    result_bind_ok _ _ _ hk, result_pure, result_nullCall_bind, result_pure_bind]
  have hlen : decide (env.deviceTypes.length > 0) = !decide (env.deviceTypes = []) := by
    cases env.deviceTypes <;> simp
  rw [hlen]
  cases cfg.debugReport <;> cases cfg.assertsEnabled <;>
    simp only [Bool.false_eq_true, if_false, if_true, false_and, true_and, Bool.false_and,
      Bool.true_and, Bool.not_eq_true', decide_eq_false_iff_not, not_not, ne_eq, decide_not,
      Bool.not_not, decide_eq_true_eq, initialised]



theorem ok_of_ite {α : Type} (c : Prop) [Decidable c] (t : Termination)
    (x : Except Termination α) (a : α) (h : (if c then .error t else x) = .ok a) :
    ¬c ∧ x = .ok a := by
  by_cases hc : c
  · rw [if_pos hc] at h
    cases h
  · rw [if_neg hc] at h
    exact ⟨hc, h⟩

/-- What is known once `Graphics::Init` has returned. -/
theorem Init_ok_inv (cfg : BuildConfig) (env : StartupEnv) (g : Graphics)
    (extensions : List String) (extensionCount : Nat) (k : Nat)
    (hk : (Graphics.selectGPU 0 0
      (if env.deviceTypes.length < 2 ^ 31 then env.deviceTypes else [])).result = .ok k)
    (g' : Graphics)
    (h : (Graphics.Init cfg env g extensions extensionCount).result = .ok g') :
    g' = initialised env g k ∧
    ¬(cfg.assertsEnabled = true ∧
      Graphics.selectQueueFamily g.m_QueueFamily 0 env.queueFlags = 2 ^ 32 - 1) := by
  rw [Init_result cfg env g extensions extensionCount k hk] at h
  obtain ⟨_, h⟩ := ok_of_ite _ _ _ _ h
  obtain ⟨_, h⟩ := ok_of_ite _ _ _ _ h
  obtain ⟨_, h⟩ := ok_of_ite _ _ _ _ h
  obtain ⟨_, h⟩ := ok_of_ite _ _ _ _ h
  obtain ⟨_, h⟩ := ok_of_ite _ _ _ _ h
  obtain ⟨_, h⟩ := ok_of_ite _ _ _ _ h
  obtain ⟨_, h⟩ := ok_of_ite _ _ _ _ h
  obtain ⟨hq, h⟩ := ok_of_ite _ _ _ _ h
  obtain ⟨_, h⟩ := ok_of_ite _ _ _ _ h
  obtain ⟨_, h⟩ := ok_of_ite _ _ _ _ h
  exact ⟨(Except.ok.inj h).symm, hq⟩

theorem ite_eq_of {α : Type} (c : Prop) [Decidable c] (t x : α) (h : ¬c → x = t) :
    (if c then t else x) = t := by
  by_cases hc : c
  · rw [if_pos hc]
  · rw [if_neg hc]
    exact h hc

/-- With assertions compiled in, `Graphics::Init` ends in `abort()` when the
family loop leaves the sentinel in `m_QueueFamily`. -/
theorem Init_aborts_on_sentinel (cfg : BuildConfig) (env : StartupEnv) (g : Graphics)
    (extensions : List String) (extensionCount : Nat)
    (hcfg : cfg.assertsEnabled = true)
    (hs : Graphics.selectQueueFamily g.m_QueueFamily 0 env.queueFlags = 2 ^ 32 - 1) :
    (Graphics.Init cfg env g extensions extensionCount).result = .error .aborted := by
  obtain ⟨k, hk, _⟩ := selectGPU_result
    (if env.deviceTypes.length < 2 ^ 31 then env.deviceTypes else []) 0 0
  rw [Init_result cfg env g extensions extensionCount k hk]
  apply ite_eq_of
  intro _
  apply ite_eq_of
  intro h2
  rw [if_neg (fun h => h2 ⟨h.1, hcfg, h.2⟩)]
  apply ite_eq_of
  intro _
  apply ite_eq_of
  intro _
  apply ite_eq_of
  intro _
  apply ite_eq_of
  intro _
  rw [if_pos ⟨hcfg, hs⟩]

theorem sentinel_assert_fails (cfg : BuildConfig) (q : Nat) (a : Unit)
    (hcfg : cfg.assertsEnabled = true) (hs : q = 2 ^ 32 - 1)
    (h : (IM_ASSERT cfg (decide (q ≠ 2 ^ 32 - 1))).result = .ok a) : False := by
  have := IM_ASSERT_ok_inv cfg _ a hcfg h
  rw [decide_eq_true_eq] at this
  exact this hs

/-- With assertions compiled in, `Graphics::Init` makes no `vkCreateDevice`
call when the family loop leaves the sentinel in `m_QueueFamily`. -/
theorem Init_no_device_on_sentinel (cfg : BuildConfig) (env : StartupEnv) (g : Graphics)
    (extensions : List String) (extensionCount : Nat)
    (hcfg : cfg.assertsEnabled = true)
    (hs : Graphics.selectQueueFamily g.m_QueueFamily 0 env.queueFlags = 2 ^ 32 - 1) :
    (Graphics.Init cfg env g extensions extensionCount).callsAll
      (fun c => c.isCreateDevice = false) := by
  unfold Graphics.Init
  dsimp only
  repeat' first
    | (exfalso; exact sentinel_assert_fails cfg _ _ hcfg hs (by assumption))
    | exact callsAll_call _ _ rfl
    | exact callsAll_pure _ _
    | exact callsAll_nullCall _
    | exact callsAll_CheckVkResult _ _ (fun _ _ => rfl) rfl
    | exact callsAll_IM_ASSERT _ _ _ rfl
    | exact callsAll_selectGPU _ _ _ _ (fun _ => rfl)
    | apply callsAll_ite
    | (apply callsAll_bind; rotate_left; intro _ _)

theorem returnsAfter_bind {α β : Type} (m : Exec α) (f : α → Exec β) (c : Call)
    (hf : ∀ a, m.result = .ok a → (f a).returnsAfter c) : (m >>= f).returnsAfter c := by
  intro b hb
  cases hr : m.result with
  | error t =>
    rw [result_bind_error _ _ _ hr] at hb
    cases hb
  | ok a =>
    rw [result_bind_ok _ _ _ hr] at hb
    rw [calls_bind_ok _ _ _ hr]
    exact List.mem_append_right _ (hf a hr b hb)

theorem returnsAfter_here {β : Type} (c : Call) (f : Unit → Exec β) :
    (call c >>= f).returnsAfter c := by
  intro b _
  rw [calls_call_bind]
  exact List.mem_cons_self _ _

theorem returnsAfter_ite {α : Type} (p : Prop) [Decidable p] (x y : Exec α) (c : Call)
    (hx : x.returnsAfter c) (hy : y.returnsAfter c) : (if p then x else y).returnsAfter c := by
  split_ifs
  · exact hx
  · exact hy

/-- Whenever `Graphics::Init` returns it has called `vkCreateDevice` with the
value the family loop left in `m_QueueFamily`. -/
theorem Init_creates_device (cfg : BuildConfig) (env : StartupEnv) (g : Graphics)
    (extensions : List String) (extensionCount : Nat) :
    (Graphics.Init cfg env g extensions extensionCount).returnsAfter
      (.vkCreateDevice (Graphics.selectQueueFamily g.m_QueueFamily 0 env.queueFlags)
        ["VK_KHR_swapchain"]) := by
  unfold Graphics.Init
  dsimp only
  repeat' first
    | exact returnsAfter_here _ _
    | apply returnsAfter_ite
    | (apply returnsAfter_bind; intro _ _)

/-- The device `Graphics::Init` ends with, for a non-empty enumeration: `Init`
returns when no call fails, and whenever it returns it has chosen a device at
an index `k` within the bounds of the list.  With fewer than `2^31` devices
`k` is the smallest index of a discrete GPU, or 0 when no device is discrete.
From `2^31` devices on, the count is negative as the `int` bound of the loop,
the loop body never runs and `k` is 0. -/
theorem Init_device_index (cfg : BuildConfig) (env : StartupEnv) (g : Graphics)
    (extensions : List String) (extensionCount : Nat) (hne : env.deviceTypes ≠ []) :
    (0 ≤ env.createInstance →
      (cfg.debugReport = true →
        env.createDebugReportProc ≠ 0 ∧ 0 ≤ env.createDebugReportCallback) →
      0 ≤ env.enumerateCount → 0 ≤ env.enumerateDevices →
      (cfg.assertsEnabled = true →
        Graphics.selectQueueFamily g.m_QueueFamily 0 env.queueFlags ≠ 2 ^ 32 - 1) →
      0 ≤ env.createDevice → 0 ≤ env.createDescriptorPool →
      ∃ g', (Graphics.Init cfg env g extensions extensionCount).result = .ok g') ∧
    ∀ g', (Graphics.Init cfg env g extensions extensionCount).result = .ok g' →
      ∃ k, g'.m_PhysicalDevice = some k ∧ k < env.deviceTypes.length ∧
        (env.deviceTypes.length < 2 ^ 31 →
          (env.deviceTypes[k]? = some VK_PHYSICAL_DEVICE_TYPE_DISCRETE_GPU ∧
            ∀ j : Nat, j < k →
              env.deviceTypes[j]? ≠ some VK_PHYSICAL_DEVICE_TYPE_DISCRETE_GPU) ∨
          (k = 0 ∧
            ∀ j : Nat, env.deviceTypes[j]? ≠ some VK_PHYSICAL_DEVICE_TYPE_DISCRETE_GPU)) ∧
        (2 ^ 31 ≤ env.deviceTypes.length → k = 0) := by
  obtain ⟨k, hk, hspec⟩ := selectGPU_result
    (if env.deviceTypes.length < 2 ^ 31 then env.deviceTypes else []) 0 0
  have hpos : 0 < env.deviceTypes.length := List.length_pos.mpr hne
  have hbound : k < env.deviceTypes.length := by
    rcases hspec with ⟨j, hkj, hj, _⟩ | ⟨hk0, _⟩
    · rw [hkj, Nat.zero_add]
      split_ifs at hj with hfit
      · exact (List.getElem?_eq_some_iff.mp hj).1
      · simp at hj
    · rw [hk0]
      exact hpos
  have hres := Init_result cfg env g extensions extensionCount k hk
  constructor
  · intro h1 h2 h3 h4 h5 h6 h7
    refine ⟨initialised env g k, ?_⟩
    rw [hres, if_neg (not_lt.mpr h1), if_neg, if_neg, if_neg, if_neg (not_lt.mpr h3),
      if_neg, if_neg (not_lt.mpr h4), if_neg, if_neg (not_lt.mpr h6),
      if_neg (not_lt.mpr h7)]
    · exact fun h => h5 h.1 h.2
    · exact fun h => hne h.2
    · exact fun h => not_lt.mpr (h2 h.1).2 h.2
    · exact fun h => (h2 h.1).1 h.2
    · exact fun h => (h2 h.1).1 h.2.2
  · intro g' hg'
    have hg := (Init_ok_inv cfg env g extensions extensionCount k hk g' hg').1
    refine ⟨k, ?_, hbound, ?_, ?_⟩
    · rw [hg]
      show (if k < env.deviceTypes.length then some k else none) = some k
      rw [if_pos hbound]
    · intro hfit
      rw [if_pos hfit] at hspec
      rcases hspec with ⟨j, hkj, hj, hmin⟩ | ⟨hk0, hnone⟩
      · rw [Nat.zero_add] at hkj
        rw [hkj]
        exact Or.inl ⟨hj, hmin⟩
      · exact Or.inr ⟨hk0, hnone⟩
    · intro hbig
      rw [if_neg (not_lt.mpr hbig)] at hspec
      rcases hspec with ⟨j, _, hj, _⟩ | ⟨hk0, _⟩
      · simp at hj
      · exact hk0

/-! ## The minimum image count, and the calls of the frame loop -/

theorem isFrameCall_of_isEventCall (n : Nat) (c : Call) (h : c.isEventCall = true) :
    c.isFrameCall n = true := by
  cases c <;> first | rfl | cases h

theorem keeps_bind (n : Nat) (m : Exec Application) (f : Application → Exec Application)
    (hm : m.keepsMinImageCount n)
    (hf : ∀ a, a.m_graphics.m_MinImageCount = n → (f a).keepsMinImageCount n) :
    (m >>= f).keepsMinImageCount n :=
  ⟨callsAll_bind _ _ _ hm.1 (fun a ha => (hf a (hm.2 a ha)).1),
    ensures_bind _ _ _ (fun a ha => (hf a (hm.2 a ha)).2)⟩

theorem pollEvents_keeps (windowID : Nat) (events : List SDL_Event) (app : Application) :
    (Application.pollEvents app windowID events).keepsMinImageCount
      app.m_graphics.m_MinImageCount := by
  constructor
  · intro c hc
    exact isFrameCall_of_isEventCall _ c (pollEvents_calls_event windowID events app c hc)
  · intro a ha
    rw [pollEvents_result] at ha
    cases ha
    rfl

theorem resizeSwapChain_keeps (app : Application) (env : FrameEnv) :
    (Application.resizeSwapChain app env).keepsMinImageCount
      app.m_graphics.m_MinImageCount := by
  by_cases h : app.m_SwapChainRebuild = true
  · by_cases hs : 0 < env.windowSize.1 ∧ 0 < env.windowSize.2
    · rw [resizeSwapChain_rebuild app env h hs.1 hs.2]
      constructor
      · intro c hc
        simp only [List.mem_cons, List.mem_singleton, List.not_mem_nil, or_false] at hc
        rcases hc with rfl | rfl | rfl
        · rfl
        · exact decide_eq_true rfl
        · exact decide_eq_true rfl
      · intro a ha
        cases ha
        rfl
    · rw [resizeSwapChain_degenerate app env h (by omega)]
      constructor
      · intro c hc
        simp only [List.mem_singleton] at hc
        rw [hc]
        rfl
      · intro a ha
        cases ha
        rfl
  · rw [resizeSwapChain_clear app env (by simpa using h)]
    constructor
    · intro c hc
      cases hc
    · intro a ha
      cases ha
      rfl

theorem FrameRender_keeps (app : Application) (env : FrameEnv) :
    (Graphics.FrameRender app env).keepsMinImageCount app.m_graphics.m_MinImageCount := by
  constructor
  · unfold Graphics.FrameRender
    dsimp only
    repeat' first
      | exact callsAll_call _ _ rfl
      | exact callsAll_pure _ _
      | exact callsAll_CheckVkResult _ _ (fun _ _ => rfl) rfl
      | apply callsAll_ite
      | (apply callsAll_bind; rotate_left; intro _ _)
  · intro a ha
    rw [FrameRender_result_ok app a env ha]

theorem FramePresent_keeps (app : Application) (env : FrameEnv) :
    (Graphics.FramePresent app env).keepsMinImageCount app.m_graphics.m_MinImageCount := by
  constructor
  · unfold Graphics.FramePresent
    dsimp only
    repeat' first
      | exact callsAll_call _ _ rfl
      | exact callsAll_pure _ _
      | exact callsAll_urem _ _ _
      | exact callsAll_CheckVkResult _ _ (fun _ _ => rfl) rfl
      | apply callsAll_ite
      | (apply callsAll_bind; rotate_left; intro _ _)
  · unfold Graphics.FramePresent
    dsimp only
    repeat' first
      | exact ensures_pure _ _ rfl
      | apply ensures_ite
      | (apply ensures_bind; intro _ _)

theorem guiFrameCalls_isFrameCall (n : Nat) (showDemo : Bool) :
    ∀ c ∈ guiFrameCalls showDemo, c.isFrameCall n = true := by
  cases showDemo <;> simp [guiFrameCalls, Call.isFrameCall]

theorem renderThenPresent_keeps (app : Application) (env : FrameEnv) :
    (renderThenPresent app env).keepsMinImageCount app.m_graphics.m_MinImageCount := by
  unfold renderThenPresent
  apply keeps_bind _ _ _ (FrameRender_keeps (withClearValue app env) env)
  intro a ha
  have := FramePresent_keeps a env
  rw [ha] at this
  exact this

theorem Draw_keeps (app : Application) (env : FrameEnv) :
    (Graphics.Draw app env).keepsMinImageCount app.m_graphics.m_MinImageCount := by
  cases hm : (env.displaySize.1.leZero || env.displaySize.2.leZero) with
  | true =>
    rw [Draw_minimized app env hm]
    constructor
    · exact guiFrameCalls_isFrameCall _ _
    · intro a ha
      cases ha
      rfl
  | false =>
    rw [Draw_shown app env hm]
    constructor
    · intro c hc
      rcases List.mem_append.mp hc with h | h
      · exact guiFrameCalls_isFrameCall _ _ c h
      · exact (renderThenPresent_keeps app env).1 c h
    · exact (renderThenPresent_keeps app env).2

theorem iteration_keeps (app : Application) (env : FrameEnv) :
    (Application.iteration app env).keepsMinImageCount app.m_graphics.m_MinImageCount := by
  unfold Application.iteration
  apply keeps_bind _ _ _ (pollEvents_keeps env.windowID env.events app)
  intro a ha
  have h1 := resizeSwapChain_keeps a env
  rw [ha] at h1
  apply keeps_bind _ _ _ h1
  intro b hb
  have h2 := Draw_keeps b env
  rw [hb] at h2
  exact h2

theorem loop_keeps (frames : List FrameEnv) (app : Application) :
    (Application.loop app frames).keepsMinImageCount app.m_graphics.m_MinImageCount := by
  induction frames generalizing app with
  | nil =>
    unfold Application.loop
    split_ifs
    · exact ⟨callsAll_pure _ _, ensures_pure _ _ rfl⟩
    · exact ⟨fun c hc => (by cases hc), fun a ha => (by cases ha)⟩
  | cons env rest ih =>
    unfold Application.loop
    split_ifs
    · exact ⟨callsAll_pure _ _, ensures_pure _ _ rfl⟩
    · apply keeps_bind _ _ _ (iteration_keeps app env)
      intro a ha
      have := ih a
      rw [ha] at this
      exact this

/-! ## Shutdown -/

theorem Cleanup_eq (waitIdle : VkResult) :
    Graphics.Cleanup waitIdle =
      ⟨.vkDeviceWaitIdle ::
        (if waitIdle < 0 then logCalls waitIdle ++ [.abort]
         else logCalls waitIdle ++
          [.ImGui_ImplVulkan_Shutdown, .ImGui_ImplSDL2_Shutdown, .ImGui_DestroyContext]),
       if waitIdle < 0 then .error .aborted else .ok ()⟩ := by
  apply exec_ext
  · unfold Graphics.Cleanup
    rw [calls_call_bind, calls_check_bind]
    rfl
  · unfold Graphics.Cleanup
    rw [result_call_bind, result_check_bind]
    rfl

theorem Cleanup_result (waitIdle : VkResult) :
    (Graphics.Cleanup waitIdle).result =
      if waitIdle < 0 then .error .aborted else .ok () := by
  rw [Cleanup_eq]

theorem destroy_eq (cfg : BuildConfig) (destroyProc : Nat) :
    Application.destroy cfg destroyProc =
      ⟨.SDL_DestroyWindow :: .SDL_Quit :: .ImGui_ImplVulkanH_DestroyWindow ::
        .vkDestroyDescriptorPool ::
        (if cfg.debugReport = true then
          .vkGetInstanceProcAddr "vkDestroyDebugReportCallbackEXT" ::
            (if destroyProc = 0 then []
             else [.vkDestroyDebugReportCallbackEXT, .vkDestroyDevice, .vkDestroyInstance])
         else [.vkDestroyDevice, .vkDestroyInstance]),
       if cfg.debugReport = true ∧ destroyProc = 0 then .error .nullCall else .ok ()⟩ := by
  unfold Application.destroy Graphics.destroy Graphics.CleanupVulkanWindow
    Graphics.CleanupVulkan
  cases cfg.debugReport
  · rfl
  · by_cases hp : destroyProc = 0
    · simp only [if_true, hp, true_and]
      rfl
    · simp only [if_true, hp, if_false, and_false]
      rfl

theorem logCalls_filter (p : Call → Bool) (err : VkResult)
    (hp : ∀ fmt args, p (.Log_Message fmt args) = false) :
    (logCalls err).filter p = [] := by
  unfold logCalls
  split_ifs
  · rfl
  · rw [List.filter_cons_of_neg (by rw [hp]; exact Bool.false_ne_true)]
    rfl

theorem filter_of_callsAll {α : Type} (m : Exec α) (p : Call → Bool)
    (h : m.callsAll (fun c => p c = false)) : m.calls.filter p = [] := by
  rw [List.filter_eq_nil_iff]
  intro c hc
  rw [h c hc]
  exact Bool.false_ne_true

/-- How a shutdown ends, and the calls it has made when it returns. -/
theorem runAndDestroy_ok (cfg : BuildConfig) (app : Application) (frames : List FrameEnv)
    (waitIdle : VkResult) (destroyProc : Nat) :
    ((Application.runAndDestroy cfg app frames waitIdle destroyProc).result = .ok () ↔
      (∃ app', (Application.loop app frames).result = .ok app') ∧ ¬waitIdle < 0 ∧
        ¬(cfg.debugReport = true ∧ destroyProc = 0)) ∧
    ((Application.runAndDestroy cfg app frames waitIdle destroyProc).result = .ok () →
      (Application.runAndDestroy cfg app frames waitIdle destroyProc).calls =
        (Application.loop app frames).calls ++
          ((Graphics.Cleanup waitIdle).calls ++ (Application.destroy cfg destroyProc).calls)) := by
  have hrun : ∀ app', (Application.loop app frames).result = .ok app' → ¬waitIdle < 0 →
      Application.Run app frames waitIdle =
        ⟨(Application.loop app frames).calls ++ (Graphics.Cleanup waitIdle).calls,
          .ok app'⟩ := by
    intro app' hl hw
    have hc : (Graphics.Cleanup waitIdle).result = .ok () := by
      rw [Cleanup_result, if_neg hw]
    apply exec_ext
    · unfold Application.Run
      rw [calls_bind_ok _ _ _ hl, calls_bind_ok _ _ _ hc]
      show _ ++ (_ ++ []) = _
      rw [List.append_nil]
    · unfold Application.Run
      rw [result_bind_ok _ _ _ hl, result_bind_ok _ _ _ hc]
      rfl
  have hinv : (Application.runAndDestroy cfg app frames waitIdle destroyProc).result = .ok () →
      (∃ app', (Application.loop app frames).result = .ok app') ∧ ¬waitIdle < 0 ∧
        ¬(cfg.debugReport = true ∧ destroyProc = 0) := by
    intro h
    cases hl : (Application.loop app frames).result with
    | error t =>
      have : (Application.Run app frames waitIdle).result = .error t := by
        unfold Application.Run
        rw [result_bind_error _ _ _ hl]
      unfold Application.runAndDestroy at h
      rw [result_bind_error _ _ _ this] at h
      cases h
    | ok app' =>
      by_cases hw : waitIdle < 0
      · have hc : (Graphics.Cleanup waitIdle).result = .error .aborted := by
          rw [Cleanup_result, if_pos hw]
        have : (Application.Run app frames waitIdle).result = .error .aborted := by
          unfold Application.Run
          rw [result_bind_ok _ _ _ hl, result_bind_error _ _ _ hc]
        unfold Application.runAndDestroy at h
        rw [result_bind_error _ _ _ this] at h
        cases h
      · refine ⟨⟨app', rfl⟩, hw, ?_⟩
        intro hd
        unfold Application.runAndDestroy at h
        rw [result_bind_ok _ _ _ (congrArg Exec.result (hrun app' hl hw)), destroy_eq,
          if_pos hd] at h
        cases h
  refine ⟨⟨hinv, ?_⟩, ?_⟩
  · rintro ⟨⟨app', hl⟩, hw, hd⟩
    unfold Application.runAndDestroy
    rw [result_bind_ok _ _ _ (congrArg Exec.result (hrun app' hl hw)), destroy_eq, if_neg hd]
  · intro h
    obtain ⟨⟨app', hl⟩, hw, _⟩ := hinv h
    unfold Application.runAndDestroy
    rw [calls_bind_ok _ _ _ (congrArg Exec.result (hrun app' hl hw)), hrun app' hl hw,
      List.append_assoc]

theorem isTeardown_of_isFrameCall (n : Nat) (c : Call) (h : c.isFrameCall n = true) :
    c.isTeardown = false := by
  cases c <;> first | rfl | cases h

/-! ## The order in which resources are created and destroyed -/

theorem tracesTo_pure {α β : Type} (φ : Call → Option β) (a : α) :
    (pure a : Exec α).tracesTo φ [] := by
  intro _ _
  rfl

theorem tracesTo_of_error {α β : Type} (φ : Call → Option β) (m : Exec α) (l : List β)
    (t : Termination) (h : m.result = .error t) : m.tracesTo φ l := by
  intro a ha
  rw [h] at ha
  cases ha

theorem tracesTo_bind {α γ β : Type} (φ : Call → Option β) (m : Exec α) (f : α → Exec γ)
    (l1 l2 : List β) (hm : m.tracesTo φ l1) (hf : ∀ a, (f a).tracesTo φ l2) :
    (m >>= f).tracesTo φ (l1 ++ l2) := by
  intro b hb
  cases hr : m.result with
  | error t =>
    rw [result_bind_error _ _ _ hr] at hb
    cases hb
  | ok a =>
    rw [result_bind_ok _ _ _ hr] at hb
    rw [calls_bind_ok _ _ _ hr, List.filterMap_append, hm a hr, hf a b hb]

theorem tracesTo_skip {α γ β : Type} (φ : Call → Option β) (m : Exec α) (f : α → Exec γ)
    (l : List β) (hm : m.tracesTo φ []) (hf : ∀ a, (f a).tracesTo φ l) :
    (m >>= f).tracesTo φ l :=
  tracesTo_bind φ m f [] l hm hf

theorem tracesTo_call_skip {γ β : Type} (φ : Call → Option β) (c : Call) (f : Unit → Exec γ)
    (l : List β) (hc : φ c = none) (hf : (f ()).tracesTo φ l) :
    (call c >>= f).tracesTo φ l := by
  intro b hb
  rw [calls_call_bind, List.filterMap_cons_none hc]
  exact hf b hb

theorem tracesTo_call_keep {γ β : Type} (φ : Call → Option β) (c : Call) (f : Unit → Exec γ)
    (r : β) (l : List β) (hc : φ c = some r) (hf : (f ()).tracesTo φ l) :
    (call c >>= f).tracesTo φ (r :: l) := by
  intro b hb
  rw [calls_call_bind, List.filterMap_cons_some hc]
  exact congrArg _ (hf b hb)

theorem tracesTo_call {β : Type} (φ : Call → Option β) (c : Call) (hc : φ c = none) :
    (call c).tracesTo φ [] := by
  intro _ _
  show List.filterMap φ [c] = []
  rw [List.filterMap_cons_none hc]
  rfl

theorem tracesTo_ite {α β : Type} (φ : Call → Option β) (p : Prop) [Decidable p]
    (x y : Exec α) (l : List β) (hx : x.tracesTo φ l) (hy : y.tracesTo φ l) :
    (if p then x else y).tracesTo φ l := by
  split_ifs
  · exact hx
  · exact hy

theorem tracesTo_of_callsAll {α β : Type} (φ : Call → Option β) (m : Exec α)
    (h : m.callsAll (fun c => φ c = none)) : m.tracesTo φ [] := by
  intro _ _
  rw [List.filterMap_eq_nil_iff]
  exact h

theorem tracesTo_CheckVkResult {β : Type} (φ : Call → Option β) (err : VkResult)
    (hlog : ∀ fmt args, φ (.Log_Message fmt args) = none) (habort : φ .abort = none) :
    (Graphics.CheckVkResult err).tracesTo φ [] :=
  tracesTo_of_callsAll φ _ (callsAll_CheckVkResult _ err hlog habort)

theorem tracesTo_IM_ASSERT {β : Type} (φ : Call → Option β) (cfg : BuildConfig) (cond : Bool)
    (habort : φ .abort = none) : (IM_ASSERT cfg cond).tracesTo φ [] :=
  tracesTo_of_callsAll φ _ (callsAll_IM_ASSERT _ cfg cond habort)

theorem tracesTo_selectGPU {β : Type} (φ : Call → Option β) (types : List Nat)
    (useGPU i : Nat) (h : ∀ k, φ (.vkGetPhysicalDeviceProperties k) = none) :
    (Graphics.selectGPU useGPU i types).tracesTo φ [] :=
  tracesTo_of_callsAll φ _ (callsAll_selectGPU _ types useGPU i h)

theorem Init_creates (cfg : BuildConfig) (env : StartupEnv) (g : Graphics)
    (extensions : List String) (extensionCount : Nat) :
    (Graphics.Init cfg env g extensions extensionCount).tracesTo Call.creates
      (.vulkanInstance :: ((if cfg.debugReport = true then [.debugCallback] else []) ++
        [.device, .descriptorPool])) := by
  unfold Graphics.Init
  dsimp only
  cases cfg.debugReport <;>
    simp only [Bool.false_eq_true, if_false, if_true, List.nil_append, List.cons_append]
  all_goals
    repeat' first
      | exact tracesTo_pure _ _
      | exact tracesTo_of_error _ _ _ _ rfl
      | exact tracesTo_call _ _ rfl
      | exact tracesTo_CheckVkResult _ _ (fun _ _ => rfl) rfl
      | exact tracesTo_IM_ASSERT _ _ _ rfl
      | exact tracesTo_selectGPU _ _ _ _ (fun _ => rfl)
      | refine tracesTo_call_keep _ _ _ _ _ rfl ?_
      | refine tracesTo_call_skip _ _ _ _ rfl ?_
      | apply tracesTo_ite
      | (apply tracesTo_skip; rotate_left; intro _)



theorem InitSDLWindow_creates (cfg : BuildConfig) (env : StartupEnv) (w : Window) :
    (Application.InitSDLWindow cfg env w).tracesTo Call.creates [.window] := by
  unfold Application.InitSDLWindow
  dsimp only
  repeat' first
    | exact tracesTo_pure _ _
    | exact tracesTo_of_error _ _ _ _ rfl
    | exact tracesTo_call _ _ rfl
    | refine tracesTo_call_keep _ _ _ _ _ rfl ?_
    | refine tracesTo_call_skip _ _ _ _ rfl ?_
    | apply tracesTo_ite
    | (apply tracesTo_skip; rotate_left; intro _)

theorem SetupVulkanWindow_creates (cfg : BuildConfig) (env : StartupEnv) (g : Graphics)
    (width height : Int) :
    (Graphics.SetupVulkanWindow cfg env g width height).tracesTo Call.creates
      [.windowData] := by
  unfold Graphics.SetupVulkanWindow
  repeat' first
    | exact tracesTo_pure _ _
    | exact tracesTo_of_error _ _ _ _ rfl
    | exact tracesTo_call _ _ rfl
    | exact tracesTo_IM_ASSERT _ _ _ rfl
    | refine tracesTo_call_keep _ _ _ _ _ rfl ?_
    | refine tracesTo_call_skip _ _ _ _ rfl ?_
    | apply tracesTo_ite
    | (apply tracesTo_skip; rotate_left; intro _)

theorem InitImGui_creates (cfg : BuildConfig) (env : StartupEnv) (g : Graphics) :
    (Graphics.InitImGui cfg env g).tracesTo Call.creates [] := by
  unfold Graphics.InitImGui
  dsimp only
  repeat' first
    | exact tracesTo_pure _ _
    | exact tracesTo_call _ _ rfl
    | exact tracesTo_CheckVkResult _ _ (fun _ _ => rfl) rfl
    | exact tracesTo_IM_ASSERT _ _ _ rfl
    | refine tracesTo_call_skip _ _ _ _ rfl ?_
    | (apply tracesTo_skip; rotate_left; intro _)

theorem InitVulkan_creates (cfg : BuildConfig) (env : StartupEnv) :
    (Application.InitVulkan cfg env).tracesTo Call.creates
      ((.vulkanInstance :: ((if cfg.debugReport = true then [.debugCallback] else []) ++
        [.device, .descriptorPool])) ++ [.windowData]) := by
  unfold Application.InitVulkan Graphics.new Graphics.CreateFrameBuffer
  dsimp only
  refine tracesTo_call_skip _ _ _ _ rfl ?_
  refine tracesTo_call_skip _ _ _ _ rfl ?_
  refine tracesTo_bind _ _ _ _ _ (Init_creates cfg env _ _ _) ?_
  intro g
  refine tracesTo_call_skip _ _ _ _ rfl ?_
  apply tracesTo_ite
  · refine tracesTo_call_skip _ _ _ _ rfl ?_
    exact tracesTo_of_error _ _ _ _ rfl
  · refine tracesTo_call_skip _ _ _ _ rfl ?_
    refine tracesTo_call_skip _ _ _ _ rfl ?_
    have h := tracesTo_bind Call.creates _
      (fun g' => Graphics.InitImGui cfg env g' >>= fun _ => (pure g' : Exec Graphics))
      [.windowData] [] (SetupVulkanWindow_creates cfg env g env.windowSize.1 env.windowSize.2)
      (fun g' => tracesTo_skip _ _ _ _ (InitImGui_creates cfg env g')
        (fun _ => tracesTo_pure _ _))
    exact h

/-- The resources a returning constructor of `Application` has created, in the
order of their creation. -/
theorem new_creates (cfg : BuildConfig) (env : StartupEnv) (w : Window) :
    (Application.new cfg env w).tracesTo Call.creates
      ([.window, .vulkanInstance] ++ (if cfg.debugReport = true then [.debugCallback] else []) ++
        [.device, .descriptorPool, .windowData]) := by
  unfold Application.new
  have h := tracesTo_bind Call.creates _
    (fun m_window => Application.InitVulkan cfg env >>= fun m_graphics =>
      (pure { m_window := m_window, m_graphics := m_graphics, m_shouldClose := false,
              m_SwapChainRebuild := false } : Exec Application))
    [.window] _ (InitSDLWindow_creates cfg env w)
    (fun _ => tracesTo_bind _ _ _ _ [] (InitVulkan_creates cfg env)
      (fun _ => tracesTo_pure _ _))
  intro a ha
  rw [h a ha]
  cases cfg.debugReport <;> rfl

theorem destroys_of_isFrameCall (n : Nat) (c : Call) (h : c.isFrameCall n = true) :
    c.destroys = none := by
  cases c <;> first | rfl | cases h

theorem logCalls_filterMap {β : Type} (φ : Call → Option β) (err : VkResult)
    (hφ : ∀ fmt args, φ (.Log_Message fmt args) = none) :
    (logCalls err).filterMap φ = [] := by
  unfold logCalls
  split_ifs
  · rfl
  · rw [List.filterMap_cons_none (hφ _ _)]
    rfl

/-- The resources a returning shutdown has destroyed, in the order of their
destruction. -/
theorem runAndDestroy_destroys (cfg : BuildConfig) (app : Application)
    (frames : List FrameEnv) (waitIdle : VkResult) (destroyProc : Nat) :
    (Application.runAndDestroy cfg app frames waitIdle destroyProc).tracesTo Call.destroys
      ([.window, .windowData, .descriptorPool] ++
        (if cfg.debugReport = true then [.debugCallback] else []) ++
        [.device, .vulkanInstance]) := by
  intro u h
  cases u
  have hok := runAndDestroy_ok cfg app frames waitIdle destroyProc
  obtain ⟨_, hw, hd⟩ := hok.1.mp h
  have hloop : (Application.loop app frames).calls.filterMap Call.destroys = [] := by
    rw [List.filterMap_eq_nil_iff]
    exact fun c hc => destroys_of_isFrameCall _ c ((loop_keeps frames app).1 c hc)
  have hlog : (logCalls waitIdle).filterMap Call.destroys = [] :=
    logCalls_filterMap _ _ (fun _ _ => rfl)
  rw [hok.2 h, List.filterMap_append, List.filterMap_append, hloop, Cleanup_eq, destroy_eq,
    if_neg hw]
  show [] ++ (List.filterMap Call.destroys (.vkDeviceWaitIdle :: (logCalls waitIdle ++ _)) ++
    _) = _
  rw [List.filterMap_cons_none rfl, List.filterMap_append, hlog]
  cases hdbg : cfg.debugReport
  · rfl
  · have hp : destroyProc ≠ 0 := fun hp => hd ⟨hdbg, hp⟩
    simp only [if_true, if_neg hp]
    rfl

/-! ## The minimum image count at startup -/

theorem ensures_bind_of {α β : Type} (m : Exec α) (f : α → Exec β) (I : α → Prop)
    (P : β → Prop) (hm : m.ensures I) (hf : ∀ a, I a → (f a).ensures P) :
    (m >>= f).ensures P :=
  ensures_bind _ _ _ (fun a ha => hf a (hm a ha))

theorem Graphics_new_minImageCount (cfg : BuildConfig) (env : StartupEnv)
    (extensions : List String) (extensionCount : Nat) :
    (Graphics.new cfg env extensions extensionCount).ensures
      (fun g => g.m_MinImageCount = 2) := by
  intro g hg
  obtain ⟨k, hk, _⟩ := selectGPU_result
    (if env.deviceTypes.length < 2 ^ 31 then env.deviceTypes else []) 0 0
  rw [(Init_ok_inv cfg env Graphics.initial extensions extensionCount k hk g hg).1]
  rfl

theorem SetupVulkanWindow_minImageCount (cfg : BuildConfig) (env : StartupEnv) (g : Graphics)
    (width height : Int) :
    (Graphics.SetupVulkanWindow cfg env g width height).ensures
      (fun g' => g'.m_MinImageCount = g.m_MinImageCount) := by
  unfold Graphics.SetupVulkanWindow
  repeat' first
    | exact ensures_pure _ _ rfl
    | exact ensures_of_error _ _ _ rfl
    | apply ensures_ite
    | (apply ensures_bind; intro _ _)

theorem InitVulkan_minImageCount (cfg : BuildConfig) (env : StartupEnv) :
    (Application.InitVulkan cfg env).ensures (fun g => g.m_MinImageCount = 2) := by
  unfold Application.InitVulkan Graphics.CreateFrameBuffer
  dsimp only
  apply ensures_bind
  intro _ _
  apply ensures_bind
  intro _ _
  refine ensures_bind_of _ _ (fun g => g.m_MinImageCount = 2) _
    (Graphics_new_minImageCount cfg env _ _) ?_
  intro g hg
  apply ensures_bind
  intro _ _
  refine ensures_ite _ _ _ _ ?_ ?_
  · apply ensures_bind
    intro _ _
    exact ensures_of_error _ _ _ rfl
  · apply ensures_bind
    intro _ _
    apply ensures_bind
    intro _ _
    refine ensures_bind_of _ _ (fun g' => g'.m_MinImageCount = g.m_MinImageCount) _
      (SetupVulkanWindow_minImageCount cfg env g _ _) ?_
    intro g' hg'
    apply ensures_bind
    intro _ _
    exact ensures_pure _ _ (hg'.trans hg)

theorem new_minImageCount (cfg : BuildConfig) (env : StartupEnv) (w : Window) :
    (Application.new cfg env w).ensures (fun app => app.m_graphics.m_MinImageCount = 2) := by
  unfold Application.new
  apply ensures_bind
  intro _ _
  refine ensures_bind_of _ _ (fun g => g.m_MinImageCount = 2) _
    (InitVulkan_minImageCount cfg env) ?_
  intro g hg
  exact ensures_pure _ _ hg

/-! ## The semaphore index across presents -/

/-- The state `Graphics::FramePresent` returns, when it returns. -/
theorem FramePresent_ok_inv (app app' : Application) (env : FrameEnv)
    (h : (Graphics.FramePresent app env).result = .ok app') :
    app'.m_graphics.m_MainWindowData.ImageCount =
      app.m_graphics.m_MainWindowData.ImageCount ∧
    app'.m_SwapChainRebuild = (app.m_SwapChainRebuild || needsRebuild env.queuePresent) ∧
    app'.m_graphics.m_MainWindowData.SemaphoreIndex =
      (if app.m_SwapChainRebuild = false ∧ needsRebuild env.queuePresent = false then
        ((app.m_graphics.m_MainWindowData.SemaphoreIndex + 1) % 2 ^ 32) %
          app.m_graphics.m_MainWindowData.ImageCount
      else app.m_graphics.m_MainWindowData.SemaphoreIndex) ∧
    ¬(app.m_SwapChainRebuild = false ∧ needsRebuild env.queuePresent = false ∧
      env.queuePresent < 0) := by
  cases hf : app.m_SwapChainRebuild with
  | true =>
    rw [FramePresent_flag_set app env hf] at h
    have := (Except.ok.inj h).symm
    subst this
    refine ⟨rfl, ?_, ?_, ?_⟩
    · rw [hf]; rfl
    · rw [if_neg (fun hc => Bool.noConfusion hc.1)]
    · exact fun hc => Bool.noConfusion hc.1
  | false =>
    cases hp : needsRebuild env.queuePresent with
    | true =>
      rw [FramePresent_needsRebuild app env hf hp] at h
      have := (Except.ok.inj h).symm
      subst this
      refine ⟨rfl, rfl, ?_, ?_⟩
      · rw [if_neg (fun hc => Bool.noConfusion hc.2)]
      · exact fun hc => Bool.noConfusion hc.2.1
    | false =>
      rw [FramePresent_other app env hf hp] at h
      by_cases hn : env.queuePresent < 0
      · rw [show (Exec.mk _ (if env.queuePresent < 0 then _ else _) : Exec Application).result =
          (if env.queuePresent < 0 then _ else _) from rfl, if_pos hn] at h
        cases h
      · rw [show (Exec.mk _ (if env.queuePresent < 0 then _ else _) : Exec Application).result =
          (if env.queuePresent < 0 then _ else _) from rfl, if_neg hn] at h
        by_cases hc0 : app.m_graphics.m_MainWindowData.ImageCount = 0
        · rw [if_pos hc0] at h
          cases h
        · rw [if_neg hc0] at h
          have := (Except.ok.inj h).symm
          subst this
          refine ⟨rfl, hf, ?_, ?_⟩
          · rw [if_pos ⟨rfl, rfl⟩]
          · exact fun hc => hn hc.2.2

/-- After the presents of `envs`, all made with the flag clear and none
reporting a rebuild code or a negative code, the semaphore index has advanced
by the number of presents, modulo the image count. -/
theorem presents_index (envs : List FrameEnv) (app : Application)
    (hflag : app.m_SwapChainRebuild = false)
    (hs : app.m_graphics.m_MainWindowData.SemaphoreIndex <
      app.m_graphics.m_MainWindowData.ImageCount)
    (h32 : app.m_graphics.m_MainWindowData.ImageCount < 2 ^ 32)
    (hall : ∀ env ∈ envs, needsRebuild env.queuePresent = false ∧ 0 ≤ env.queuePresent) :
    ∃ app', (presents app envs).result = .ok app' ∧
      app'.m_SwapChainRebuild = false ∧
      app'.m_graphics.m_MainWindowData.ImageCount =
        app.m_graphics.m_MainWindowData.ImageCount ∧
      app'.m_graphics.m_MainWindowData.SemaphoreIndex =
        (app.m_graphics.m_MainWindowData.SemaphoreIndex + envs.length) %
          app.m_graphics.m_MainWindowData.ImageCount := by
  induction envs generalizing app with
  | nil =>
    refine ⟨app, rfl, hflag, rfl, ?_⟩
    rw [List.length_nil, Nat.add_zero, Nat.mod_eq_of_lt hs]
  | cons env rest ih =>
    obtain ⟨hp, hnn⟩ := hall env (List.mem_cons_self _ _)
    have hr1 := congrArg Exec.result (FramePresent_other app env hflag hp)
    rw [show (Exec.mk _ (if env.queuePresent < 0 then _ else _) : Exec Application).result =
      (if env.queuePresent < 0 then _ else _) from rfl, if_neg (not_lt.mpr hnn)] at hr1
    have hlt32 : app.m_graphics.m_MainWindowData.SemaphoreIndex + 1 < 2 ^ 32 := by omega
    have hpos : 0 < app.m_graphics.m_MainWindowData.ImageCount := by omega
    rw [if_neg (Nat.pos_iff_ne_zero.mp hpos)] at hr1
    obtain ⟨app1, h1⟩ : ∃ app1, (Graphics.FramePresent app env).result = .ok app1 := ⟨_, hr1⟩
    obtain ⟨hc1, hf1, hs1, _⟩ := FramePresent_ok_inv app app1 env h1
    rw [hflag, hp] at hf1
    rw [if_pos ⟨hflag, hp⟩, Nat.mod_eq_of_lt hlt32] at hs1
    obtain ⟨app2, hr2, hf2, hc2, hs2⟩ := ih app1 hf1
      (by rw [hs1, hc1]; exact Nat.mod_lt _ hpos) (by rw [hc1]; exact h32)
      (fun e he => hall e (List.mem_cons_of_mem _ he))
    refine ⟨app2, ?_, hf2, hc2.trans hc1, ?_⟩
    · unfold presents
      rw [result_bind_ok _ _ _ h1, hr2]
    · rw [hs2, hs1, hc1, Nat.mod_add_mod, List.length_cons]
      congr 1
      omega

/-! ## The parameters of `vkCreateInstance` -/

/-- In a build with diagnostics, every `vkCreateInstance` call of
`Graphics::Init` carries the parameters built at Graphics.cpp, lines 151-169. -/
theorem Init_createInfo_debug (cfg : BuildConfig) (env : StartupEnv) (g : Graphics)
    (extensions : List String) (extensionCount : Nat) (hdbg : cfg.debugReport = true) :
    (Graphics.Init cfg env g extensions extensionCount).calls.take 3 =
      [.Log_Message "Vulkan Extension Count: %d extensions supports." [.int extensionCount],
        .Log_Message "IMGUI_VULKAN_DEBUG_REPORT is on." [],
        .vkCreateInstance
          { enabledLayerCount := 1
            ppEnabledLayerNames := extensions.take extensionCount ++ ["VK_EXT_debug_report"]
            enabledExtensionCount := (extensionCount + 1) % 2 ^ 32
            ppEnabledExtensionNames := extensions }] ∧
    (Graphics.Init cfg env g extensions extensionCount).callsAll
      (fun c => c.createInfo = none ∨ c.createInfo = some
        { enabledLayerCount := 1
          ppEnabledLayerNames := extensions.take extensionCount ++ ["VK_EXT_debug_report"]
          enabledExtensionCount := (extensionCount + 1) % 2 ^ 32
          ppEnabledExtensionNames := extensions }) := by
  constructor
  · unfold Graphics.Init
    dsimp only
    rw [calls_call_bind, if_pos hdbg, calls_call_bind, calls_call_bind]
    rfl
  · unfold Graphics.Init
    dsimp only
    rw [if_pos hdbg]
    repeat' first
      | exact callsAll_call _ _ (Or.inl rfl)
      | exact callsAll_call _ _ (Or.inr rfl)
      | exact callsAll_pure _ _
      | exact callsAll_nullCall _
      | exact callsAll_CheckVkResult _ _ (fun _ _ => Or.inl rfl) (Or.inl rfl)
      | exact callsAll_IM_ASSERT _ _ _ (Or.inl rfl)
      | exact callsAll_selectGPU _ _ _ _ (fun _ => Or.inl rfl)
      | apply callsAll_ite
      | (apply callsAll_bind; rotate_left; intro _ _)

/-- The free function `SetupVulkan` of main.cpp builds the same parameters
(main.cpp, lines 76-94). -/
theorem SetupVulkan_createInfo_debug (cfg : BuildConfig) (env : StartupEnv)
    (g_QueueFamily : Nat) (extensions : List String) (extensionCount : Nat)
    (hdbg : cfg.debugReport = true) :
    (Main.SetupVulkan cfg env g_QueueFamily extensions extensionCount).calls.take 2 =
      [.Log_Message "Vulkan Extension Count: %d extensions supports." [.int extensionCount],
        .vkCreateInstance
          { enabledLayerCount := 1
            ppEnabledLayerNames := extensions.take extensionCount ++ ["VK_EXT_debug_report"]
            enabledExtensionCount := (extensionCount + 1) % 2 ^ 32
            ppEnabledExtensionNames := extensions }] := by
  unfold Main.SetupVulkan
  dsimp only
  rw [calls_call_bind, if_pos hdbg, calls_call_bind]
  rfl

/-! ## A frame entered with the rebuild flag set -/

/-- A `Draw` entered with the flag set makes no present call, and when it
returns the flag is still set and the semaphore index is the one on entry. -/
theorem Draw_flag_set (app : Application) (env : FrameEnv)
    (hflag : app.m_SwapChainRebuild = true) :
    (Graphics.Draw app env).calls.countP Call.isPresent = 0 ∧
    ∀ app', (Graphics.Draw app env).result = .ok app' →
      app'.m_SwapChainRebuild = true ∧
      app'.m_graphics.m_MainWindowData.SemaphoreIndex =
        app.m_graphics.m_MainWindowData.SemaphoreIndex := by
  have g2 := guiFrameCalls_countP Call.isPresent app.m_graphics.m_showDemoWidow (by decide)
  cases hm : (env.displaySize.1.leZero || env.displaySize.2.leZero) with
  | true =>
    rw [Draw_minimized app env hm]
    refine ⟨g2, ?_⟩
    intro app' h
    have := (Except.ok.inj h).symm
    subst this
    exact ⟨hflag, rfl⟩
  | false =>
    rw [Draw_shown app env hm]
    show List.countP _ (_ ++ (renderThenPresent app env).calls) = 0 ∧
      ∀ app', (renderThenPresent app env).result = .ok app' → _
    unfold renderThenPresent
    cases hr : (Graphics.FrameRender (withClearValue app env) env).result with
    | error t =>
      rw [calls_bind_error _ _ _ hr, result_bind_error _ _ _ hr]
      refine ⟨by rw [List.countP_append, g2, FrameRender_count_present], ?_⟩
      intro app' h
      cases h
    | ok a =>
      have ha := FrameRender_result_ok _ _ _ hr
      have hfa : a.m_SwapChainRebuild = true := by
        rw [ha]
        show (app.m_SwapChainRebuild || needsRebuild env.acquire) = true
        rw [hflag]
        rfl
      rw [calls_bind_ok _ _ _ hr, result_bind_ok _ _ _ hr, FramePresent_flag_set a env hfa]
      refine ⟨?_, ?_⟩
      · show List.countP _ (_ ++ (_ ++ [])) = 0
        rw [List.append_nil, List.countP_append, g2, FrameRender_count_present]
      · intro app' h
        have := (Except.ok.inj h).symm
        subst this
        refine ⟨hfa, ?_⟩
        rw [ha]
        rfl

/-! ## The claims -/

/-- Claim C1: processing one event in `Application::Run` never stops the
process, and afterwards the should-close flag is set exactly when it was set
before or the event is a quit event, a close event of this window, or a
key-down of Escape; a close event of another window, and a key-down of any
other key, leave the flag as it was. -/
theorem handleEvent_shouldClose_iff (app : Application) (windowID : Nat) (event : SDL_Event) :
    ∃ app' : Application,
      (Application.handleEvent app windowID event).result = .ok app' ∧
      (app'.m_shouldClose = true ↔
        (app.m_shouldClose = true ∨ event.type = SDL_QUIT ∨
          (event.type = SDL_WINDOWEVENT ∧ event.window_event = SDL_WINDOWEVENT_CLOSE ∧
            event.window_windowID = windowID) ∨
          (event.type = SDL_KEYDOWN ∧ event.key_keysym_sym = SDLK_ESCAPE))) ∧
      ((event.type = SDL_WINDOWEVENT ∧ event.window_event = SDL_WINDOWEVENT_CLOSE ∧
          event.window_windowID ≠ windowID) → app'.m_shouldClose = app.m_shouldClose) ∧
      ((event.type = SDL_KEYDOWN ∧ event.key_keysym_sym ≠ SDLK_ESCAPE) →
          app'.m_shouldClose = app.m_shouldClose) := by
  refine ⟨_, handleEvent_result app windowID event, ?_, ?_, ?_⟩
  · simp [closeRequested, or_assoc]
  · rintro ⟨hw, hc, hi⟩
    simp [closeRequested, hw, hc, hi, SDL_QUIT, SDL_WINDOWEVENT, SDL_KEYDOWN]
  · rintro ⟨hk, he⟩
    simp [closeRequested, hk, he, SDL_QUIT, SDL_WINDOWEVENT, SDL_KEYDOWN]

/-- Witness for claim C1: a close event of window 7 reaches the loop of window 1
and leaves the flag clear. -/
theorem handleEvent_shouldClose_iff_witness :
    ∃ app' : Application,
      (Application.handleEvent sampleApp 1
        { type := SDL_WINDOWEVENT, window_event := SDL_WINDOWEVENT_CLOSE,
          window_windowID := 7, key_keysym_sym := 0 }).result = .ok app' ∧
      app'.m_shouldClose = false := by
  obtain ⟨app', h1, _, h3, _⟩ := handleEvent_shouldClose_iff sampleApp 1
    { type := SDL_WINDOWEVENT, window_event := SDL_WINDOWEVENT_CLOSE,
      window_windowID := 7, key_keysym_sym := 0 }
  exact ⟨app', h1, h3 ⟨rfl, rfl, by decide⟩⟩

/-- Claim C2, as stated, fails: with the flag clear and one pending quit event,
`Application::Run` still makes, after `ImGui_ImplSDL2_ProcessEvent` of that
event, the acquire, draw, submit and present calls of the same iteration (the
second list), and only then cleans up (the third list). -/
theorem run_renders_after_quit_event :
    sampleApp.m_shouldClose = false ∧
    closeRequested (sampleFrame [quitEvent] VK_SUCCESS).windowID quitEvent = true ∧
    (Application.Run sampleApp [sampleFrame [quitEvent] VK_SUCCESS] VK_SUCCESS).calls =
      [.SDL_PollEvent, .ImGui_ImplSDL2_ProcessEvent quitEvent] ++
      [.SDL_PollEvent, .ImGui_ImplVulkan_NewFrame, .ImGui_ImplSDL2_NewFrame, .ImGui_NewFrame,
        .ImGui_ShowDemoWindow, .ImGui_Render, .ImGui_GetDrawData,
        .vkAcquireNextImageKHR 0, .vkWaitForFences 0, .vkResetFences 0,
        .vkResetCommandPool 0, .vkBeginCommandBuffer 0, .vkCmdBeginRenderPass 0,
        .ImGui_ImplVulkan_RenderDrawData 0, .vkCmdEndRenderPass 0, .vkEndCommandBuffer 0,
        .vkQueueSubmit 0 0 0, .vkQueuePresentKHR 0 0] ++
      [.vkDeviceWaitIdle, .ImGui_ImplVulkan_Shutdown, .ImGui_ImplSDL2_Shutdown,
        .ImGui_DestroyContext] := by
  refine ⟨rfl, by decide, rfl⟩

/-- Claim C2, amended: when the flag is clear on entry and the events of an
iteration hold a close request, the flag is set once that event has been
processed and is still set when the iteration returns; the iteration itself
runs to its end, with at most one acquire and one present call; and no later
iteration runs: the loop, and `Run`, behave as if the later environments were
not there. -/
theorem loop_stops_after_close_request (app : Application) (env : FrameEnv)
    (rest : List FrameEnv) (waitIdle : VkResult) (pre post : List SDL_Event) (e : SDL_Event)
    (h0 : app.m_shouldClose = false) (hev : env.events = pre ++ e :: post)
    (hreq : closeRequested env.windowID e = true) :
    (∃ app1, (Application.pollEvents app env.windowID (pre ++ [e])).result = .ok app1 ∧
      app1.m_shouldClose = true) ∧
    (∀ app', (Application.iteration app env).result = .ok app' → app'.m_shouldClose = true) ∧
    Application.loop app (env :: rest) = Application.iteration app env ∧
    Application.Run app (env :: rest) waitIdle = Application.Run app [env] waitIdle ∧
    (Application.iteration app env).calls.countP Call.isAcquire ≤ 1 ∧
    (Application.iteration app env).calls.countP Call.isPresent ≤ 1 := by
  obtain ⟨c1, c2, hsc⟩ := iteration_facts app env
  have hany : env.events.any (closeRequested env.windowID) = true := by
    rw [hev]; simp [hreq]
  have hclosed : ∀ app', (Application.iteration app env).result = .ok app' →
      app'.m_shouldClose = true := by
    intro app' h
    rw [hsc app' h, hany]; simp
  have hloop : ∀ l : List FrameEnv,
      Application.loop app (env :: l) = Application.iteration app env := by
    intro l
    have hne : ¬ (app.m_shouldClose = true) := by simp [h0]
    unfold Application.loop
    rw [if_neg hne]
    cases hr : (Application.iteration app env).result with
    | error t =>
      apply exec_ext
      · rw [calls_bind_error _ _ _ hr]
      · rw [result_bind_error _ _ _ hr, hr]
    | ok app' =>
      have hstop : Application.loop app' l = pure app' := by
        cases l with
        | nil => unfold Application.loop; rw [if_pos (hclosed app' hr)]
        | cons x xs => unfold Application.loop; rw [if_pos (hclosed app' hr)]
      apply exec_ext
      · rw [calls_bind_ok _ _ _ hr, hstop, calls_pure, List.append_nil]
      · rw [result_bind_ok _ _ _ hr, hstop, result_pure, hr]
  refine ⟨⟨_, pollEvents_result env.windowID (pre ++ [e]) app, ?_⟩, hclosed, hloop rest, ?_,
    c1, c2⟩
  · simp [hreq]
  · unfold Application.Run
    rw [hloop rest, hloop []]

/-- Witness for the amended claim C2: a quit event, with further iterations
supplied. -/
theorem loop_stops_after_close_request_witness :
    Application.Run sampleApp
        (sampleFrame [quitEvent] VK_SUCCESS :: [sampleFrame [] VK_SUCCESS]) VK_SUCCESS =
      Application.Run sampleApp [sampleFrame [quitEvent] VK_SUCCESS] VK_SUCCESS :=
  (loop_stops_after_close_request sampleApp (sampleFrame [quitEvent] VK_SUCCESS)
    [sampleFrame [] VK_SUCCESS] VK_SUCCESS [] [] quitEvent rfl rfl (by decide)).2.2.2.1

/-- Claim C3: when the rebuild flag is set and the window size read is positive
in both dimensions, the iteration consists of the event loop, then the size
query and the one rebuild with that size, then `Draw` started with the flag
clear and the frame index reset; the rebuild call occurs exactly once in the
iteration, and no acquire or present call comes before it. -/
theorem iteration_rebuilds_once (app : Application) (env : FrameEnv)
    (hflag : app.m_SwapChainRebuild = true)
    (hw : 0 < env.windowSize.1) (hh : 0 < env.windowSize.2) :
    ∃ app2 : Application,
      app2.m_SwapChainRebuild = false ∧
      app2.m_graphics.m_MainWindowData = { env.resized with FrameIndex := 0 } ∧
      (Application.iteration app env).calls =
        (Application.pollEvents app env.windowID env.events).calls ++
        ([.SDL_GetWindowSize,
          .ImGui_ImplVulkan_SetMinImageCount app.m_graphics.m_MinImageCount,
          .ImGui_ImplVulkanH_CreateOrResizeWindow env.windowSize.1 env.windowSize.2
            app.m_graphics.m_MinImageCount] ++
        (Graphics.Draw app2 env).calls) ∧
      (Application.iteration app env).result = (Graphics.Draw app2 env).result ∧
      (Application.iteration app env).calls.countP Call.isRebuild = 1 ∧
      (Application.pollEvents app env.windowID env.events).calls.countP Call.isAcquire = 0 ∧
      (Application.pollEvents app env.windowID env.events).calls.countP Call.isPresent = 0 := by
  have hr := resizeSwapChain_rebuild (afterEvents app env) env hflag hw hh
  have h2 := congrArg Exec.result hr
  have hc := congrArg Exec.calls hr
  have hit := iteration_eq app _ env h2
  rw [hc] at hit
  have e0 := pollEvents_countP Call.isRebuild env.windowID env.events app
    (by intro c; cases c <;> simp [Call.isEventCall, Call.isRebuild])
  have e1 := pollEvents_countP Call.isAcquire env.windowID env.events app
    (by intro c; cases c <;> simp [Call.isEventCall, Call.isAcquire])
  have e2 := pollEvents_countP Call.isPresent env.windowID env.events app
    (by intro c; cases c <;> simp [Call.isEventCall, Call.isPresent])
  refine ⟨{ afterEvents app env with
      m_graphics := { (afterEvents app env).m_graphics with
        m_MainWindowData := { env.resized with FrameIndex := 0 } }
      m_SwapChainRebuild := false }, rfl, rfl, ?_, ?_, ?_, e1, e2⟩
  · rw [hit]; rfl
  · rw [hit]
  · rw [hit]
    show List.countP _ (_ ++ (_ ++ _)) = 1
    rw [List.countP_append, List.countP_append, e0, (Draw_facts _ env).2.2.1]
    rfl

/-- Witness for claim C3: the flag is set and the window is 1280x720. -/
theorem iteration_rebuilds_once_witness :
    ∃ app2 : Application,
      app2.m_SwapChainRebuild = false ∧
      (Application.iteration { sampleApp with m_SwapChainRebuild := true }
          (sampleFrame [] VK_SUCCESS)).calls.countP Call.isRebuild = 1 := by
  obtain ⟨app2, h1, _, _, _, h5, _⟩ :=
    iteration_rebuilds_once { sampleApp with m_SwapChainRebuild := true }
      (sampleFrame [] VK_SUCCESS) rfl (by decide) (by decide)
  exact ⟨app2, h1, h5⟩

/-- Claim C4: when the window size at the rebuild check is not positive in
both dimensions, the rebuild step returns the state it was given - the flag
included - without a rebuild call, the whole iteration makes no rebuild call,
and a flag that was set on entry is still set when the iteration returns. -/
theorem iteration_degenerate_keeps_flag (app : Application) (env : FrameEnv)
    (hs : env.windowSize.1 ≤ 0 ∨ env.windowSize.2 ≤ 0) :
    (Application.resizeSwapChain (afterEvents app env) env).result =
      .ok (afterEvents app env) ∧
    (afterEvents app env).m_SwapChainRebuild = app.m_SwapChainRebuild ∧
    (Application.resizeSwapChain (afterEvents app env) env).calls.countP Call.isRebuild = 0 ∧
    (Application.iteration app env).calls.countP Call.isRebuild = 0 ∧
    (app.m_SwapChainRebuild = true →
      ∀ app', (Application.iteration app env).result = .ok app' →
        app'.m_SwapChainRebuild = true) := by
  have hr : ∃ l, Application.resizeSwapChain (afterEvents app env) env =
      ⟨l, .ok (afterEvents app env)⟩ ∧ l.countP Call.isRebuild = 0 := by
    by_cases hf : (afterEvents app env).m_SwapChainRebuild = true
    · exact ⟨_, resizeSwapChain_degenerate _ env hf hs, rfl⟩
    · exact ⟨_, resizeSwapChain_clear _ env (by simpa using hf), rfl⟩
  obtain ⟨l, hl, hl0⟩ := hr
  have h2 := congrArg Exec.result hl
  have hc := congrArg Exec.calls hl
  have e0 := pollEvents_countP Call.isRebuild env.windowID env.events app
    (by intro c; cases c <;> simp [Call.isEventCall, Call.isRebuild])
  have hit := iteration_eq app _ env h2
  refine ⟨h2, rfl, ?_, ?_, ?_⟩
  · rw [hc]; exact hl0
  · rw [hit, hc]
    show List.countP _ (_ ++ (_ ++ _)) = 0
    rw [List.countP_append, List.countP_append, e0, hl0, (Draw_facts _ env).2.2.1]
  · intro hflag app' h
    rw [hit] at h
    exact ((Draw_facts _ env).2.2.2 app' h).2 hflag

/-- Witness for claim C4: the flag is set and the window is minimised to 0x0. -/
theorem iteration_degenerate_keeps_flag_witness :
    (Application.iteration { sampleApp with m_SwapChainRebuild := true }
      { sampleFrame [] VK_SUCCESS with windowSize := (0, 0) }).calls.countP Call.isRebuild = 0 :=
  (iteration_degenerate_keeps_flag { sampleApp with m_SwapChainRebuild := true }
    { sampleFrame [] VK_SUCCESS with windowSize := (0, 0) } (by decide)).2.2.2.1

/-- Claim C5: when the acquire call reports out-of-date or suboptimal,
`FrameRender` followed by `FramePresent` makes the acquire call and nothing
else and returns with the rebuild flag raised and everything but the frame
index as it was (so the semaphore index is unchanged); in a `Draw` that gets to
render, the calls are those of the GUI frame and the acquire call, with no
fence wait, no recording, no draw, no submit and no present. -/
theorem acquire_rebuild_abandons_frame (app : Application) (env : FrameEnv)
    (h : env.acquire = VK_ERROR_OUT_OF_DATE_KHR ∨ env.acquire = VK_SUBOPTIMAL_KHR) :
    (Graphics.FrameRender app env >>= fun a => Graphics.FramePresent a env) =
      ⟨[.vkAcquireNextImageKHR app.m_graphics.m_MainWindowData.SemaphoreIndex],
       .ok { app with
          m_graphics := { app.m_graphics with
            m_MainWindowData :=
              { app.m_graphics.m_MainWindowData with FrameIndex := env.acquiredImage } }
          m_SwapChainRebuild := true }⟩ ∧
    ((env.displaySize.1.leZero || env.displaySize.2.leZero) = false →
      (Graphics.Draw app env).calls =
          guiFrameCalls app.m_graphics.m_showDemoWidow ++
            [.vkAcquireNextImageKHR app.m_graphics.m_MainWindowData.SemaphoreIndex] ∧
      (∃ app', (Graphics.Draw app env).result = .ok app' ∧
        app'.m_SwapChainRebuild = true ∧
        app'.m_graphics.m_MainWindowData.SemaphoreIndex =
          app.m_graphics.m_MainWindowData.SemaphoreIndex) ∧
      (Graphics.Draw app env).calls.countP Call.isFenceWait = 0 ∧
      (Graphics.Draw app env).calls.countP Call.isRecording = 0 ∧
      (Graphics.Draw app env).calls.countP Call.isDraw = 0 ∧
      (Graphics.Draw app env).calls.countP Call.isSubmit = 0 ∧
      (Graphics.Draw app env).calls.countP Call.isPresent = 0) := by
  have hn : needsRebuild env.acquire = true := by simpa [needsRebuild] using h
  have key : ∀ a : Application,
      (Graphics.FrameRender a env >>= fun b => Graphics.FramePresent b env) =
      ⟨[.vkAcquireNextImageKHR a.m_graphics.m_MainWindowData.SemaphoreIndex],
       .ok { a with
          m_graphics := { a.m_graphics with
            m_MainWindowData :=
              { a.m_graphics.m_MainWindowData with FrameIndex := env.acquiredImage } }
          m_SwapChainRebuild := true }⟩ := by
    intro a
    have hr := FrameRender_needsRebuild a env hn
    have h1 := congrArg Exec.result hr
    have h2 := congrArg Exec.calls hr
    apply exec_ext
    · rw [calls_bind_ok _ _ _ h1, h2, FramePresent_flag_set _ env rfl]
      rfl
    · rw [result_bind_ok _ _ _ h1, FramePresent_flag_set _ env rfl]
  refine ⟨key app, ?_⟩
  intro hshown
  have hd := Draw_shown app env hshown
  have hk : renderThenPresent app env = _ := key (withClearValue app env)
  rw [hk] at hd
  have hcalls : (Graphics.Draw app env).calls =
      guiFrameCalls app.m_graphics.m_showDemoWidow ++
        [.vkAcquireNextImageKHR app.m_graphics.m_MainWindowData.SemaphoreIndex] := by
    rw [hd]; rfl
  have hres : (Graphics.Draw app env).result =
      .ok { withClearValue app env with
        m_graphics := { (withClearValue app env).m_graphics with
          m_MainWindowData := { (withClearValue app env).m_graphics.m_MainWindowData with
            FrameIndex := env.acquiredImage } }
        m_SwapChainRebuild := true } := by rw [hd]
  refine ⟨hcalls, ⟨_, hres, rfl, rfl⟩, ?_, ?_, ?_, ?_, ?_⟩
  · rw [hcalls, List.countP_append, guiFrameCalls_countP _ _ (by decide)]; rfl
  · rw [hcalls, List.countP_append, guiFrameCalls_countP _ _ (by decide)]; rfl
  · rw [hcalls, List.countP_append, guiFrameCalls_countP _ _ (by decide)]; rfl
  · rw [hcalls, List.countP_append, guiFrameCalls_countP _ _ (by decide)]; rfl
  · rw [hcalls, List.countP_append, guiFrameCalls_countP _ _ (by decide)]; rfl

/-- Witness for claim C5: the acquire call reports suboptimal. -/
theorem acquire_rebuild_abandons_frame_witness :
    (Graphics.FrameRender sampleApp { sampleFrame [] VK_SUCCESS with acquire := VK_SUBOPTIMAL_KHR }
        >>= fun a =>
          Graphics.FramePresent a { sampleFrame [] VK_SUCCESS with acquire := VK_SUBOPTIMAL_KHR }) =
      ⟨[.vkAcquireNextImageKHR 0], .ok { sampleApp with m_SwapChainRebuild := true }⟩ :=
  (acquire_rebuild_abandons_frame sampleApp
    { sampleFrame [] VK_SUCCESS with acquire := VK_SUBOPTIMAL_KHR } (Or.inr rfl)).1

/-- Claim C6, as stated, fails: when every call up to the present call succeeds
and the present call reports suboptimal, `Draw` has made one draw call, one
submit call and one present call, not zero of each. -/
theorem present_rebuild_after_draw_submit_present :
    (sampleFrame [] VK_SUBOPTIMAL_KHR).queuePresent = VK_SUBOPTIMAL_KHR ∧
    (Graphics.Draw sampleApp (sampleFrame [] VK_SUBOPTIMAL_KHR)).calls =
      [.ImGui_ImplVulkan_NewFrame, .ImGui_ImplSDL2_NewFrame, .ImGui_NewFrame,
        .ImGui_ShowDemoWindow, .ImGui_Render, .ImGui_GetDrawData,
        .vkAcquireNextImageKHR 0, .vkWaitForFences 0, .vkResetFences 0,
        .vkResetCommandPool 0, .vkBeginCommandBuffer 0, .vkCmdBeginRenderPass 0,
        .ImGui_ImplVulkan_RenderDrawData 0, .vkCmdEndRenderPass 0, .vkEndCommandBuffer 0,
        .vkQueueSubmit 0 0 0, .vkQueuePresentKHR 0 0] ∧
    (Graphics.Draw sampleApp (sampleFrame [] VK_SUBOPTIMAL_KHR)).calls.countP Call.isDraw = 1 ∧
    (Graphics.Draw sampleApp (sampleFrame [] VK_SUBOPTIMAL_KHR)).calls.countP Call.isSubmit = 1 ∧
    (Graphics.Draw sampleApp (sampleFrame [] VK_SUBOPTIMAL_KHR)).calls.countP Call.isPresent = 1 := by
  refine ⟨rfl, rfl, rfl, rfl, rfl⟩

/-- Claim C6, amended: when `Draw` gets to the present call and that call
reports out-of-date or suboptimal, `Draw` returns with the rebuild flag raised
and the semaphore index not advanced, the present call is its last call, and
by then it has made exactly one draw, one submit and one present call. -/
theorem present_rebuild_raises_flag (app : Application) (env : FrameEnv)
    (hp : env.queuePresent = VK_ERROR_OUT_OF_DATE_KHR ∨ env.queuePresent = VK_SUBOPTIMAL_KHR)
    (hreach : ∃ c ∈ (Graphics.Draw app env).calls, c.isPresent = true) :
    (∃ app', (Graphics.Draw app env).result = .ok app' ∧
      app'.m_SwapChainRebuild = true ∧
      app'.m_graphics.m_MainWindowData.SemaphoreIndex =
        app.m_graphics.m_MainWindowData.SemaphoreIndex) ∧
    (Graphics.Draw app env).calls.getLast? =
      some (.vkQueuePresentKHR app.m_graphics.m_MainWindowData.SemaphoreIndex
        env.acquiredImage) ∧
    (Graphics.Draw app env).calls.countP Call.isDraw = 1 ∧
    (Graphics.Draw app env).calls.countP Call.isSubmit = 1 ∧
    (Graphics.Draw app env).calls.countP Call.isPresent = 1 := by
  have hpn : needsRebuild env.queuePresent = true := by simpa [needsRebuild] using hp
  have hpos : ∀ l : List Call, (∃ c ∈ l, c.isPresent = true) → 0 < l.countP Call.isPresent := by
    intro l hl
    exact List.countP_pos_iff.mpr hl
  have hreach' := hpos _ hreach
  -- the window is shown
  cases hm : (env.displaySize.1.leZero || env.displaySize.2.leZero) with
  | true =>
    rw [Draw_minimized app env hm] at hreach'
    rw [show List.countP Call.isPresent (guiFrameCalls app.m_graphics.m_showDemoWidow) = 0 from
      guiFrameCalls_countP _ _ (by decide)] at hreach'
    omega
  | false =>
    have hd := Draw_shown app env hm
    rw [hd] at hreach'
    have g := guiFrameCalls_countP Call.isPresent app.m_graphics.m_showDemoWidow (by decide)
    have gd := guiFrameCalls_countP Call.isDraw app.m_graphics.m_showDemoWidow (by decide)
    have gs := guiFrameCalls_countP Call.isSubmit app.m_graphics.m_showDemoWidow (by decide)
    have hreach2 : 0 < (renderThenPresent app env).calls.countP Call.isPresent := by
      have : List.countP Call.isPresent (guiFrameCalls app.m_graphics.m_showDemoWidow ++
          (renderThenPresent app env).calls) = (renderThenPresent app env).calls.countP
            Call.isPresent := by
        rw [List.countP_append, g, Nat.zero_add]
      rw [← this]; exact hreach'
    -- `FrameRender` returned
    cases hr : (Graphics.FrameRender (withClearValue app env) env).result with
    | error t =>
      unfold renderThenPresent at hreach2
      rw [calls_bind_error _ _ _ hr, FrameRender_count_present] at hreach2
      omega
    | ok a =>
      have ha := FrameRender_result_ok _ _ _ hr
      have hcalls : (renderThenPresent app env).calls =
          (Graphics.FrameRender (withClearValue app env) env).calls ++
            (Graphics.FramePresent a env).calls := by
        unfold renderThenPresent
        rw [calls_bind_ok _ _ _ hr]
      have hres : (renderThenPresent app env).result = (Graphics.FramePresent a env).result := by
        unfold renderThenPresent
        rw [result_bind_ok _ _ _ hr]
      -- with the flag clear
      cases hf : a.m_SwapChainRebuild with
      | true =>
        rw [hcalls, List.countP_append, FrameRender_count_present,
          FramePresent_flag_set a env hf] at hreach2
        simp at hreach2
      | false =>
        have hfl : (app.m_SwapChainRebuild || needsRebuild env.acquire) = false := by
          rw [ha] at hf; exact hf
        have hacq : needsRebuild env.acquire = false := by
          cases h1 : needsRebuild env.acquire
          · rfl
          · rw [h1] at hfl; simp at hfl
        obtain ⟨cd, cs⟩ := FrameRender_ok_counts _ _ env hr hacq
        have hfp := FramePresent_needsRebuild a env hf hpn
        have hidx : a.m_graphics.m_MainWindowData.SemaphoreIndex =
            app.m_graphics.m_MainWindowData.SemaphoreIndex := by rw [ha]; rfl
        have hfi : a.m_graphics.m_MainWindowData.FrameIndex = env.acquiredImage := by
          rw [ha]
        rw [hidx, hfi] at hfp
        have hall : (Graphics.Draw app env).calls =
            guiFrameCalls app.m_graphics.m_showDemoWidow ++
              ((Graphics.FrameRender (withClearValue app env) env).calls ++
                [.vkQueuePresentKHR app.m_graphics.m_MainWindowData.SemaphoreIndex
                  env.acquiredImage]) := by
          rw [hd]
          show _ ++ (renderThenPresent app env).calls = _
          rw [hcalls, hfp]
        refine ⟨⟨{ a with m_SwapChainRebuild := true }, ?_, rfl, hidx⟩, ?_, ?_, ?_, ?_⟩
        · rw [hd]
          show (renderThenPresent app env).result = _
          rw [hres, hfp]
        · rw [hall, ← List.append_assoc, List.getLast?_append]
          rfl
        · rw [hall, List.countP_append, List.countP_append, gd, cd]; rfl
        · rw [hall, List.countP_append, List.countP_append, gs, cs]; rfl
        · rw [hall, List.countP_append, List.countP_append, g, FrameRender_count_present]; rfl

/-- Witness for the amended claim C6: every call succeeds up to the present
call, which reports suboptimal. -/
theorem present_rebuild_raises_flag_witness :
    (Graphics.Draw sampleApp (sampleFrame [] VK_SUBOPTIMAL_KHR)).calls.getLast? =
      some (.vkQueuePresentKHR 0 0) :=
  (present_rebuild_raises_flag sampleApp (sampleFrame [] VK_SUBOPTIMAL_KHR) (Or.inr rfl)
    ⟨.vkQueuePresentKHR 0 0,
      List.mem_of_mem_getLast? (show (Graphics.Draw sampleApp
        (sampleFrame [] VK_SUBOPTIMAL_KHR)).calls.getLast? = some (.vkQueuePresentKHR 0 0)
          from rfl),
      rfl⟩).2.1

/-- Claim C7, as stated, fails: from rebuilt frame resources with two images,
after one iteration in which every call succeeds and the driver hands out
image 0, the active frame index is 0, which is not `1 mod 2`. -/
theorem frameIndex_is_not_iteration_count :
    (Graphics.RebuildSwapChain sampleGraphics (sampleFrame [] VK_SUCCESS) 1280 720).result =
      .ok sampleApp.m_graphics ∧
    (sampleFrame [] VK_SUCCESS).acquire = VK_SUCCESS ∧
    (sampleFrame [] VK_SUCCESS).queuePresent = VK_SUCCESS ∧
    ∃ app', (Application.iterations sampleApp [sampleFrame [] VK_SUCCESS]).result = .ok app' ∧
      app'.m_graphics.m_MainWindowData.ImageCount = 2 ∧
      app'.m_graphics.m_MainWindowData.FrameIndex = 0 ∧
      app'.m_graphics.m_MainWindowData.FrameIndex ≠
        [sampleFrame [] VK_SUCCESS].length % app'.m_graphics.m_MainWindowData.ImageCount :=
  ⟨rfl, rfl, rfl, _, rfl, rfl, rfl, by decide⟩

/-- Claim C7, amended: it is the semaphore index, not the active frame index,
that counts the iterations.  With the rebuild flag clear and the semaphore
index in range, after `N` consecutive iterations in which the window is shown
and every driver call succeeds the image count is unchanged, the semaphore
index is `(s + N) mod imageCount` for its initial value `s` (so `N mod
imageCount` from 0), and the active frame index is the image index the driver
handed out at the last acquire (its initial value when `N = 0`). -/
theorem semaphoreIndex_after_iterations (envs : List FrameEnv) (app : Application)
    (hflag : app.m_SwapChainRebuild = false)
    (hs : app.m_graphics.m_MainWindowData.SemaphoreIndex <
      app.m_graphics.m_MainWindowData.ImageCount)
    (h32 : app.m_graphics.m_MainWindowData.ImageCount < 2 ^ 32)
    (hall : ∀ env ∈ envs, env.allSucceed) :
    ∃ app', (Application.iterations app envs).result = .ok app' ∧
      app'.m_SwapChainRebuild = false ∧
      app'.m_graphics.m_MainWindowData.ImageCount =
        app.m_graphics.m_MainWindowData.ImageCount ∧
      app'.m_graphics.m_MainWindowData.SemaphoreIndex =
        (app.m_graphics.m_MainWindowData.SemaphoreIndex + envs.length) %
          app.m_graphics.m_MainWindowData.ImageCount ∧
      app'.m_graphics.m_MainWindowData.FrameIndex =
        ((envs.getLast?).map FrameEnv.acquiredImage).getD
          app.m_graphics.m_MainWindowData.FrameIndex := by
  induction envs generalizing app with
  | nil =>
    refine ⟨app, rfl, hflag, rfl, ?_, rfl⟩
    simp [Nat.mod_eq_of_lt hs]
  | cons env rest ih =>
    obtain ⟨app1, hr1, hf1, hc1, hi1, hs1⟩ :=
      iteration_allSucceed app env hflag (hall env (List.mem_cons_self _ _)) (by omega)
    have hstep : app1.m_graphics.m_MainWindowData.SemaphoreIndex =
        (app.m_graphics.m_MainWindowData.SemaphoreIndex + 1) %
          app.m_graphics.m_MainWindowData.ImageCount := by
      have hlt32 : app.m_graphics.m_MainWindowData.SemaphoreIndex + 1 < 2 ^ 32 := by omega
      rw [hs1, Nat.mod_eq_of_lt hlt32]
    have hlt : app1.m_graphics.m_MainWindowData.SemaphoreIndex <
        app1.m_graphics.m_MainWindowData.ImageCount := by
      rw [hstep, hc1]
      exact Nat.mod_lt _ (by omega)
    obtain ⟨app2, hr2, hf2, hc2, hs2, hi2⟩ :=
      ih app1 hf1 hlt (by rw [hc1]; exact h32)
        (fun e he => hall e (List.mem_cons_of_mem _ he))
    refine ⟨app2, ?_, hf2, by rw [hc2, hc1], ?_, ?_⟩
    · unfold Application.iterations
      rw [result_bind_ok _ _ _ hr1, hr2]
    · rw [hs2, hstep, hc1, List.length_cons, Nat.mod_add_mod]
      congr 1
      omega
    · rw [hi2, hi1]
      cases rest with
      | nil => rfl
      | cons x xs =>
        rw [List.getLast?_cons_cons, List.getLast?_eq_getLast (x :: xs) (by simp)]
        rfl

/-- Witness for the amended claim C7: three successful iterations from slot 0
of 2 leave the semaphore index at `3 mod 2`. -/
theorem semaphoreIndex_after_iterations_witness :
    ∃ app', (Application.iterations sampleApp
        [sampleFrame [] VK_SUCCESS, sampleFrame [] VK_SUCCESS, sampleFrame [] VK_SUCCESS]).result =
          .ok app' ∧
      app'.m_graphics.m_MainWindowData.SemaphoreIndex = (0 + 3) % 2 := by
  obtain ⟨app', h1, _, _, h4, _⟩ :=
    semaphoreIndex_after_iterations
      [sampleFrame [] VK_SUCCESS, sampleFrame [] VK_SUCCESS, sampleFrame [] VK_SUCCESS]
      sampleApp rfl (by decide) (by decide)
      (by
        intro env henv
        simp only [List.mem_cons, List.mem_singleton, List.mem_nil_iff, or_false, or_self]
          at henv
        subst henv
        exact ⟨by decide, by decide, rfl, rfl, rfl, rfl, rfl, rfl, rfl, rfl⟩)
  exact ⟨app', h1, h4⟩

/-- Claim C8: when the display size is not positive in one dimension, `Draw`
makes the calls of the GUI frame only - no acquire, submit or present call -
and returns the state it was given, so the clear value, the semaphore index
and the rebuild flag are unchanged; when it is positive in both dimensions,
`Draw` writes the clear value and runs `FrameRender` and, once that has
returned, `FramePresent`. -/
theorem Draw_skips_or_renders (app : Application) (env : FrameEnv) :
    ((env.displaySize.1.leZero = true ∨ env.displaySize.2.leZero = true) →
      Graphics.Draw app env = ⟨guiFrameCalls app.m_graphics.m_showDemoWidow, .ok app⟩ ∧
      (Graphics.Draw app env).calls.countP Call.isAcquire = 0 ∧
      (Graphics.Draw app env).calls.countP Call.isSubmit = 0 ∧
      (Graphics.Draw app env).calls.countP Call.isPresent = 0) ∧
    ((env.displaySize.1.gtZero = true ∧ env.displaySize.2.gtZero = true) →
      (Graphics.Draw app env).calls =
        guiFrameCalls app.m_graphics.m_showDemoWidow ++
          (Graphics.FrameRender (withClearValue app env) env >>= fun a =>
            Graphics.FramePresent a env).calls ∧
      (Graphics.Draw app env).result =
        (Graphics.FrameRender (withClearValue app env) env >>= fun a =>
          Graphics.FramePresent a env).result ∧
      (Graphics.Draw app env).calls.countP Call.isAcquire = 1) := by
  constructor
  · intro h
    have hm : (env.displaySize.1.leZero || env.displaySize.2.leZero) = true := by
      rcases h with h | h <;> simp [h]
    have hd := Draw_minimized app env hm
    refine ⟨hd, ?_, ?_, ?_⟩ <;> rw [hd] <;> exact guiFrameCalls_countP _ _ (by decide)
  · rintro ⟨hx, hy⟩
    have hpos : ∀ x : F32, x.gtZero = true → x.leZero = false := by
      intro x hx
      cases x with
      | finite v =>
        simp only [F32.gtZero, decide_eq_true_eq] at hx
        simp only [F32.leZero, decide_eq_false_iff_not, not_le]
        exact hx
      | posInf => rfl
      | negInf => cases hx
      | nan => cases hx
    have hm : (env.displaySize.1.leZero || env.displaySize.2.leZero) = false := by
      rw [hpos _ hx, hpos _ hy]; rfl
    have hd := Draw_shown app env hm
    refine ⟨by rw [hd]; rfl, by rw [hd]; rfl, ?_⟩
    rw [hd]
    show List.countP _ (_ ++ _) = 1
    rw [List.countP_append, guiFrameCalls_countP _ _ (by decide),
      (renderThenPresent_facts app env).1]

/-- Witness for claim C8: a display size of 0x720 makes `Draw` return the state
unchanged after the six calls of the GUI frame. -/
theorem Draw_skips_or_renders_witness :
    Graphics.Draw sampleApp
        { sampleFrame [] VK_SUCCESS with displaySize := (.finite 0, .finite 720) } =
      ⟨[.ImGui_ImplVulkan_NewFrame, .ImGui_ImplSDL2_NewFrame, .ImGui_NewFrame,
        .ImGui_ShowDemoWindow, .ImGui_Render, .ImGui_GetDrawData], .ok sampleApp⟩ :=
  ((Draw_skips_or_renders sampleApp
    { sampleFrame [] VK_SUCCESS with displaySize := (.finite 0, .finite 720) }).1
      (Or.inl (by decide))).1

/-- Claim C9, as stated, fails: `VK_INCOMPLETE` (5) is neither success nor a
rebuild code, and `CheckVkResult` logs it and returns to its caller. -/
theorem CheckVkResult_returns_on_incomplete :
    VK_INCOMPLETE ≠ VK_SUCCESS ∧ VK_INCOMPLETE ≠ VK_ERROR_OUT_OF_DATE_KHR ∧
    VK_INCOMPLETE ≠ VK_SUBOPTIMAL_KHR ∧
    Graphics.CheckVkResult VK_INCOMPLETE =
      ⟨[.Log_Message "[Vulkan] Error: VkResult = %d" [.int 5]], .ok ()⟩ :=
  ⟨by decide, by decide, by decide, rfl⟩

/-- Claim C9, amended: for every result code that is neither success nor a
rebuild code, `CheckVkResult` logs the code; it then aborts the process when
the code is negative, and returns to its caller when the code is positive. -/
theorem CheckVkResult_aborts_iff_negative (err : VkResult) (h0 : err ≠ VK_SUCCESS)
    (_h1 : err ≠ VK_ERROR_OUT_OF_DATE_KHR) (_h2 : err ≠ VK_SUBOPTIMAL_KHR) :
    (err < 0 → Graphics.CheckVkResult err =
      ⟨[.Log_Message "[Vulkan] Error: VkResult = %d" [.int err], .abort], .error .aborted⟩) ∧
    (0 < err → Graphics.CheckVkResult err =
      ⟨[.Log_Message "[Vulkan] Error: VkResult = %d" [.int err]], .ok ()⟩) ∧
    (err < 0 ∨ 0 < err) := by
  have h0' : ¬ err = 0 := h0
  refine ⟨?_, ?_, lt_or_gt_of_ne h0'⟩
  · intro hn
    unfold Graphics.CheckVkResult
    rw [if_neg h0']
    apply exec_ext
    · rw [calls_call_bind, if_pos hn]; rfl
    · rw [result_call_bind, if_pos hn]; rfl
  · intro hp
    have hn : ¬ err < 0 := not_lt.mpr (le_of_lt hp)
    unfold Graphics.CheckVkResult
    rw [if_neg h0']
    apply exec_ext
    · rw [calls_call_bind, if_neg hn]; rfl
    · rw [result_call_bind, if_neg hn]; rfl

/-- Witness for the amended claim C9: `VK_ERROR_DEVICE_LOST` (-4) is logged and
the process aborts. -/
theorem CheckVkResult_aborts_iff_negative_witness :
    Graphics.CheckVkResult VK_ERROR_DEVICE_LOST =
      ⟨[.Log_Message "[Vulkan] Error: VkResult = %d" [.int VK_ERROR_DEVICE_LOST], .abort],
        .error .aborted⟩ :=
  (CheckVkResult_aborts_iff_negative VK_ERROR_DEVICE_LOST (by decide) (by decide)
    (by decide)).1 (by decide)

/-- Claim C10: in the class encoding, the construction of the `Application`
ends the process with `exit(Error::SDLInitFailed)` when SDL fails to
start, `exit(Error::SDLWindowInitFailed)` when no window is created,
`exit(Error::SDLVKSurfaceCreatedFailed)` when no surface is created and
`exit(Error::VKCreateFrameBufferFailed)` when the device has no WSI support;
it exits with no other code; and the four codes are -1, -2, -3, -4: strictly
negative, different from 0 and pairwise distinct. -/
theorem startup_exit_codes (cfg : BuildConfig) (env : StartupEnv) (w : Window) :
    (env.sdlInit ≠ 0 →
      (Application.new cfg env w).result = .error (.exited Error.SDLInitFailed.toInt)) ∧
    (env.sdlInit = 0 → env.windowHandle = 0 →
      (Application.new cfg env w).result =
        .error (.exited Error.SDLWindowInitFailed.toInt)) ∧
    (∀ g, env.sdlInit = 0 → env.windowHandle ≠ 0 →
      (Graphics.new cfg env env.instanceExtensions env.instanceExtensions.length).result =
        .ok g →
      env.createSurface = 0 →
      (Application.new cfg env w).result =
        .error (.exited Error.SDLVKSurfaceCreatedFailed.toInt)) ∧
    (∀ g, env.sdlInit = 0 → env.windowHandle ≠ 0 →
      (Graphics.new cfg env env.instanceExtensions env.instanceExtensions.length).result =
        .ok g →
      env.createSurface ≠ 0 → env.surfaceSupport ≠ VK_TRUE →
      (Application.new cfg env w).result =
        .error (.exited Error.VKCreateFrameBufferFailed.toInt)) ∧
    (∀ code, (Application.new cfg env w).result = .error (.exited code) →
      ∃ e : Error, code = e.toInt) ∧
    (Error.SDLInitFailed.toInt = -1 ∧ Error.SDLWindowInitFailed.toInt = -2 ∧
      Error.SDLVKSurfaceCreatedFailed.toInt = -3 ∧
      Error.VKCreateFrameBufferFailed.toInt = -4) ∧
    (∀ e : Error, e.toInt < 0 ∧ e.toInt ≠ 0) ∧
    (∀ e1 e2 : Error, e1 ≠ e2 → e1.toInt ≠ e2.toInt) := by
  have hw := InitSDLWindow_result cfg env w
  have hok : env.sdlInit = 0 → env.windowHandle ≠ 0 →
      (Application.new cfg env w).result =
        (Application.InitVulkan cfg env >>= fun m_graphics =>
          (pure { m_window := { w with handler := env.windowHandle },
                  m_graphics := m_graphics, m_shouldClose := false,
                  m_SwapChainRebuild := false } : Exec Application)).result := by
    intro h0 h1
    rw [if_neg (not_not.mpr h0), if_neg h1] at hw
    unfold Application.new
    rw [result_bind_ok _ _ _ hw]
  refine ⟨?_, ?_, ?_, ?_, ?_, ⟨rfl, rfl, rfl, rfl⟩, ?_, ?_⟩
  · intro h
    rw [if_pos h] at hw
    unfold Application.new
    rw [result_bind_error _ _ _ hw]
  · intro h0 h1
    rw [if_neg (not_not.mpr h0), if_pos h1] at hw
    unfold Application.new
    rw [result_bind_error _ _ _ hw]
  · intro g h0 h1 hg hs
    have hv := InitVulkan_result cfg env g hg
    rw [if_pos hs] at hv
    rw [hok h0 h1, result_bind_error _ _ _ hv]
  · intro g h0 h1 hg hs hwsi
    have hf : (Graphics.CreateFrameBuffer cfg env g env.windowSize.1 env.windowSize.2).result =
        .error (.exited Error.VKCreateFrameBufferFailed.toInt) := by
      unfold Graphics.CreateFrameBuffer
      rw [SetupVulkanWindow_result, if_pos hwsi]
    have hv := InitVulkan_result cfg env g hg
    rw [if_neg hs, result_bind_error _ _ _ hf] at hv
    rw [hok h0 h1, result_bind_error _ _ _ hv]
  · intro code h
    by_cases h0 : env.sdlInit ≠ 0
    · rw [if_pos h0] at hw
      unfold Application.new at h
      rw [result_bind_error _ _ _ hw] at h
      cases h
      exact ⟨.SDLInitFailed, rfl⟩
    · by_cases h1 : env.windowHandle = 0
      · rw [if_neg h0, if_pos h1] at hw
        unfold Application.new at h
        rw [result_bind_error _ _ _ hw] at h
        cases h
        exact ⟨.SDLWindowInitFailed, rfl⟩
      · rw [hok (not_not.mp h0) h1] at h
        cases hv : (Application.InitVulkan cfg env).result with
        | error t =>
          rw [result_bind_error _ _ _ hv] at h
          cases h
          rcases InitVulkan_exit_codes cfg env code hv with hc | hc
          · exact ⟨.SDLVKSurfaceCreatedFailed, hc⟩
          · exact ⟨.VKCreateFrameBufferFailed, hc⟩
        | ok g =>
          rw [result_bind_ok _ _ _ hv] at h
          cases h
  · intro e
    cases e <;> decide
  · intro e1 e2 hne
    cases e1 <;> cases e2 <;> first | exact absurd rfl hne | decide

/-- Witness for claim C10: with a surface but no WSI support, the constructor
ends the process with exit code -4. -/
theorem startup_exit_codes_witness :
    (Application.new debugBuild { sampleStartup with surfaceSupport := 0 } Window.default).result =
      .error (.exited (-4)) :=
  (startup_exit_codes debugBuild { sampleStartup with surfaceSupport := 0 }
    Window.default).2.2.2.1 _ rfl (by decide) rfl (by decide) (by decide)

/-- Claim C11 does not hold of main.cpp.  At its four failure sites `main`
ends the process with -1 (SDL fails to start), -1 again (no window), 1 (no
surface) and -1 again (no WSI support, by `exit(-1)`): the codes are not
pairwise distinct, one is positive, and only the first is the code of the
class encoding.  What does hold is the last part: once the surface exists,
`main` returns only by its final `return 0`. -/
theorem main_exit_codes (cfg : BuildConfig) (env : StartupEnv) (frames : List FrameEnv)
    (waitIdle : VkResult) (destroyProc : Nat) :
    (env.sdlInit ≠ 0 →
      (Main.main cfg env frames waitIdle destroyProc).result = .ok (-1)) ∧
    (env.sdlInit = 0 → env.windowHandle = 0 →
      (Main.main cfg env frames waitIdle destroyProc).result = .ok (-1)) ∧
    (∀ d, env.sdlInit = 0 → env.windowHandle ≠ 0 →
      (Main.SetupVulkan cfg env (2 ^ 32 - 1) env.instanceExtensions
        env.instanceExtensions.length).result = .ok d →
      env.createSurface = 0 →
      (Main.main cfg env frames waitIdle destroyProc).result = .ok 1) ∧
    (∀ d, env.sdlInit = 0 → env.windowHandle ≠ 0 →
      (Main.SetupVulkan cfg env (2 ^ 32 - 1) env.instanceExtensions
        env.instanceExtensions.length).result = .ok d →
      env.createSurface ≠ 0 → env.surfaceSupport ≠ VK_TRUE →
      (Main.main cfg env frames waitIdle destroyProc).result = .error (.exited (-1))) ∧
    (env.sdlInit = 0 → env.windowHandle ≠ 0 → env.createSurface ≠ 0 →
      ∀ c, (Main.main cfg env frames waitIdle destroyProc).result = .ok c → c = 0) ∧
    Error.SDLWindowInitFailed.toInt ≠ -1 ∧ Error.SDLVKSurfaceCreatedFailed.toInt ≠ 1 ∧
    Error.VKCreateFrameBufferFailed.toInt ≠ -1 := by
  have hm := Main_main_result cfg env frames waitIdle destroyProc
  refine ⟨?_, ?_, ?_, ?_, ?_, by decide, by decide, by decide⟩
  · intro h
    rw [hm, if_pos h]
  · intro h0 h1
    rw [hm, if_neg (not_not.mpr h0), if_pos h1]
  · intro d h0 h1 hd hs
    rw [hm, if_neg (not_not.mpr h0), if_neg h1]
    exact (Main_withWindow_result cfg env _ frames waitIdle destroyProc d hd).1 hs
  · intro d h0 h1 hd hs hw
    rw [hm, if_neg (not_not.mpr h0), if_neg h1]
    exact (Main_withWindow_result cfg env _ frames waitIdle destroyProc d hd).2 hs hw
  · intro h0 h1 hs c hc
    rw [hm, if_neg (not_not.mpr h0), if_neg h1] at hc
    exact Main_withWindow_ensures cfg env _ frames waitIdle destroyProc hs c hc

/-- Evaluation for claim C11: when no window is created `main` returns -1, the
code it also returns when SDL fails to start, while the class encoding exits
with -2 at that site. -/
theorem main_exit_codes_witness :
    (Main.main debugBuild { sampleStartup with windowHandle := 0 } [] VK_SUCCESS 1).result =
      .ok (-1) ∧
    (Main.main debugBuild { sampleStartup with sdlInit := -1 } [] VK_SUCCESS 1).result =
      .ok (-1) ∧
    (Application.new debugBuild { sampleStartup with windowHandle := 0 } Window.default).result =
      .error (.exited (-2)) :=
  ⟨(main_exit_codes debugBuild { sampleStartup with windowHandle := 0 } [] VK_SUCCESS 1).2.1
      rfl rfl,
   (main_exit_codes debugBuild { sampleStartup with sdlInit := -1 } [] VK_SUCCESS 1).1
      (by decide),
   rfl⟩

/-- Claim C12: one iteration of the loop of `main` and one iteration of
`Application::Run`, started in corresponding states on the same inputs, make
the same calls in the same order, stop the same way if they stop, and
otherwise return corresponding states: the same should-close and rebuild
flags and the same window data (image count, frame index, semaphore index,
clear value).  The same holds of the two loops as a whole. -/
theorem encodings_agree (s : MainState) (env : FrameEnv) (frames : List FrameEnv) :
    (Main.iteration s env).calls = (Application.iteration s.toApplication env).calls ∧
    (Main.iteration s env).result.map MainState.toApplication =
      (Application.iteration s.toApplication env).result ∧
    (∀ s', (Main.iteration s env).result = .ok s' →
      ∃ app', (Application.iteration s.toApplication env).result = .ok app' ∧
        app'.m_shouldClose = s'.shouldClose ∧
        app'.m_SwapChainRebuild = s'.g_SwapChainRebuild ∧
        app'.m_graphics.m_MainWindowData = s'.g_MainWindowData) ∧
    (Main.loop s frames).calls = (Application.loop s.toApplication frames).calls ∧
    (Main.loop s frames).result.map MainState.toApplication =
      (Application.loop s.toApplication frames).result := by
  have hi := iteration_sim s env
  have hl := loop_sim frames s
  refine ⟨?_, ?_, ?_, ?_, ?_⟩
  · rw [← hi]; rfl
  · rw [← hi]; rfl
  · intro s' hs'
    refine ⟨s'.toApplication, ?_, rfl, rfl, rfl⟩
    rw [← hi, result_mapValue, hs']
    rfl
  · rw [← hl]; rfl
  · rw [← hl]; rfl

/-- Witness for claim C12: with no pending event and every call succeeding,
the iteration of `main` makes the eighteen calls of the class encoding. -/
theorem encodings_agree_witness :
    (Main.iteration sampleMain (sampleFrame [] VK_SUCCESS)).calls =
      [.SDL_PollEvent, .ImGui_ImplVulkan_NewFrame, .ImGui_ImplSDL2_NewFrame, .ImGui_NewFrame,
        .ImGui_ShowDemoWindow, .ImGui_Render, .ImGui_GetDrawData,
        .vkAcquireNextImageKHR 0, .vkWaitForFences 0, .vkResetFences 0,
        .vkResetCommandPool 0, .vkBeginCommandBuffer 0, .vkCmdBeginRenderPass 0,
        .ImGui_ImplVulkan_RenderDrawData 0, .vkCmdEndRenderPass 0, .vkEndCommandBuffer 0,
        .vkQueueSubmit 0 0 0, .vkQueuePresentKHR 0 0] :=
  (encodings_agree sampleMain (sampleFrame [] VK_SUCCESS) []).1.trans rfl

/-- Claim C13, as stated, fails: with the flag clear, a resize event of this
window and a window of 1280x720, the iteration returns with the flag still
clear and without any rebuild call. -/
theorem resize_event_leaves_flag_clear :
    resizeEvent.type = SDL_WINDOWEVENT ∧
    resizeEvent.window_event = SDL_WINDOWEVENT_RESIZED ∧
    sampleApp.m_SwapChainRebuild = false ∧
    (∃ app', (Application.iteration sampleApp
        (sampleFrame [resizeEvent] VK_SUCCESS)).result = .ok app' ∧
      app'.m_SwapChainRebuild = false) ∧
    (Application.iteration sampleApp
      (sampleFrame [resizeEvent] VK_SUCCESS)).calls.countP Call.isRebuild = 0 :=
  ⟨rfl, rfl, rfl, ⟨_, rfl, rfl⟩, rfl⟩

/-- Claim C13, amended: no event, a resize event included, changes the rebuild
flag or the window data when it is processed; an iteration entered with the
flag clear makes no rebuild call; and when such an iteration returns with the
flag raised, the acquire call or the present call has reported out-of-date
or suboptimal. -/
theorem flag_raised_only_by_acquire_or_present (app : Application) (env : FrameEnv)
    (hclear : app.m_SwapChainRebuild = false) :
    (∀ windowID event, ∃ app',
      (Application.handleEvent app windowID event).result = .ok app' ∧
      app'.m_SwapChainRebuild = app.m_SwapChainRebuild ∧
      app'.m_graphics = app.m_graphics) ∧
    (Application.iteration app env).calls.countP Call.isRebuild = 0 ∧
    (∀ app', (Application.iteration app env).result = .ok app' →
      app'.m_SwapChainRebuild = true →
      (env.acquire = VK_ERROR_OUT_OF_DATE_KHR ∨ env.acquire = VK_SUBOPTIMAL_KHR) ∨
      (env.queuePresent = VK_ERROR_OUT_OF_DATE_KHR ∨
        env.queuePresent = VK_SUBOPTIMAL_KHR)) := by
  have hrs := resizeSwapChain_clear (afterEvents app env) env hclear
  have hit := iteration_eq app _ env (congrArg Exec.result hrs)
  have e0 := pollEvents_countP Call.isRebuild env.windowID env.events app
    (by intro c; cases c <;> simp [Call.isEventCall, Call.isRebuild])
  refine ⟨?_, ?_, ?_⟩
  · intro windowID event
    exact ⟨_, handleEvent_result app windowID event, rfl, rfl⟩
  · rw [hit, hrs]
    show List.countP _ (_ ++ (_ ++ _)) = 0
    rw [List.countP_append, List.countP_append, e0, (Draw_facts _ env).2.2.1]
    rfl
  · intro app' hres hraised
    rw [hit] at hres
    change (Graphics.Draw (afterEvents app env) env).result = .ok app' at hres
    cases hm : (env.displaySize.1.leZero || env.displaySize.2.leZero) with
    | true =>
      rw [Draw_minimized _ env hm] at hres
      cases hres
      rw [show (afterEvents app env).m_SwapChainRebuild = false from hclear] at hraised
      cases hraised
    | false =>
      rw [Draw_shown _ env hm] at hres
      change (renderThenPresent (afterEvents app env) env).result = .ok app' at hres
      unfold renderThenPresent at hres
      cases hr : (Graphics.FrameRender (withClearValue (afterEvents app env) env) env).result
        with
      | error t =>
        rw [result_bind_error _ _ _ hr] at hres
        cases hres
      | ok a =>
        rw [result_bind_ok _ _ _ hr] at hres
        have ha := FrameRender_result_ok _ _ _ hr
        cases hacq : needsRebuild env.acquire with
        | true =>
          left
          simpa [needsRebuild] using hacq
        | false =>
          have hfa : a.m_SwapChainRebuild = false := by
            rw [ha]
            show (app.m_SwapChainRebuild || needsRebuild env.acquire) = false
            rw [hclear, hacq]; rfl
          cases hpr : needsRebuild env.queuePresent with
          | true =>
            right
            simpa [needsRebuild] using hpr
          | false =>
            rw [FramePresent_other a env hfa hpr] at hres
            change (if env.queuePresent < 0 then _ else _) = _ at hres
            split_ifs at hres
            cases hres
            rw [show ({ a with m_graphics := _ } : Application).m_SwapChainRebuild =
              a.m_SwapChainRebuild from rfl, hfa] at hraised
            cases hraised

/-- Witness for the amended claim C13: a resize event is processed with the
flag clear, and no rebuild call follows in the iteration. -/
theorem flag_raised_only_by_acquire_or_present_witness :
    (Application.iteration sampleApp
      (sampleFrame [resizeEvent] VK_SUCCESS)).calls.countP Call.isRebuild = 0 :=
  (flag_raised_only_by_acquire_or_present sampleApp (sampleFrame [resizeEvent] VK_SUCCESS)
    rfl).2.1

/-- Claim C14, as stated, fails: of `2^31` enumerated devices the second is a
discrete GPU and the first is not, and `Graphics::Init` returns with the
first: the count is negative as the `int` bound of the device loop, whose body
never runs. -/
theorem first_discrete_missed_beyond_int :
    crowdedStartup.deviceTypes ≠ [] ∧
    crowdedStartup.deviceTypes.length = 2 ^ 31 ∧
    crowdedStartup.deviceTypes[0]? = some VK_PHYSICAL_DEVICE_TYPE_INTEGRATED_GPU ∧
    crowdedStartup.deviceTypes[1]? = some VK_PHYSICAL_DEVICE_TYPE_DISCRETE_GPU ∧
    ∃ g', (Graphics.Init debugBuild crowdedStartup Graphics.initial
        ["VK_KHR_surface"] 1).result = .ok g' ∧
      g'.m_PhysicalDevice = some 0 := by
  have hne : crowdedStartup.deviceTypes ≠ [] := List.cons_ne_nil _ _
  have hlen : crowdedStartup.deviceTypes.length = 2 ^ 31 := by
    show (_ :: _ :: List.replicate (2 ^ 31 - 2) _).length = 2 ^ 31
    rw [List.length_cons, List.length_cons, List.length_replicate]
    norm_num
  have h := Init_device_index debugBuild crowdedStartup Graphics.initial
    ["VK_KHR_surface"] 1 hne
  have hq : Graphics.selectQueueFamily Graphics.initial.m_QueueFamily 0
      crowdedStartup.queueFlags = 0 := rfl
  obtain ⟨g', hg'⟩ := h.1 (le_refl _) (fun _ => ⟨Nat.one_ne_zero, le_refl _⟩) (le_refl _)
    (le_refl _) (fun _ => by rw [hq]; norm_num) (le_refl _) (le_refl _)
  obtain ⟨k, hk, _, _, hbig⟩ := h.2 g' hg'
  have hlist : crowdedStartup.deviceTypes =
      VK_PHYSICAL_DEVICE_TYPE_INTEGRATED_GPU :: VK_PHYSICAL_DEVICE_TYPE_DISCRETE_GPU ::
        List.replicate (2 ^ 31 - 2) VK_PHYSICAL_DEVICE_TYPE_INTEGRATED_GPU := rfl
  refine ⟨hne, hlen, ?_, ?_, g', hg', ?_⟩
  · rw [hlist]
    exact List.getElem?_cons_zero
  · rw [hlist]
    exact List.getElem?_cons_succ.trans List.getElem?_cons_zero
  · rw [hk, hbig (le_of_eq hlen.symm)]

/-- Claim C14, amended: for every non-empty enumeration of fewer than `2^31`
physical devices, `Graphics::Init` returns when no call fails, and whenever it
returns the device it has chosen is the one at the smallest index whose type
is discrete GPU if any device has that type, and otherwise the device at index
0; the chosen index is within the bounds of the list. -/
theorem Init_chooses_first_discrete (cfg : BuildConfig) (env : StartupEnv) (g : Graphics)
    (extensions : List String) (extensionCount : Nat) (hne : env.deviceTypes ≠ [])
    (hfit : env.deviceTypes.length < 2 ^ 31) :
    (0 ≤ env.createInstance →
      (cfg.debugReport = true →
        env.createDebugReportProc ≠ 0 ∧ 0 ≤ env.createDebugReportCallback) →
      0 ≤ env.enumerateCount → 0 ≤ env.enumerateDevices →
      (cfg.assertsEnabled = true →
        Graphics.selectQueueFamily g.m_QueueFamily 0 env.queueFlags ≠ 2 ^ 32 - 1) →
      0 ≤ env.createDevice → 0 ≤ env.createDescriptorPool →
      ∃ g', (Graphics.Init cfg env g extensions extensionCount).result = .ok g') ∧
    ∀ g', (Graphics.Init cfg env g extensions extensionCount).result = .ok g' →
      ∃ k, g'.m_PhysicalDevice = some k ∧ k < env.deviceTypes.length ∧
        ((env.deviceTypes[k]? = some VK_PHYSICAL_DEVICE_TYPE_DISCRETE_GPU ∧
            ∀ j : Nat, j < k →
              env.deviceTypes[j]? ≠ some VK_PHYSICAL_DEVICE_TYPE_DISCRETE_GPU) ∨
          (k = 0 ∧
            ∀ j : Nat,
              env.deviceTypes[j]? ≠ some VK_PHYSICAL_DEVICE_TYPE_DISCRETE_GPU)) := by
  have h := Init_device_index cfg env g extensions extensionCount hne
  refine ⟨h.1, ?_⟩
  intro g' hg'
  obtain ⟨k, hk, hlt, hsmall, _⟩ := h.2 g' hg'
  exact ⟨k, hk, hlt, hsmall hfit⟩

/-- Witness for the amended claim C14: of an integrated, a discrete and a
second discrete GPU, `Init` takes the one at index 1. -/
theorem Init_chooses_first_discrete_witness :
    ∃ g', (Graphics.Init debugBuild
        { sampleStartup with deviceTypes :=
            [VK_PHYSICAL_DEVICE_TYPE_INTEGRATED_GPU, VK_PHYSICAL_DEVICE_TYPE_DISCRETE_GPU,
              VK_PHYSICAL_DEVICE_TYPE_DISCRETE_GPU] }
        Graphics.initial ["VK_KHR_surface"] 1).result = .ok g' ∧
      g'.m_PhysicalDevice = some 1 :=
  ⟨_, rfl,
    ((Init_chooses_first_discrete debugBuild
        { sampleStartup with deviceTypes :=
            [VK_PHYSICAL_DEVICE_TYPE_INTEGRATED_GPU, VK_PHYSICAL_DEVICE_TYPE_DISCRETE_GPU,
              VK_PHYSICAL_DEVICE_TYPE_DISCRETE_GPU] }
        Graphics.initial ["VK_KHR_surface"] 1 (by decide) (by decide)).2 _ rfl).elim
      (fun _ _ => rfl)⟩

/-- Claim C15, as stated, fails: in a build without assertions, on a device
whose two queue families are a compute and a transfer family, the constructor
of `Graphics` returns, with the sentinel `(uint32_t)-1` as queue family, after
it has created the logical device with that index. -/
theorem release_build_creates_device_on_sentinel :
    (∀ f ∈ noGraphicsStartup.queueFlags, f &&& VK_QUEUE_GRAPHICS_BIT = 0) ∧
    (∃ g', (Graphics.new releaseBuild noGraphicsStartup ["VK_KHR_surface"] 1).result =
        .ok g' ∧ g'.m_QueueFamily = 4294967295) ∧
    (Graphics.new releaseBuild noGraphicsStartup ["VK_KHR_surface"] 1).calls =
      [.Log_Message "Vulkan Extension Count: %d extensions supports." [.int 1],
        .vkCreateInstance
          { enabledLayerCount := 0, ppEnabledLayerNames := [],
            enabledExtensionCount := 1, ppEnabledExtensionNames := ["VK_KHR_surface"] },
        .vkEnumeratePhysicalDevices, .vkEnumeratePhysicalDevices,
        .vkGetPhysicalDeviceProperties 0,
        .vkGetPhysicalDeviceQueueFamilyProperties, .vkGetPhysicalDeviceQueueFamilyProperties,
        .vkCreateDevice 4294967295 ["VK_KHR_swapchain"], .vkGetDeviceQueue 4294967295,
        .vkCreateDescriptorPool 11000 11] :=
  ⟨by decide, ⟨_, rfl, rfl⟩, rfl⟩

/-- Claim C15, amended: the constructor of `Graphics` takes as queue family the
smallest index whose flags hold the graphics bit, and creates the logical
device with it; when no family holds the bit the index stays at its sentinel
`(uint32_t)-1`.  In that case, with assertions compiled in, the assertion
aborts the process and no logical device is created; with assertions compiled
out, the constructor goes on and, if no call fails, returns after it has
created the logical device with the sentinel. -/
theorem queue_family_choice (cfg : BuildConfig) (env : StartupEnv)
    (extensions : List String) (extensionCount : Nat) :
    (((∃ f, env.queueFlags[Graphics.selectQueueFamily (2 ^ 32 - 1) 0 env.queueFlags]? =
            some f ∧ f &&& VK_QUEUE_GRAPHICS_BIT ≠ 0) ∧
        ∀ (j : Nat) f, j < Graphics.selectQueueFamily (2 ^ 32 - 1) 0 env.queueFlags →
          env.queueFlags[j]? = some f → f &&& VK_QUEUE_GRAPHICS_BIT = 0) ∨
      (Graphics.selectQueueFamily (2 ^ 32 - 1) 0 env.queueFlags = 2 ^ 32 - 1 ∧
        ∀ f, f ∈ env.queueFlags → f &&& VK_QUEUE_GRAPHICS_BIT = 0)) ∧
    (∀ g', (Graphics.new cfg env extensions extensionCount).result = .ok g' →
      g'.m_QueueFamily = Graphics.selectQueueFamily (2 ^ 32 - 1) 0 env.queueFlags ∧
      Call.vkCreateDevice (Graphics.selectQueueFamily (2 ^ 32 - 1) 0 env.queueFlags)
        ["VK_KHR_swapchain"] ∈ (Graphics.new cfg env extensions extensionCount).calls) ∧
    ((∀ f, f ∈ env.queueFlags → f &&& VK_QUEUE_GRAPHICS_BIT = 0) →
      cfg.assertsEnabled = true →
      (Graphics.new cfg env extensions extensionCount).result = .error .aborted ∧
      (Graphics.new cfg env extensions extensionCount).calls.countP Call.isCreateDevice = 0) ∧
    ((∀ f, f ∈ env.queueFlags → f &&& VK_QUEUE_GRAPHICS_BIT = 0) →
      cfg.assertsEnabled = false →
      0 ≤ env.createInstance →
      (cfg.debugReport = true →
        env.createDebugReportProc ≠ 0 ∧ 0 ≤ env.createDebugReportCallback) →
      0 ≤ env.enumerateCount → 0 ≤ env.enumerateDevices →
      0 ≤ env.createDevice → 0 ≤ env.createDescriptorPool →
      ∃ g', (Graphics.new cfg env extensions extensionCount).result = .ok g' ∧
        g'.m_QueueFamily = 2 ^ 32 - 1 ∧
        Call.vkCreateDevice (2 ^ 32 - 1) ["VK_KHR_swapchain"] ∈
          (Graphics.new cfg env extensions extensionCount).calls) := by
  obtain ⟨k, hk, _⟩ := selectGPU_result
    (if env.deviceTypes.length < 2 ^ 31 then env.deviceTypes else []) 0 0
  have hsel : (∀ f, f ∈ env.queueFlags → f &&& VK_QUEUE_GRAPHICS_BIT = 0) →
      Graphics.selectQueueFamily (2 ^ 32 - 1) 0 env.queueFlags = 2 ^ 32 - 1 := by
    intro hnone
    rcases selectQueueFamily_spec env.queueFlags (2 ^ 32 - 1) 0 with
      ⟨j, _, ⟨f, hf, hbit⟩, _⟩ | ⟨hs, _⟩
    · exact absurd (hnone f (List.getElem?_mem hf)) hbit
    · exact hs
  have hret : ∀ g', (Graphics.new cfg env extensions extensionCount).result = .ok g' →
      g'.m_QueueFamily = Graphics.selectQueueFamily (2 ^ 32 - 1) 0 env.queueFlags ∧
      Call.vkCreateDevice (Graphics.selectQueueFamily (2 ^ 32 - 1) 0 env.queueFlags)
        ["VK_KHR_swapchain"] ∈ (Graphics.new cfg env extensions extensionCount).calls := by
    intro g' hg'
    constructor
    · rw [(Init_ok_inv cfg env Graphics.initial extensions extensionCount k hk g' hg').1]
      rfl
    · exact Init_creates_device cfg env Graphics.initial extensions extensionCount g' hg'
  refine ⟨?_, hret, ?_, ?_⟩
  · rcases selectQueueFamily_spec env.queueFlags (2 ^ 32 - 1) 0 with
      ⟨j, hj, hf, hmin⟩ | ⟨hs, hnone⟩
    · rw [Nat.zero_add] at hj
      rw [hj]
      exact Or.inl ⟨hf, hmin⟩
    · exact Or.inr ⟨hs, hnone⟩
  · intro hnone hcfg
    exact ⟨Init_aborts_on_sentinel cfg env Graphics.initial extensions extensionCount hcfg
        (hsel hnone),
      callsAll_countP _ _ (Init_no_device_on_sentinel cfg env Graphics.initial extensions
        extensionCount hcfg (hsel hnone))⟩
  · intro hnone hcfg h1 h2 h3 h4 h6 h7
    have hres := Init_result cfg env Graphics.initial extensions extensionCount k hk
    have hok : (Graphics.new cfg env extensions extensionCount).result =
        .ok (initialised env Graphics.initial k) := by
      show (Graphics.Init cfg env Graphics.initial extensions extensionCount).result = _
      rw [hres, if_neg (not_lt.mpr h1), if_neg, if_neg, if_neg, if_neg (not_lt.mpr h3),
        if_neg, if_neg (not_lt.mpr h4), if_neg, if_neg (not_lt.mpr h6),
        if_neg (not_lt.mpr h7)]
      · rw [hcfg]
        exact fun h => Bool.false_ne_true h.1
      · rw [hcfg]
        exact fun h => Bool.false_ne_true h.1
      · exact fun h => not_lt.mpr (h2 h.1).2 h.2
      · exact fun h => (h2 h.1).1 h.2
      · exact fun h => (h2 h.1).1 h.2.2
    have := hret _ hok
    rw [hsel hnone] at this
    exact ⟨_, hok, this.1, this.2⟩

/-- Witness for the amended claim C15: in a build with assertions, on a device
without a graphics family, the constructor aborts and creates no device. -/
theorem queue_family_choice_witness :
    (Graphics.new debugBuild noGraphicsStartup ["VK_KHR_surface"] 1).result =
      .error .aborted ∧
    (Graphics.new debugBuild noGraphicsStartup ["VK_KHR_surface"] 1).calls.countP
      Call.isCreateDevice = 0 :=
  (queue_family_choice debugBuild noGraphicsStartup ["VK_KHR_surface"] 1).2.2.1
    (by decide) rfl

/-- Claim C16: a shutdown of the class encoding returns when the loop has
ended, `vkDeviceWaitIdle` has not failed and, in a build with diagnostics, the
destroy function of the callback was found; and whenever it returns, its
teardown calls are, in this order and each exactly once: `vkDeviceWaitIdle`,
`ImGui_ImplVulkan_Shutdown`, `vkDestroyDescriptorPool`,
`vkDestroyDebugReportCallbackEXT` (only when diagnostics are compiled in),
`vkDestroyDevice`, `vkDestroyInstance`. -/
theorem teardown_order (cfg : BuildConfig) (app : Application) (frames : List FrameEnv)
    (waitIdle : VkResult) (destroyProc : Nat) :
    ((∃ app', (Application.loop app frames).result = .ok app') → 0 ≤ waitIdle →
      (cfg.debugReport = true → destroyProc ≠ 0) →
      (Application.runAndDestroy cfg app frames waitIdle destroyProc).result = .ok ()) ∧
    ((Application.runAndDestroy cfg app frames waitIdle destroyProc).result = .ok () →
      (Application.runAndDestroy cfg app frames waitIdle destroyProc).calls.filter
          Call.isTeardown =
        [.vkDeviceWaitIdle, .ImGui_ImplVulkan_Shutdown, .vkDestroyDescriptorPool] ++
          (if cfg.debugReport = true then [.vkDestroyDebugReportCallbackEXT] else []) ++
          [.vkDestroyDevice, .vkDestroyInstance]) := by
  have hok := runAndDestroy_ok cfg app frames waitIdle destroyProc
  constructor
  · intro hl hw hd
    exact hok.1.mpr ⟨hl, not_lt.mpr hw, fun h => hd h.1 h.2⟩
  · intro h
    obtain ⟨_, hw, hd⟩ := hok.1.mp h
    have hloop : (Application.loop app frames).calls.filter Call.isTeardown = [] :=
      filter_of_callsAll _ _ (fun c hc =>
        isTeardown_of_isFrameCall _ c ((loop_keeps frames app).1 c hc))
    have hlog : (logCalls waitIdle).filter Call.isTeardown = [] :=
      logCalls_filter _ _ (fun _ _ => rfl)
    rw [hok.2 h, List.filter_append, List.filter_append, hloop, Cleanup_eq, destroy_eq,
      if_neg hw]
    show [] ++ (List.filter Call.isTeardown (.vkDeviceWaitIdle :: (logCalls waitIdle ++ _)) ++
      _) = _
    rw [List.filter_cons_of_pos rfl, List.filter_append, hlog]
    cases hdbg : cfg.debugReport
    · rfl
    · have hp : destroyProc ≠ 0 := fun hp => hd ⟨hdbg, hp⟩
      simp only [if_true, if_neg hp]
      rfl

/-- Witness for claim C16: the shutdown of `sampleApp` after a quit event, in a
build with diagnostics, makes the six teardown calls in the order stated. -/
theorem teardown_order_witness :
    (Application.runAndDestroy debugBuild sampleApp [sampleFrame [quitEvent] VK_SUCCESS]
        VK_SUCCESS 1).calls.filter Call.isTeardown =
      [.vkDeviceWaitIdle, .ImGui_ImplVulkan_Shutdown, .vkDestroyDescriptorPool,
        .vkDestroyDebugReportCallbackEXT, .vkDestroyDevice, .vkDestroyInstance] :=
  (teardown_order debugBuild sampleApp [sampleFrame [quitEvent] VK_SUCCESS]
    VK_SUCCESS 1).2 rfl

/-- Claim C17, as stated, fails: in a build with diagnostics the startup of
`sampleStartup` creates the window, the instance, the callback, the device,
the descriptor pool and the window data, in this order, and returns
`sampleApp`; the shutdown of `sampleApp` after a quit event destroys the window
first, not last, and the callback before the device, not after it. -/
theorem destruction_is_not_reverse_creation :
    (Application.new debugBuild sampleStartup Window.default).result = .ok sampleApp ∧
    (Application.new debugBuild sampleStartup Window.default).calls.filterMap Call.creates =
      [.window, .vulkanInstance, .debugCallback, .device, .descriptorPool, .windowData] ∧
    (Application.runAndDestroy debugBuild sampleApp [sampleFrame [quitEvent] VK_SUCCESS]
      VK_SUCCESS 1).result = .ok () ∧
    (Application.runAndDestroy debugBuild sampleApp [sampleFrame [quitEvent] VK_SUCCESS]
        VK_SUCCESS 1).calls.filterMap Call.destroys =
      [.window, .windowData, .descriptorPool, .debugCallback, .device, .vulkanInstance] ∧
    (Application.runAndDestroy debugBuild sampleApp [sampleFrame [quitEvent] VK_SUCCESS]
        VK_SUCCESS 1).calls.filterMap Call.destroys ≠
      ((Application.new debugBuild sampleStartup Window.default).calls.filterMap
        Call.creates).reverse :=
  ⟨rfl, rfl, rfl, rfl, by decide⟩

/-- Claim C17, amended: a constructor of `Application` that returns has
created the window, the instance, the callback (only when diagnostics are
compiled in), the device, the descriptor pool and the window data, in this
order; and a shutdown that returns has destroyed, the window left aside, the
window data, the descriptor pool, the callback (only when diagnostics are
compiled in), the device and the instance, in this order and each once: the
reverse of their creation, but for the callback, which is destroyed before
the device. -/
theorem vulkan_destroy_order (cfg : BuildConfig) (env : StartupEnv) (w : Window)
    (app : Application) (frames : List FrameEnv) (waitIdle : VkResult) (destroyProc : Nat) :
    (∀ a, (Application.new cfg env w).result = .ok a →
      (Application.new cfg env w).calls.filterMap Call.creates =
        [.window, .vulkanInstance] ++ (if cfg.debugReport = true then [.debugCallback] else []) ++
          [.device, .descriptorPool, .windowData]) ∧
    ((Application.runAndDestroy cfg app frames waitIdle destroyProc).result = .ok () →
      ((Application.runAndDestroy cfg app frames waitIdle destroyProc).calls.filterMap
          Call.destroys).filter (fun r => r != .window) =
        [.windowData, .descriptorPool] ++
          (if cfg.debugReport = true then [.debugCallback] else []) ++
          [.device, .vulkanInstance]) := by
  constructor
  · exact new_creates cfg env w
  · intro h
    rw [runAndDestroy_destroys cfg app frames waitIdle destroyProc () h]
    cases cfg.debugReport <;> rfl

/-- Witness for the amended claim C17: the Vulkan resources of `sampleApp` are
destroyed in the order stated. -/
theorem vulkan_destroy_order_witness :
    ((Application.runAndDestroy debugBuild sampleApp [sampleFrame [quitEvent] VK_SUCCESS]
        VK_SUCCESS 1).calls.filterMap Call.destroys).filter (fun r => r != .window) =
      [.windowData, .descriptorPool, .debugCallback, .device, .vulkanInstance] :=
  (vulkan_destroy_order debugBuild sampleStartup Window.default sampleApp
    [sampleFrame [quitEvent] VK_SUCCESS] VK_SUCCESS 1).2 rfl

/-- Claim C18, as stated, fails: for the format `"%s"` and an argument that
holds a newline, `Log::Message` writes two lines, of which the second has no
prefix. -/
theorem Message_writes_two_lines :
    Log.Message (fun _ _ => "a\nb".toList) "%s" [.str "a\nb"] =
      "[Message] a\nb\n".toList ∧
    (Log.Message (fun _ _ => "a\nb".toList) "%s" [.str "a\nb"]).count '\n' = 2 :=
  ⟨by decide, by decide⟩

/-- Claim C18, amended: for every format and arguments, `Log::Message` writes
the prefix `"[Message] "`, then the first 4095 chars of the formatted message
(all of it when it has at most 4095 chars), then a newline, and nothing else;
the text ends with that newline, and it is one line, the newline at its end
being its only one, when the formatted message holds no newline. -/
theorem Message_output (expand : String → List LogArg → List Char) (fmt : String)
    (args : List LogArg) :
    Log.Message expand fmt args =
      "[Message] ".toList ++ (expand fmt args).take 4095 ++ ['\n'] ∧
    ((expand fmt args).take 4095).length ≤ 4095 ∧
    ((expand fmt args).length ≤ 4095 →
      Log.Message expand fmt args = "[Message] ".toList ++ expand fmt args ++ ['\n']) ∧
    (Log.Message expand fmt args).getLast? = some '\n' ∧
    ('\n' ∉ expand fmt args → (Log.Message expand fmt args).count '\n' = 1) := by
  have heq : Log.Message expand fmt args =
      "[Message] ".toList ++ (expand fmt args).take 4095 ++ ['\n'] := rfl
  refine ⟨heq, ?_, ?_, ?_, ?_⟩
  · rw [List.length_take]
    exact Nat.min_le_left _ _
  · intro h
    rw [heq, List.take_of_length_le h]
  · rw [heq, List.getLast?_append]
    rfl
  · intro h
    have hp : List.count '\n' "[Message] ".toList = 0 := by decide
    have ht : List.count '\n' ((expand fmt args).take 4095) = 0 :=
      List.count_eq_zero.mpr (fun hm => h (List.mem_of_mem_take hm))
    rw [heq, List.count_append, List.count_append, hp, ht]
    rfl

/-- An instance of the amended claim C18: a message of 5000 chars is cut to 4095, and the
text written has 10 + 4095 + 1 chars. -/
theorem Message_output_witness :
    (Log.Message (fun _ _ => List.replicate 5000 'x') "%s" [.str "x"]).length = 4106 := by
  rw [(Message_output (fun _ _ => List.replicate 5000 'x') "%s" [.str "x"]).1,
    List.length_append, List.length_append, List.length_take, List.length_replicate]
  rfl

/-- Claim C19: for every state of the graphics object, every environment and
every width and height, `Graphics::RebuildSwapChain` returns with the frame
index 0 and `m_MinImageCount` unchanged, after two calls that both pass
`m_MinImageCount`.  That member is 2 in every `Application` a constructor
returns and stays 2 through the frame loop, so that every rebuild of the loop
requests 2; and with it the assertion `m_MinImageCount >= 2` of
`SetupVulkanWindow` never aborts, and the window is created with 2. -/
theorem RebuildSwapChain_resets (cfg : BuildConfig) (env : StartupEnv) (w : Window) :
    (∀ (g : Graphics) (fenv : FrameEnv) (width height : Int),
      Graphics.RebuildSwapChain g fenv width height =
        ⟨[.ImGui_ImplVulkan_SetMinImageCount g.m_MinImageCount,
          .ImGui_ImplVulkanH_CreateOrResizeWindow width height g.m_MinImageCount],
         .ok { g with m_MainWindowData := { fenv.resized with FrameIndex := 0 } }⟩ ∧
      ∃ g', (Graphics.RebuildSwapChain g fenv width height).result = .ok g' ∧
        g'.m_MainWindowData.FrameIndex = 0 ∧ g'.m_MinImageCount = g.m_MinImageCount) ∧
    Graphics.initial.m_MinImageCount = 2 ∧
    (∀ app, (Application.new cfg env w).result = .ok app →
      app.m_graphics.m_MinImageCount = 2) ∧
    (∀ (app : Application) (frames : List FrameEnv), app.m_graphics.m_MinImageCount = 2 →
      (∀ app', (Application.loop app frames).result = .ok app' →
        app'.m_graphics.m_MinImageCount = 2) ∧
      ∀ c ∈ (Application.loop app frames).calls,
        (∀ k, c = .ImGui_ImplVulkan_SetMinImageCount k → k = 2) ∧
        (∀ width height k,
          c = .ImGui_ImplVulkanH_CreateOrResizeWindow width height k → k = 2)) ∧
    (∀ (g : Graphics) (width height : Int), g.m_MinImageCount = 2 →
      (Graphics.SetupVulkanWindow cfg env g width height).result ≠ .error .aborted ∧
      (env.surfaceSupport = VK_TRUE →
        (Graphics.SetupVulkanWindow cfg env g width height).result =
          .ok { g with m_MainWindowData := env.createdWindow } ∧
        (Graphics.SetupVulkanWindow cfg env g width height).calls =
          [.vkGetPhysicalDeviceSurfaceSupportKHR g.m_QueueFamily,
            .ImGui_ImplVulkanH_SelectSurfaceFormat, .ImGui_ImplVulkanH_SelectPresentMode,
            .ImGui_ImplVulkanH_CreateOrResizeWindow width height 2])) := by
  refine ⟨fun g fenv width height => ⟨rfl, _, rfl, rfl, rfl⟩, rfl, new_minImageCount cfg env w,
    ?_, ?_⟩
  · intro app frames h2
    have hk := loop_keeps frames app
    rw [h2] at hk
    refine ⟨hk.2, ?_⟩
    intro c hc
    have hf := hk.1 c hc
    constructor
    · intro k hck
      rw [hck] at hf
      exact of_decide_eq_true hf
    · intro width height k hck
      rw [hck] at hf
      exact of_decide_eq_true hf
  · intro g width height h2
    have hassert : ¬(cfg.assertsEnabled && !decide (g.m_MinImageCount ≥ 2)) = true := by
      rw [h2]
      cases cfg.assertsEnabled <;> decide
    have hres := SetupVulkanWindow_result cfg env g width height
    constructor
    · rw [hres]
      split_ifs
      · intro h
        cases h
      · intro h
        cases h
    · intro hs
      constructor
      · rw [hres, if_neg (not_not.mpr hs), if_neg hassert]
      · unfold Graphics.SetupVulkanWindow
        have hok : (IM_ASSERT cfg (decide (g.m_MinImageCount ≥ 2))).calls = [] ∧
            (IM_ASSERT cfg (decide (g.m_MinImageCount ≥ 2))).result = .ok () := by
          unfold IM_ASSERT
          rw [if_neg hassert]
          exact ⟨rfl, rfl⟩
        rw [calls_call_bind, if_neg (not_not.mpr hs), calls_call_bind, calls_call_bind,
          calls_bind_ok _ _ _ hok.2, hok.1, h2]
        rfl

/-- An instance of claim C19: a rebuild of the window data of `sampleApp` for a
window of 800x600 requests 2 images and leaves the frame index at 0. -/
theorem RebuildSwapChain_resets_witness :
    (Graphics.RebuildSwapChain sampleGraphics (sampleFrame [] VK_SUCCESS) 800 600).calls =
      [.ImGui_ImplVulkan_SetMinImageCount 2,
        .ImGui_ImplVulkanH_CreateOrResizeWindow 800 600 2] :=
  congrArg Exec.calls ((RebuildSwapChain_resets debugBuild sampleStartup Window.default).1
    sampleGraphics (sampleFrame [] VK_SUCCESS) 800 600).1

/-- Claim C21: for an image count (a `uint32_t`, so below `2^32`) and a
semaphore index `s` below it, whenever `Graphics::FramePresent` returns the
image count is unchanged and the semaphore index is `(s + 1) mod imageCount`
if the present call was made and reported neither out-of-date nor suboptimal,
and `s` otherwise, so that it is below the image count again.  With the flag
clear on entry, the call returns in the first way for a code that is not
negative, aborts for a negative code that is not out-of-date, and returns in
the second way for out-of-date and suboptimal.  After `N` consecutive presents
of the first kind the index is `(s + N) mod imageCount`: `N mod imageCount`
from 0. -/
theorem FramePresent_semaphore_index (app : Application) (env : FrameEnv)
    (hs : app.m_graphics.m_MainWindowData.SemaphoreIndex <
      app.m_graphics.m_MainWindowData.ImageCount)
    (h32 : app.m_graphics.m_MainWindowData.ImageCount < 2 ^ 32) :
    (∀ app', (Graphics.FramePresent app env).result = .ok app' →
      app'.m_graphics.m_MainWindowData.ImageCount =
        app.m_graphics.m_MainWindowData.ImageCount ∧
      app'.m_graphics.m_MainWindowData.SemaphoreIndex =
        (if app.m_SwapChainRebuild = false ∧ needsRebuild env.queuePresent = false then
          (app.m_graphics.m_MainWindowData.SemaphoreIndex + 1) %
            app.m_graphics.m_MainWindowData.ImageCount
        else app.m_graphics.m_MainWindowData.SemaphoreIndex) ∧
      app'.m_graphics.m_MainWindowData.SemaphoreIndex <
        app'.m_graphics.m_MainWindowData.ImageCount) ∧
    (app.m_SwapChainRebuild = false → needsRebuild env.queuePresent = false →
      0 ≤ env.queuePresent →
      ∃ app', (Graphics.FramePresent app env).result = .ok app' ∧
        app'.m_graphics.m_MainWindowData.SemaphoreIndex =
          (app.m_graphics.m_MainWindowData.SemaphoreIndex + 1) %
            app.m_graphics.m_MainWindowData.ImageCount) ∧
    (app.m_SwapChainRebuild = false → needsRebuild env.queuePresent = false →
      env.queuePresent < 0 →
      (Graphics.FramePresent app env).result = .error .aborted) ∧
    (app.m_SwapChainRebuild = false → needsRebuild env.queuePresent = true →
      ∃ app', (Graphics.FramePresent app env).result = .ok app' ∧
        app'.m_graphics.m_MainWindowData.SemaphoreIndex =
          app.m_graphics.m_MainWindowData.SemaphoreIndex) ∧
    (∀ envs : List FrameEnv, app.m_SwapChainRebuild = false →
      (∀ e ∈ envs, needsRebuild e.queuePresent = false ∧ 0 ≤ e.queuePresent) →
      ∃ app', (presents app envs).result = .ok app' ∧
        app'.m_graphics.m_MainWindowData.SemaphoreIndex =
          (app.m_graphics.m_MainWindowData.SemaphoreIndex + envs.length) %
            app.m_graphics.m_MainWindowData.ImageCount ∧
        (app.m_graphics.m_MainWindowData.SemaphoreIndex = 0 →
          app'.m_graphics.m_MainWindowData.SemaphoreIndex =
            envs.length % app.m_graphics.m_MainWindowData.ImageCount)) := by
  have hlt32 : app.m_graphics.m_MainWindowData.SemaphoreIndex + 1 < 2 ^ 32 := by omega
  have hpos : 0 < app.m_graphics.m_MainWindowData.ImageCount := by omega
  have hinv : ∀ app', (Graphics.FramePresent app env).result = .ok app' →
      app'.m_graphics.m_MainWindowData.ImageCount =
        app.m_graphics.m_MainWindowData.ImageCount ∧
      app'.m_graphics.m_MainWindowData.SemaphoreIndex =
        (if app.m_SwapChainRebuild = false ∧ needsRebuild env.queuePresent = false then
          (app.m_graphics.m_MainWindowData.SemaphoreIndex + 1) %
            app.m_graphics.m_MainWindowData.ImageCount
        else app.m_graphics.m_MainWindowData.SemaphoreIndex) := by
    intro app' h
    obtain ⟨hc, _, hi, _⟩ := FramePresent_ok_inv app app' env h
    rw [Nat.mod_eq_of_lt hlt32] at hi
    exact ⟨hc, hi⟩
  refine ⟨?_, ?_, ?_, ?_, ?_⟩
  · intro app' h
    obtain ⟨hc, hi⟩ := hinv app' h
    refine ⟨hc, hi, ?_⟩
    rw [hi, hc]
    split_ifs
    · exact Nat.mod_lt _ hpos
    · exact hs
  · intro hf hp hnn
    have hr := congrArg Exec.result (FramePresent_other app env hf hp)
    rw [show (Exec.mk _ (if env.queuePresent < 0 then _ else _) : Exec Application).result =
      (if env.queuePresent < 0 then _ else _) from rfl, if_neg (not_lt.mpr hnn),
      if_neg (Nat.pos_iff_ne_zero.mp hpos)] at hr
    refine ⟨_, hr, ?_⟩
    rw [(hinv _ hr).2, if_pos ⟨hf, hp⟩]
  · intro hf hp hn
    have hr := congrArg Exec.result (FramePresent_other app env hf hp)
    rw [show (Exec.mk _ (if env.queuePresent < 0 then _ else _) : Exec Application).result =
      (if env.queuePresent < 0 then _ else _) from rfl, if_pos hn] at hr
    exact hr
  · intro hf hp
    rw [FramePresent_needsRebuild app env hf hp]
    exact ⟨_, rfl, rfl⟩
  · intro envs hf hall
    obtain ⟨app', hr, _, _, hi⟩ := presents_index envs app hf hs h32 hall
    refine ⟨app', hr, hi, ?_⟩
    intro h0
    rw [hi, h0, Nat.zero_add]

/-- Witness for claim C21: three successful presents of `sampleApp`, from slot
0 of 2 images, leave the semaphore index at `3 mod 2`. -/
theorem FramePresent_semaphore_index_witness :
    ∃ app', (presents sampleApp
        [sampleFrame [] VK_SUCCESS, sampleFrame [] VK_SUCCESS,
          sampleFrame [] VK_SUCCESS]).result = .ok app' ∧
      app'.m_graphics.m_MainWindowData.SemaphoreIndex = 3 % 2 := by
  obtain ⟨app', hr, _, h0⟩ :=
    (FramePresent_semaphore_index sampleApp (sampleFrame [] VK_SUCCESS) (by decide)
      (by decide)).2.2.2.2
      [sampleFrame [] VK_SUCCESS, sampleFrame [] VK_SUCCESS, sampleFrame [] VK_SUCCESS] rfl
      (by
        intro e he
        simp only [List.mem_cons, List.mem_singleton, List.mem_nil_iff, or_false, or_self]
          at he
        subst he
        exact ⟨by decide, by decide⟩)
  exact ⟨app', hr, h0 rfl⟩

/-- Claim C22 does not hold of the code.  In a build with diagnostics, for the
`extensionCount` names of the window host, `Graphics::Init` - and `SetupVulkan`
of main.cpp alike - passes to `vkCreateInstance` an extension count of
`extensionCount + 1` with the array of the window host, which has
`extensionCount` entries and not the debug-report extension at its end, and a
layer count of 1 with the duplicated array as layer names, not the array that
holds the Khronos validation layer: the duplicated array is assigned to
`ppEnabledLayerNames` instead of `ppEnabledExtensionNames`. -/
theorem debug_instance_parameters (cfg : BuildConfig) (env : StartupEnv) (g : Graphics)
    (extensions : List String) (extensionCount : Nat) (hdbg : cfg.debugReport = true)
    (hlen : extensions.length = extensionCount) (h32 : extensionCount + 1 < 2 ^ 32) :
    ∃ createInfo : VkInstanceCreateInfo,
      (Graphics.Init cfg env g extensions extensionCount).calls.take 3 =
        [.Log_Message "Vulkan Extension Count: %d extensions supports." [.int extensionCount],
          .Log_Message "IMGUI_VULKAN_DEBUG_REPORT is on." [],
          .vkCreateInstance createInfo] ∧
      (∀ c ∈ (Graphics.Init cfg env g extensions extensionCount).calls,
        c.createInfo = none ∨ c.createInfo = some createInfo) ∧
      (Main.SetupVulkan cfg env g.m_QueueFamily extensions extensionCount).calls.take 2 =
        [.Log_Message "Vulkan Extension Count: %d extensions supports." [.int extensionCount],
          .vkCreateInstance createInfo] ∧
      createInfo.enabledExtensionCount = extensionCount + 1 ∧
      createInfo.ppEnabledExtensionNames = extensions ∧
      createInfo.enabledExtensionCount ≠ createInfo.ppEnabledExtensionNames.length ∧
      createInfo.enabledLayerCount = 1 ∧
      createInfo.ppEnabledLayerNames = extensions ++ ["VK_EXT_debug_report"] ∧
      createInfo.ppEnabledLayerNames ≠ ["VK_LAYER_KHRONOS_validation"] := by
  obtain ⟨h1, h2⟩ := Init_createInfo_debug cfg env g extensions extensionCount hdbg
  have h3 := SetupVulkan_createInfo_debug cfg env g.m_QueueFamily extensions extensionCount hdbg
  have htake : extensions.take extensionCount = extensions :=
    List.take_of_length_le (le_of_eq hlen)
  refine ⟨_, h1, h2, h3, Nat.mod_eq_of_lt h32, rfl, ?_, rfl, ?_, ?_⟩
  · show (extensionCount + 1) % 2 ^ 32 ≠ extensions.length
    rw [Nat.mod_eq_of_lt h32, hlen]
    exact Nat.succ_ne_self _
  · show extensions.take extensionCount ++ ["VK_EXT_debug_report"] = _
    rw [htake]
  · show extensions.take extensionCount ++ ["VK_EXT_debug_report"] ≠ _
    intro h
    have hl := congrArg List.getLast? h
    rw [List.getLast?_append] at hl
    simp at hl

/-- Evaluation for claim C22: for the two extensions of the window host of
`sampleStartup`, `vkCreateInstance` gets the count 3 with the two names of the
window host, and the count 1 with three layer names, of which the first is
`VK_KHR_surface`. -/
theorem debug_instance_parameters_witness :
    (Graphics.Init debugBuild sampleStartup Graphics.initial
        ["VK_KHR_surface", "VK_KHR_win32_surface"] 2).calls.take 3 =
      [.Log_Message "Vulkan Extension Count: %d extensions supports." [.int 2],
        .Log_Message "IMGUI_VULKAN_DEBUG_REPORT is on." [],
        .vkCreateInstance
          { enabledLayerCount := 1
            ppEnabledLayerNames := ["VK_KHR_surface", "VK_KHR_win32_surface",
              "VK_EXT_debug_report"]
            enabledExtensionCount := 3
            ppEnabledExtensionNames := ["VK_KHR_surface", "VK_KHR_win32_surface"] }] := by
  obtain ⟨createInfo, h1, _, _, hcount, hnames, _, hlayers, hlayerNames, _⟩ :=
    debug_instance_parameters debugBuild sampleStartup Graphics.initial
      ["VK_KHR_surface", "VK_KHR_win32_surface"] 2 rfl rfl (by decide)
  have hci : createInfo =
      { enabledLayerCount := 1
        ppEnabledLayerNames := ["VK_KHR_surface", "VK_KHR_win32_surface",
          "VK_EXT_debug_report"]
        enabledExtensionCount := 3
        ppEnabledExtensionNames := ["VK_KHR_surface", "VK_KHR_win32_surface"] } := by
    cases createInfo
    simp only at hcount hnames hlayers hlayerNames
    rw [hcount, hnames, hlayers, hlayerNames]
    rfl
  rw [h1, hci]
  rfl

/-- Claim C23: for every result code `err`, `Graphics::CheckVkResult` - and the
free function `CheckVkResult` of main.cpp, which is the same - writes one log
line when `err` is not 0 and none when it is, and ends the process with
`abort()` exactly when `err` is negative; for every positive `err` it writes
the log line and returns to its caller. -/
theorem CheckVkResult_logs_and_aborts (err : VkResult) :
    (Graphics.CheckVkResult err).calls =
      (if err ≠ 0 then [.Log_Message "[Vulkan] Error: VkResult = %d" [.int err]] else []) ++
        (if err < 0 then [.abort] else []) ∧
    ((Graphics.CheckVkResult err).calls.countP Call.isLog = 1 ↔ err ≠ 0) ∧
    ((Graphics.CheckVkResult err).calls.countP Call.isLog = 0 ↔ err = 0) ∧
    ((Graphics.CheckVkResult err).result = .error .aborted ↔ err < 0) ∧
    ((Graphics.CheckVkResult err).result = .ok () ↔ 0 ≤ err) ∧
    (0 < err → Graphics.CheckVkResult err =
      ⟨[.Log_Message "[Vulkan] Error: VkResult = %d" [.int err]], .ok ()⟩) ∧
    Main.CheckVkResult err = Graphics.CheckVkResult err := by
  have hc := calls_CheckVkResult err
  have hr := result_CheckVkResult err
  have hlog : (Graphics.CheckVkResult err).calls.countP Call.isLog =
      if err = 0 then 0 else 1 := by
    rw [hc]
    unfold logCalls
    by_cases h0 : err = 0
    · subst h0
      rfl
    · rw [if_neg h0, if_neg h0]
      by_cases hn : err < 0
      · rw [if_pos hn]; rfl
      · rw [if_neg hn]; rfl
  refine ⟨?_, ?_, ?_, ?_, ?_, ?_, rfl⟩
  · rw [hc]
    unfold logCalls
    by_cases h0 : err = 0
    · rw [if_pos h0, if_neg (not_not.mpr h0)]
    · rw [if_neg h0, if_pos h0]
  · rw [hlog]
    by_cases h0 : err = 0
    · rw [if_pos h0]
      exact ⟨fun h => absurd h (by decide), fun h => absurd h0 h⟩
    · rw [if_neg h0]
      exact ⟨fun _ => h0, fun _ => rfl⟩
  · rw [hlog]
    by_cases h0 : err = 0
    · rw [if_pos h0]
      exact ⟨fun _ => h0, fun _ => rfl⟩
    · rw [if_neg h0]
      exact ⟨fun h => absurd h (by decide), fun h => absurd h h0⟩
  · rw [hr]
    by_cases hn : err < 0
    · rw [if_pos hn]
      exact ⟨fun _ => hn, fun _ => rfl⟩
    · rw [if_neg hn]
      exact ⟨fun h => (by cases h), fun h => absurd h hn⟩
  · rw [hr]
    by_cases hn : err < 0
    · rw [if_pos hn]
      exact ⟨fun h => (by cases h), fun h => absurd hn (not_lt.mpr h)⟩
    · rw [if_neg hn]
      exact ⟨fun _ => not_lt.mp hn, fun _ => rfl⟩
  · intro hp
    have h0 : ¬ err = 0 := fun h => by rw [h] at hp; exact absurd hp (by decide)
    have hn : ¬ err < 0 := not_lt.mpr (le_of_lt hp)
    apply exec_ext
    · rw [hc, if_neg hn]
      unfold logCalls
      rw [if_neg h0]
      rfl
    · rw [hr, if_neg hn]

/-- Instances of claim C23: `VK_NOT_READY`, `VK_TIMEOUT` and `VK_SUBOPTIMAL_KHR`
are logged and `CheckVkResult` returns; `VK_SUCCESS` is not logged. -/
theorem CheckVkResult_logs_and_aborts_witness :
    Graphics.CheckVkResult VK_NOT_READY =
      ⟨[.Log_Message "[Vulkan] Error: VkResult = %d" [.int 1]], .ok ()⟩ ∧
    Graphics.CheckVkResult VK_TIMEOUT =
      ⟨[.Log_Message "[Vulkan] Error: VkResult = %d" [.int 2]], .ok ()⟩ ∧
    Graphics.CheckVkResult VK_SUBOPTIMAL_KHR =
      ⟨[.Log_Message "[Vulkan] Error: VkResult = %d" [.int 1000001003]], .ok ()⟩ ∧
    (Graphics.CheckVkResult VK_SUCCESS).calls.countP Call.isLog = 0 :=
  ⟨(CheckVkResult_logs_and_aborts VK_NOT_READY).2.2.2.2.2.1 (by decide),
    (CheckVkResult_logs_and_aborts VK_TIMEOUT).2.2.2.2.2.1 (by decide),
    (CheckVkResult_logs_and_aborts VK_SUBOPTIMAL_KHR).2.2.2.2.2.1 (by decide),
    (CheckVkResult_logs_and_aborts VK_SUCCESS).2.2.1.mpr rfl⟩

/-- Claim C24: a `Graphics::FramePresent` entered with the rebuild flag set
makes no call at all and returns the state it was given, so the flag and the
semaphore index are unchanged.  That is so when `FrameRender` of the same
`Draw` has acquired an image and submitted its command buffer, the flag having
been set on entry; when the flag was raised by the acquire call of the same
`Draw`; and in an iteration that found the flag set and a window size that is
not positive at the rebuild check. -/
theorem FramePresent_skips_when_flag_set (app : Application) (env : FrameEnv) :
    (app.m_SwapChainRebuild = true →
      Graphics.FramePresent app env = ⟨[], .ok app⟩ ∧
      (Graphics.FramePresent app env).calls.countP Call.isPresent = 0) ∧
    (app.m_SwapChainRebuild = true →
      (env.displaySize.1.leZero || env.displaySize.2.leZero) = false →
      needsRebuild env.acquire = false →
      ∀ a, (Graphics.FrameRender (withClearValue app env) env).result = .ok a →
        (Graphics.Draw app env).result = .ok a ∧
        a.m_SwapChainRebuild = true ∧
        a.m_graphics.m_MainWindowData.SemaphoreIndex =
          app.m_graphics.m_MainWindowData.SemaphoreIndex ∧
        (Graphics.Draw app env).calls.countP Call.isAcquire = 1 ∧
        (Graphics.Draw app env).calls.countP Call.isSubmit = 1 ∧
        (Graphics.Draw app env).calls.countP Call.isPresent = 0) ∧
    ((env.displaySize.1.leZero || env.displaySize.2.leZero) = false →
      needsRebuild env.acquire = true →
      ∃ a, (Graphics.Draw app env).result = .ok a ∧
        a.m_SwapChainRebuild = true ∧
        a.m_graphics.m_MainWindowData.SemaphoreIndex =
          app.m_graphics.m_MainWindowData.SemaphoreIndex ∧
        (Graphics.Draw app env).calls.countP Call.isAcquire = 1 ∧
        (Graphics.Draw app env).calls.countP Call.isPresent = 0) ∧
    (app.m_SwapChainRebuild = true →
      (env.windowSize.1 ≤ 0 ∨ env.windowSize.2 ≤ 0) →
      (Application.iteration app env).calls.countP Call.isPresent = 0 ∧
      ∀ app', (Application.iteration app env).result = .ok app' →
        app'.m_SwapChainRebuild = true ∧
        app'.m_graphics.m_MainWindowData.SemaphoreIndex =
          app.m_graphics.m_MainWindowData.SemaphoreIndex) := by
  have g1 := guiFrameCalls_countP Call.isAcquire app.m_graphics.m_showDemoWidow (by decide)
  have g2 := guiFrameCalls_countP Call.isPresent app.m_graphics.m_showDemoWidow (by decide)
  have g3 := guiFrameCalls_countP Call.isSubmit app.m_graphics.m_showDemoWidow (by decide)
  refine ⟨?_, ?_, ?_, ?_⟩
  · intro hflag
    rw [FramePresent_flag_set app env hflag]
    exact ⟨rfl, rfl⟩
  · intro hflag hm hn a hr
    have ha := FrameRender_result_ok _ _ _ hr
    have hfa : a.m_SwapChainRebuild = true := by
      rw [ha]
      show (app.m_SwapChainRebuild || needsRebuild env.acquire) = true
      rw [hflag]
      rfl
    have hcalls : (Graphics.Draw app env).calls =
        guiFrameCalls app.m_graphics.m_showDemoWidow ++
          (Graphics.FrameRender (withClearValue app env) env).calls := by
      rw [Draw_shown app env hm]
      show _ ++ (renderThenPresent app env).calls = _
      unfold renderThenPresent
      rw [calls_bind_ok _ _ _ hr, FramePresent_flag_set a env hfa]
      show _ ++ (_ ++ []) = _
      rw [List.append_nil]
    refine ⟨?_, hfa, ?_, ?_, ?_, ?_⟩
    · rw [Draw_shown app env hm]
      show (renderThenPresent app env).result = _
      unfold renderThenPresent
      rw [result_bind_ok _ _ _ hr, FramePresent_flag_set a env hfa]
    · rw [ha]
      rfl
    · rw [hcalls, List.countP_append, g1, FrameRender_count_acquire]
    · rw [hcalls, List.countP_append, g3, (FrameRender_ok_counts _ a env hr hn).2]
    · rw [hcalls, List.countP_append, g2, FrameRender_count_present]
  · intro hm hn
    have hfr := FrameRender_needsRebuild (withClearValue app env) env hn
    obtain ⟨a, hr⟩ : ∃ a, (Graphics.FrameRender (withClearValue app env) env).result = .ok a :=
      ⟨_, congrArg Exec.result hfr⟩
    have hc : (Graphics.FrameRender (withClearValue app env) env).calls =
        [.vkAcquireNextImageKHR app.m_graphics.m_MainWindowData.SemaphoreIndex] :=
      congrArg Exec.calls hfr
    have ha := FrameRender_result_ok _ _ _ hr
    have hfa : a.m_SwapChainRebuild = true := by
      rw [ha]
      show (app.m_SwapChainRebuild || needsRebuild env.acquire) = true
      rw [hn]
      exact Bool.or_true _
    have hcalls : (Graphics.Draw app env).calls =
        guiFrameCalls app.m_graphics.m_showDemoWidow ++
          [.vkAcquireNextImageKHR app.m_graphics.m_MainWindowData.SemaphoreIndex] := by
      rw [Draw_shown app env hm]
      show _ ++ (renderThenPresent app env).calls = _
      unfold renderThenPresent
      rw [calls_bind_ok _ _ _ hr, hc, FramePresent_flag_set a env hfa]
      rfl
    refine ⟨a, ?_, hfa, ?_, ?_, ?_⟩
    · rw [Draw_shown app env hm]
      show (renderThenPresent app env).result = _
      unfold renderThenPresent
      rw [result_bind_ok _ _ _ hr, FramePresent_flag_set a env hfa]
    · rw [ha]
      rfl
    · rw [hcalls, List.countP_append, g1]
      rfl
    · rw [hcalls, List.countP_append, g2]
      rfl
  · intro hflag hs
    have hfa : (afterEvents app env).m_SwapChainRebuild = true := hflag
    have hrs := resizeSwapChain_degenerate (afterEvents app env) env hfa hs
    have hit := iteration_eq app _ env (congrArg Exec.result hrs)
    have e0 := pollEvents_countP Call.isPresent env.windowID env.events app
      (by intro c; cases c <;> simp [Call.isEventCall, Call.isPresent])
    obtain ⟨d1, d2⟩ := Draw_flag_set (afterEvents app env) env hfa
    rw [hit, hrs]
    constructor
    · show List.countP _ (_ ++ (_ ++ _)) = 0
      rw [List.countP_append, List.countP_append, e0, d1]
      rfl
    · exact d2

/-- Witness for claim C24: with the flag set and a window of width 0 at the
rebuild check, the iteration of `sampleApp` acquires and submits, makes no
present call, and leaves the flag set and the semaphore index at 0. -/
theorem FramePresent_skips_when_flag_set_witness :
    (Application.iteration { sampleApp with m_SwapChainRebuild := true }
      { sampleFrame [] VK_SUCCESS with windowSize := (0, 720) }).calls.countP
        Call.isPresent = 0 ∧
    (Application.iteration { sampleApp with m_SwapChainRebuild := true }
      { sampleFrame [] VK_SUCCESS with windowSize := (0, 720) }).calls.countP
        Call.isSubmit = 1 ∧
    ∃ app', (Application.iteration { sampleApp with m_SwapChainRebuild := true }
        { sampleFrame [] VK_SUCCESS with windowSize := (0, 720) }).result = .ok app' ∧
      app'.m_SwapChainRebuild = true ∧
      app'.m_graphics.m_MainWindowData.SemaphoreIndex = 0 :=
  ⟨((FramePresent_skips_when_flag_set { sampleApp with m_SwapChainRebuild := true }
      { sampleFrame [] VK_SUCCESS with windowSize := (0, 720) }).2.2.2 rfl
        (Or.inl (by decide))).1,
    rfl,
    _, rfl,
    ((FramePresent_skips_when_flag_set { sampleApp with m_SwapChainRebuild := true }
      { sampleFrame [] VK_SUCCESS with windowSize := (0, 720) }).2.2.2 rfl
        (Or.inl (by decide))).2 _ rfl⟩

end VulkanExample
